import Mathlib

/-!
Key gesture detector (ESP32-S3 key driver)

A shallow embedding of `Boot-Key/components/key_deteced/key_detector.c`
together with the constants and types of `key_common.h` and `key_config.h`.

* 32-bit unsigned values are natural numbers; every subtraction and addition
  the C code performs on `uint32_t` is written with `u32_sub` / `u32_add`,
  which reduce modulo `2 ^ 32`.  `click_count` is a `uint8_t` and is
  incremented modulo `256`.
* `key_state_t` is a C enum, so a record may hold a value outside the four
  named states; states are therefore numeric codes.
* Everything the scan loop obtains from its collaborators during one
  iteration (the two GPIO samples, the clock reads and the outcome of
  `xQueueSend`) is an explicit input of the iteration.

The register encoding of `03_demo_I2C/components/Bsp/PCF85063/PCF85063.c`
(BCD conversion, `PCF85063_Set_All`, `PCF85063_Read_Time`) is embedded as
well: `int` values are integers, and the buffers exchanged with the I2C
driver are lists of bytes.
-/

namespace KeyDetector

/-! Types and constants of key_common.h -/

/-- The enum `key_event_t`. -/
inductive key_event_t where
  | KEY_EVENT_NONE
  | KEY_EVENT_PRESS_DOWN
  | KEY_EVENT_PRESS_UP
  | KEY_EVENT_PRESS_REPEAT
  | KEY_EVENT_SINGLE_CLICK
  | KEY_EVENT_DOUBLE_CLICK
  | KEY_EVENT_LONG_PRESS_START
  | KEY_EVENT_LONG_PRESS_HOLD
  | KEY_EVENT_LONG_PRESS_END
  | KEY_EVENT_MAX
  deriving DecidableEq, Repr

open key_event_t

/-- The enum `key_state_t`, as the integer a record stores. -/
abbrev key_state_t := Nat

abbrev KEY_STATE_RELEASED : key_state_t := 0
abbrev KEY_STATE_PRESSED : key_state_t := 1
abbrev KEY_STATE_DEBOUNCE : key_state_t := 2
abbrev KEY_STATE_WAIT_RELEASE : key_state_t := 3

/-- The struct `key_event_msg_t`: what `send_key_event` builds for one event. -/
structure key_event_msg_t where
  key_id : Nat
  event : key_event_t
  timestamp : Nat
  deriving DecidableEq, Repr

abbrev KEY_DEBOUNCE_TIME_MS : Nat := 20
abbrev KEY_CLICK_TIME_MS : Nat := 300
abbrev KEY_DOUBLE_CLICK_INTERVAL_MS : Nat := 500
abbrev KEY_LONG_PRESS_TIME_MS : Nat := 1000
abbrev KEY_LONG_PRESS_HOLD_INTERVAL_MS : Nat := 200

/-! Types and constants of key_config.h -/

abbrev MAX_KEY_COUNT : Nat := 8

/-- The enum `key_active_level_t`. -/
inductive key_active_level_t where
  | KEY_ACTIVE_LOW
  | KEY_ACTIVE_HIGH
  deriving DecidableEq, Repr

/-- The struct `key_hw_config_t` (the name string, used only in log lines, is
left out). -/
structure key_hw_config_t where
  gpio_num : Nat
  active_level : key_active_level_t
  pull_enable : Nat
  pull_up : Nat
  deriving DecidableEq, Repr

/-- The struct `key_detector_config_t`.  `hw_configs` is a pointer and may be
NULL (`none`); of the queue handle and the callback pointer the detector only
tests whether they are NULL, so each is the truth value of "non-NULL". -/
structure key_detector_config_t where
  hw_configs : Option (List key_hw_config_t)
  key_count : Nat
  scan_interval_ms : Nat
  event_queue : Bool
  event_callback : Bool
  deriving DecidableEq, Repr

/-! The functions of key_detector.c -/

abbrev UINT32_MAX : Nat := 4294967295

/-- Subtraction of `uint32_t` values: the result is reduced modulo `2 ^ 32`. -/
def u32_sub (a b : Nat) : Nat := (a + (4294967296 - b % 4294967296)) % 4294967296

/-- Addition of `uint32_t` values: the result is reduced modulo `2 ^ 32`. -/
def u32_add (a b : Nat) : Nat := (a + b) % 4294967296

/-- The struct `key_info_t`, one record per key. -/
structure key_info_t where
  key_id : Nat
  state : key_state_t
  last_state : key_state_t
  press_timestamp : Nat
  release_timestamp : Nat
  last_event_timestamp : Nat
  click_count : Nat
  long_press_detected : Bool
  deriving DecidableEq, Repr

/-- The struct `key_detector_t`; a handle is `Option key_detector_t`, `none`
being the NULL handle. -/
structure key_detector_t where
  config : key_detector_config_t
  key_infos : List key_info_t
  scan_task_handle : Option Nat
  task_running : Bool
  tick_counter : Nat
  deriving DecidableEq, Repr

/-- The record `key_detector_create` writes for key `i` (lines 350-359). -/
def key_info_init (i : Nat) : key_info_t :=
  { key_id := i, state := KEY_STATE_RELEASED, last_state := KEY_STATE_RELEASED,
    press_timestamp := 0, release_timestamp := 0, last_event_timestamp := 0,
    click_count := 0, long_press_detected := false }

/-- The function `time_diff_ms` (lines 80-87). -/
def time_diff_ms (earlier later : Nat) : Nat :=
  if later ≥ earlier then
    u32_sub later earlier
  else
    u32_add (u32_sub UINT32_MAX earlier) later

/-- What one call of `send_key_event` obtains from outside the detector: the
clock value read at line 107 and whether `xQueueSend` returned `pdTRUE`
(line 115). -/
structure send_outcome_t where
  timestamp : Nat
  queue_ok : Bool
  deriving DecidableEq, Repr

/-- The function `send_key_event` (lines 96-134), as it acts on the record
`detector->key_infos[key_id]`: returns the value of `sent` and the record. -/
def send_key_event (config : key_detector_config_t) (key_info : key_info_t)
    (key_id : Nat) (event : key_event_t) (oc : send_outcome_t) : Bool × key_info_t :=
  if event = KEY_EVENT_NONE then
    (false, key_info)
  else
    let sent := false
    let sent := if config.event_queue then oc.queue_ok else sent
    let sent := if config.event_callback then true else sent
    if sent && decide (config.key_count > key_id) then
      (sent, { key_info with last_event_timestamp := oc.timestamp })
    else
      (sent, key_info)

/-- The inputs of one iteration of the scan loop for one key: the sample of
line 153, the clock read of line 154, the re-sample of line 207, and the
outside results of the first and of the second `send_key_event` call. -/
structure scan_input_t where
  pressed : Bool
  current_time : Nat
  still_pressed : Bool
  send1 : send_outcome_t
  send2 : send_outcome_t
  deriving DecidableEq, Repr

/-- The key record during one iteration, with the list of calls of
`send_key_event` made so far (arguments and clock value of each call). -/
structure scan_ctx_t where
  key_info : key_info_t
  log : List key_event_msg_t
  deriving DecidableEq, Repr

/-- One call `send_key_event(detector, i, event)` inside the scan loop. -/
def scan_send (config : key_detector_config_t) (i : Nat) (inp : scan_input_t)
    (c : scan_ctx_t) (event : key_event_t) : scan_ctx_t :=
  let oc := if c.log.length = 0 then inp.send1 else inp.send2
  { key_info := (send_key_event config c.key_info i event oc).2,
    log := c.log ++ [{ key_id := i, event := event, timestamp := oc.timestamp }] }

/-- The case `KEY_STATE_RELEASED` (lines 158-167). -/
def scan_released (inp : scan_input_t) (c : scan_ctx_t) : scan_ctx_t :=
  if inp.pressed then
    { c with key_info := { c.key_info with
        state := KEY_STATE_DEBOUNCE,
        press_timestamp := inp.current_time,
        last_event_timestamp := inp.current_time } }
  else c

/-- The case `KEY_STATE_PRESSED` (lines 169-197). -/
def scan_pressed (config : key_detector_config_t) (i : Nat) (inp : scan_input_t)
    (c : scan_ctx_t) : scan_ctx_t :=
  if !inp.pressed then
    { c with key_info := { c.key_info with
        state := KEY_STATE_DEBOUNCE,
        release_timestamp := inp.current_time,
        last_event_timestamp := inp.current_time } }
  else
    let press_duration := time_diff_ms c.key_info.press_timestamp inp.current_time
    let c1 :=
      if !c.key_info.long_press_detected && decide (press_duration ≥ KEY_LONG_PRESS_TIME_MS) then
        let s := scan_send config i inp c KEY_EVENT_LONG_PRESS_START
        { s with key_info := { s.key_info with
            long_press_detected := true,
            last_event_timestamp := inp.current_time } }
      else c
    if c1.key_info.long_press_detected &&
        decide (u32_sub press_duration
          (time_diff_ms c1.key_info.last_event_timestamp inp.current_time)
            ≥ KEY_LONG_PRESS_HOLD_INTERVAL_MS) then
      let s := scan_send config i inp c1 KEY_EVENT_LONG_PRESS_HOLD
      { s with key_info := { s.key_info with last_event_timestamp := inp.current_time } }
    else c1

/-- The confirmed release inside `KEY_STATE_DEBOUNCE` (lines 228-264). -/
def scan_confirm_release (config : key_detector_config_t) (i : Nat) (inp : scan_input_t)
    (c : scan_ctx_t) : scan_ctx_t :=
  let c1 := scan_send config i inp c KEY_EVENT_PRESS_UP
  let press_duration :=
    time_diff_ms c1.key_info.press_timestamp c1.key_info.release_timestamp
  if press_duration ≤ KEY_CLICK_TIME_MS then
    let c2 : scan_ctx_t :=
      { c1 with key_info := { c1.key_info with
          click_count := (c1.key_info.click_count + 1) % 256 } }
    if c2.key_info.click_count = 1 then
      { c2 with key_info := { c2.key_info with
          state := KEY_STATE_WAIT_RELEASE,
          last_event_timestamp := inp.current_time } }
    else if c2.key_info.click_count = 2 then
      let c3 := scan_send config i inp c2 KEY_EVENT_DOUBLE_CLICK
      { c3 with key_info := { c3.key_info with
          click_count := 0, state := KEY_STATE_RELEASED } }
    else c2
  else if c1.key_info.long_press_detected then
    let c2 := scan_send config i inp c1 KEY_EVENT_LONG_PRESS_END
    { c2 with key_info := { c2.key_info with
        long_press_detected := false, click_count := 0, state := KEY_STATE_RELEASED } }
  else
    { c1 with key_info := { c1.key_info with
        click_count := 0, state := KEY_STATE_RELEASED } }

/-- The case `KEY_STATE_DEBOUNCE` (lines 199-276). -/
def scan_debounce (config : key_detector_config_t) (i : Nat) (inp : scan_input_t)
    (c : scan_ctx_t) : scan_ctx_t :=
  let debounce_time :=
    if inp.pressed then time_diff_ms c.key_info.press_timestamp inp.current_time
    else time_diff_ms c.key_info.release_timestamp inp.current_time
  if debounce_time ≥ KEY_DEBOUNCE_TIME_MS then
    let still_pressed := inp.still_pressed
    if inp.pressed = still_pressed then
      if inp.pressed then
        let c1 : scan_ctx_t :=
          { c with key_info := { c.key_info with state := KEY_STATE_PRESSED } }
        let c2 :=
          if c1.key_info.click_count = 1 then c1
          else
            let s := scan_send config i inp c1 KEY_EVENT_PRESS_DOWN
            { s with key_info := { s.key_info with click_count := 0 } }
        { c2 with key_info := { c2.key_info with long_press_detected := false } }
      else
        scan_confirm_release config i inp c
    else
      if inp.pressed then
        { c with key_info := { c.key_info with press_timestamp := inp.current_time } }
      else
        { c with key_info := { c.key_info with release_timestamp := inp.current_time } }
  else c

/-- The case `KEY_STATE_WAIT_RELEASE` (lines 278-295). -/
def scan_wait_release (config : key_detector_config_t) (i : Nat) (inp : scan_input_t)
    (c : scan_ctx_t) : scan_ctx_t :=
  let wait_time := time_diff_ms c.key_info.last_event_timestamp inp.current_time
  if inp.pressed then
    { c with key_info := { c.key_info with
        state := KEY_STATE_DEBOUNCE, press_timestamp := inp.current_time } }
  else if wait_time ≥ KEY_DOUBLE_CLICK_INTERVAL_MS then
    let c1 := scan_send config i inp c KEY_EVENT_SINGLE_CLICK
    { c1 with key_info := { c1.key_info with
        click_count := 0, state := KEY_STATE_RELEASED } }
  else c

/-- The body of the `for` loop of `key_scan_task` for key `i` (lines 149-303):
the key record after the iteration and the calls of `send_key_event` it made,
in order. -/
def key_scan_step (config : key_detector_config_t) (i : Nat) (key_info : key_info_t)
    (inp : scan_input_t) : key_info_t × List key_event_msg_t :=
  let c : scan_ctx_t := { key_info := key_info, log := [] }
  let c :=
    if key_info.state = KEY_STATE_RELEASED then scan_released inp c
    else if key_info.state = KEY_STATE_PRESSED then scan_pressed config i inp c
    else if key_info.state = KEY_STATE_DEBOUNCE then scan_debounce config i inp c
    else if key_info.state = KEY_STATE_WAIT_RELEASE then scan_wait_release config i inp c
    else
      { c with key_info := { key_info with
          state := KEY_STATE_RELEASED, click_count := 0, long_press_detected := false } }
  (c.key_info, c.log)

/-- Successive iterations of the scan loop for key `i`, one per input: the
final record and all calls of `send_key_event`, in order. -/
def key_scan_run (config : key_detector_config_t) (i : Nat) :
    key_info_t → List scan_input_t → key_info_t × List key_event_msg_t
  | key_info, [] => (key_info, [])
  | key_info, inp :: rest =>
    let r := key_scan_step config i key_info inp
    let r2 := key_scan_run config i r.1 rest
    (r2.1, r.2 ++ r2.2)

/-- The event kinds handed to `send_key_event`, in order. -/
def events_of (log : List key_event_msg_t) : List key_event_t :=
  log.map (fun m => m.event)

/-- A tick whose two samples agree, the clock reading `t` throughout the
iteration and every queue send accepted. -/
def tick (t : Nat) (active : Bool) : scan_input_t :=
  { pressed := active, current_time := t, still_pressed := active,
    send1 := { timestamp := t, queue_ok := true },
    send2 := { timestamp := t, queue_ok := true } }

/-- The function `key_detector_get_state` (lines 498-506): the returned state
and the detector as the call leaves it.  A detector made by
`key_detector_create` stores `MAX_KEY_COUNT` records and has
`key_count ≤ MAX_KEY_COUNT`, so the index read is in range; for a list that is
too short the record `key_detector_create` would write stands in. -/
def key_detector_get_state (detector : Option key_detector_t) (key_id : Nat) :
    key_state_t × Option key_detector_t :=
  match detector with
  | none => (KEY_STATE_RELEASED, detector)
  | some d =>
    if key_id ≥ d.config.key_count then
      (KEY_STATE_RELEASED, detector)
    else
      ((d.key_infos.getD key_id (key_info_init key_id)).state, detector)

/-- The results of `n` successive calls of `key_detector_get_state` with no
iteration of the scan loop in between, each call receiving the detector as the
previous call left it. -/
def key_detector_get_state_calls (key_id : Nat) :
    Nat → Option key_detector_t → List key_state_t
  | 0, _ => []
  | n + 1, detector =>
    let r := key_detector_get_state detector key_id
    r.1 :: key_detector_get_state_calls key_id n r.2

/-- The state after each iteration and the event kinds that iteration handed to
`send_key_event`, one entry per input. -/
def key_scan_trace (config : key_detector_config_t) (i : Nat) :
    key_info_t → List scan_input_t → List (key_state_t × List key_event_t)
  | _, [] => []
  | key_info, inp :: rest =>
    let r := key_scan_step config i key_info inp
    (r.1.state, events_of r.2) :: key_scan_trace config i r.1 rest

/-! Inputs: signal shapes and timestamps -/

/-- An iteration whose two samples both read active. -/
def ev_active (x : scan_input_t) : Prop := x.pressed = true ∧ x.still_pressed = true

/-- An iteration whose two samples both read inactive. -/
def ev_inactive (x : scan_input_t) : Prop := x.pressed = false ∧ x.still_pressed = false

/-- Timestamps that never decrease along the list and never wrap: every one is
a 32-bit value and the clock does not pass `UINT32_MAX` during the list. -/
def times_ok (l : List scan_input_t) : Prop :=
  List.Pairwise (fun x y => x.current_time ≤ y.current_time) l ∧
    ∀ x ∈ l, x.current_time ≤ UINT32_MAX

/-- The first `n` iterations of an input stream. -/
def scan_inputs (inputs : Nat → scan_input_t) (n : Nat) : List scan_input_t :=
  (List.range n).map inputs

/-- The iterations at `t0`, `t0 + 10`, ... (`n` of them), all with the same
clean sample. -/
def ticks_every_10ms (t0 n : Nat) (active : Bool) : List scan_input_t :=
  (List.range n).map (fun j => tick (t0 + 10 * j) active)

/-- An iteration at time `t` whose sample of line 153 is `first` and whose
re-sample of line 207 is `second`. -/
def bounce_tick (t : Nat) (first second : Bool) : scan_input_t :=
  { tick t first with still_pressed := second }

/-- The configuration `key_init` builds in `key_driver.c` (lines 18-27 and
148-154): the BOOT key on GPIO0, active low, scanned every 10 ms, with both a
queue and a callback. -/
def key_init_config : key_detector_config_t :=
  { hw_configs := some [{ gpio_num := 0, active_level := key_active_level_t.KEY_ACTIVE_LOW,
                          pull_enable := 0, pull_up := 1 }],
    key_count := 1, scan_interval_ms := 10, event_queue := true, event_callback := true }

/-! Phases of one key, as predicates on its record -/

/-- Released with no click pending. -/
def in_released (k : key_info_t) : Prop :=
  k.state = KEY_STATE_RELEASED ∧ k.click_count = 0

/-- Debouncing a press candidate that began at `p`, with click count `c`. -/
def in_debounce_press (p c : Nat) (k : key_info_t) : Prop :=
  k.state = KEY_STATE_DEBOUNCE ∧ k.press_timestamp = p ∧ k.click_count = c

/-- Pressed since the candidate at `p`, no long press detected yet. -/
def in_pressed (p c : Nat) (k : key_info_t) : Prop :=
  k.state = KEY_STATE_PRESSED ∧ k.press_timestamp = p ∧ k.click_count = c ∧
    k.long_press_detected = false

/-- Pressed since the candidate at `p`, long press detected. -/
def in_pressed_long (p : Nat) (k : key_info_t) : Prop :=
  k.state = KEY_STATE_PRESSED ∧ k.press_timestamp = p ∧ k.long_press_detected = true

/-- Debouncing a release candidate that began at `r`, after a press without
long press. -/
def in_debounce_release (p r c : Nat) (k : key_info_t) : Prop :=
  k.state = KEY_STATE_DEBOUNCE ∧ k.press_timestamp = p ∧ k.release_timestamp = r ∧
    k.click_count = c ∧ k.long_press_detected = false

/-- Debouncing a release candidate that began at `r`, after a long press. -/
def in_debounce_release_long (p r : Nat) (k : key_info_t) : Prop :=
  k.state = KEY_STATE_DEBOUNCE ∧ k.press_timestamp = p ∧ k.release_timestamp = r ∧
    k.long_press_detected = true

/-- Waiting for a second click since `w`. -/
def in_wait_release (w : Nat) (k : key_info_t) : Prop :=
  k.state = KEY_STATE_WAIT_RELEASE ∧ k.last_event_timestamp = w ∧ k.click_count = 1

/-- From every record satisfying `P`, the inputs `l` lead to a record
satisfying `Q` and hand exactly the event kinds `evs` to `send_key_event`. -/
def Reach (config : key_detector_config_t) (i : Nat) (P : key_info_t → Prop)
    (l : List scan_input_t) (evs : List key_event_t) (Q : key_info_t → Prop) : Prop :=
  ∀ k, P k → Q (key_scan_run config i k l).1 ∧ events_of (key_scan_run config i k l).2 = evs

/-! Gesture scenarios.  In each, single iterations are named and the lists
between them hold the iterations during which nothing is decided:
`a` first active sample, `c` the iteration that confirms the press,
`r` first inactive sample, `u` the iteration that confirms the release. -/

/-- One short press: inactive `pre`; active `a`, `W1`, `c`, `H1`; inactive
`r`, `W2`, `u`, `W3`, `e`, `post`. -/
def single_click_ticks (pre : List scan_input_t) (a : scan_input_t) (W1 : List scan_input_t)
    (c : scan_input_t) (H1 : List scan_input_t) (r : scan_input_t) (W2 : List scan_input_t)
    (u : scan_input_t) (W3 : List scan_input_t) (e : scan_input_t)
    (post : List scan_input_t) : List scan_input_t :=
  pre ++ a :: (W1 ++ c :: (H1 ++ r :: (W2 ++ u :: (W3 ++ e :: post))))

/-- A clean short press followed by a full double-click gap: timestamps never
decrease or wrap; `c` is the first active iteration at least 20 ms after `a`;
the first inactive sample `r` comes at most 300 ms after `a`; `u` is the first
inactive iteration at least 20 ms after `r`; `e` is the first iteration at
least 500 ms after `u`. -/
def single_click_scenario (pre : List scan_input_t) (a : scan_input_t)
    (W1 : List scan_input_t) (c : scan_input_t) (H1 : List scan_input_t) (r : scan_input_t)
    (W2 : List scan_input_t) (u : scan_input_t) (W3 : List scan_input_t) (e : scan_input_t)
    (post : List scan_input_t) : Prop :=
  times_ok (single_click_ticks pre a W1 c H1 r W2 u W3 e post) ∧
  (∀ x ∈ pre, ev_inactive x) ∧
  (∀ x ∈ a :: (W1 ++ c :: H1), ev_active x) ∧
  (∀ x ∈ r :: (W2 ++ u :: (W3 ++ e :: post)), ev_inactive x) ∧
  (∀ x ∈ W1, x.current_time < a.current_time + KEY_DEBOUNCE_TIME_MS) ∧
  a.current_time + KEY_DEBOUNCE_TIME_MS ≤ c.current_time ∧
  r.current_time ≤ a.current_time + KEY_CLICK_TIME_MS ∧
  (∀ x ∈ W2, x.current_time < r.current_time + KEY_DEBOUNCE_TIME_MS) ∧
  r.current_time + KEY_DEBOUNCE_TIME_MS ≤ u.current_time ∧
  (∀ x ∈ W3, x.current_time < u.current_time + KEY_DOUBLE_CLICK_INTERVAL_MS) ∧
  u.current_time + KEY_DOUBLE_CLICK_INTERVAL_MS ≤ e.current_time

/-- Two short presses: the first as in `single_click_ticks` up to `W3`, then
active `a2`, `V1`, `c2`, `G1` and inactive `r2`, `V2`, `u2`, `post`. -/
def double_click_ticks (pre : List scan_input_t) (a : scan_input_t) (W1 : List scan_input_t)
    (c : scan_input_t) (H1 : List scan_input_t) (r : scan_input_t) (W2 : List scan_input_t)
    (u : scan_input_t) (W3 : List scan_input_t) (a2 : scan_input_t) (V1 : List scan_input_t)
    (c2 : scan_input_t) (G1 : List scan_input_t) (r2 : scan_input_t) (V2 : List scan_input_t)
    (u2 : scan_input_t) (post : List scan_input_t) : List scan_input_t :=
  pre ++ a :: (W1 ++ c :: (H1 ++ r :: (W2 ++ u :: (W3 ++ a2 :: (V1 ++ c2 :: (G1 ++ r2 ::
    (V2 ++ u2 :: post)))))))

/-- Two clean confirmed presses, each released at most 300 ms after its first
active sample, the second starting (`a2`) less than 500 ms after the iteration
`u` that confirmed the first release. -/
def double_click_scenario (pre : List scan_input_t) (a : scan_input_t) (W1 : List scan_input_t)
    (c : scan_input_t) (H1 : List scan_input_t) (r : scan_input_t) (W2 : List scan_input_t)
    (u : scan_input_t) (W3 : List scan_input_t) (a2 : scan_input_t) (V1 : List scan_input_t)
    (c2 : scan_input_t) (G1 : List scan_input_t) (r2 : scan_input_t) (V2 : List scan_input_t)
    (u2 : scan_input_t) (post : List scan_input_t) : Prop :=
  times_ok (double_click_ticks pre a W1 c H1 r W2 u W3 a2 V1 c2 G1 r2 V2 u2 post) ∧
  (∀ x ∈ pre, ev_inactive x) ∧
  (∀ x ∈ a :: (W1 ++ c :: H1), ev_active x) ∧
  (∀ x ∈ r :: (W2 ++ u :: W3), ev_inactive x) ∧
  (∀ x ∈ a2 :: (V1 ++ c2 :: G1), ev_active x) ∧
  (∀ x ∈ r2 :: (V2 ++ u2 :: post), ev_inactive x) ∧
  (∀ x ∈ W1, x.current_time < a.current_time + KEY_DEBOUNCE_TIME_MS) ∧
  a.current_time + KEY_DEBOUNCE_TIME_MS ≤ c.current_time ∧
  r.current_time ≤ a.current_time + KEY_CLICK_TIME_MS ∧
  (∀ x ∈ W2, x.current_time < r.current_time + KEY_DEBOUNCE_TIME_MS) ∧
  r.current_time + KEY_DEBOUNCE_TIME_MS ≤ u.current_time ∧
  a2.current_time < u.current_time + KEY_DOUBLE_CLICK_INTERVAL_MS ∧
  (∀ x ∈ V1, x.current_time < a2.current_time + KEY_DEBOUNCE_TIME_MS) ∧
  a2.current_time + KEY_DEBOUNCE_TIME_MS ≤ c2.current_time ∧
  r2.current_time ≤ a2.current_time + KEY_CLICK_TIME_MS ∧
  (∀ x ∈ V2, x.current_time < r2.current_time + KEY_DEBOUNCE_TIME_MS) ∧
  r2.current_time + KEY_DEBOUNCE_TIME_MS ≤ u2.current_time

/-- One long press, up to the last iteration before the release is confirmed:
inactive `pre`; active `a`, `W1`, `c`, `H1`, `s`, `H2`; inactive `r`, `W2`. -/
def long_press_ticks_before_confirm (pre : List scan_input_t) (a : scan_input_t)
    (W1 : List scan_input_t) (c : scan_input_t) (H1 : List scan_input_t) (s : scan_input_t)
    (H2 : List scan_input_t) (r : scan_input_t) (W2 : List scan_input_t) :
    List scan_input_t :=
  pre ++ a :: (W1 ++ c :: (H1 ++ s :: (H2 ++ r :: W2)))

/-- One long press: as before, then the confirming iteration `u` and inactive
`post`. -/
def long_press_ticks (pre : List scan_input_t) (a : scan_input_t)
    (W1 : List scan_input_t) (c : scan_input_t) (H1 : List scan_input_t) (s : scan_input_t)
    (H2 : List scan_input_t) (r : scan_input_t) (W2 : List scan_input_t) (u : scan_input_t)
    (post : List scan_input_t) : List scan_input_t :=
  long_press_ticks_before_confirm pre a W1 c H1 s H2 r W2 ++ u :: post

/-- A clean press held until the held time reaches 1000 ms and then released:
`s` is the first active iteration at least 1000 ms after `a` (those of `H1`
come earlier), the signal stays active through `H2`, and `u` is the first
inactive iteration at least 20 ms after `r`. -/
def long_press_scenario (pre : List scan_input_t) (a : scan_input_t)
    (W1 : List scan_input_t) (c : scan_input_t) (H1 : List scan_input_t) (s : scan_input_t)
    (H2 : List scan_input_t) (r : scan_input_t) (W2 : List scan_input_t) (u : scan_input_t)
    (post : List scan_input_t) : Prop :=
  times_ok (long_press_ticks pre a W1 c H1 s H2 r W2 u post) ∧
  (∀ x ∈ pre, ev_inactive x) ∧
  (∀ x ∈ a :: (W1 ++ c :: (H1 ++ s :: H2)), ev_active x) ∧
  (∀ x ∈ r :: (W2 ++ u :: post), ev_inactive x) ∧
  (∀ x ∈ W1, x.current_time < a.current_time + KEY_DEBOUNCE_TIME_MS) ∧
  a.current_time + KEY_DEBOUNCE_TIME_MS ≤ c.current_time ∧
  (∀ x ∈ H1, x.current_time < a.current_time + KEY_LONG_PRESS_TIME_MS) ∧
  a.current_time + KEY_LONG_PRESS_TIME_MS ≤ s.current_time ∧
  (∀ x ∈ W2, x.current_time < r.current_time + KEY_DEBOUNCE_TIME_MS) ∧
  r.current_time + KEY_DEBOUNCE_TIME_MS ≤ u.current_time

/-- A press held for 1010 ms at a 10 ms scan interval whose release bounces:
first inactive sample at 1020 ms, then an iteration sampling active and
re-sampling inactive, then one sampling inactive and re-sampling active, then
steadily inactive until 1560 ms. -/
def bouncy_long_press : List scan_input_t :=
  ticks_every_10ms 0 102 true ++
    [tick 1020 false, bounce_tick 1030 true false, bounce_tick 1040 false true] ++
    ticks_every_10ms 1050 52 false

/-- A 10 ms scan interval starting at 100 ms with the signal active on
iterations 3 and 4 only. -/
def pulse_inputs (n : Nat) : scan_input_t :=
  tick ((100 + 10 * n) % 4294967296) (decide (3 ≤ n ∧ n < 3 + 2))

/-! The event sink, the detector-level loop and construction -/

/-- Modelled from the spec: the bounded event queue behind
`config.event_queue` (FreeRTOS, outside this repository): a capacity fixed at
construction and the messages waiting in it, oldest first. -/
structure queue_t where
  capacity : Nat
  items : List key_event_msg_t
  deriving DecidableEq, Repr

/-- Modelled from the spec: `xQueueSend(queue, &msg, 0)`, the non-blocking
publish with drop-on-full semantics: a queue with room takes the message at
its end and the call returns `pdTRUE`; a full queue is left as it is and the
call returns at once with failure. -/
def xQueueSend (q : queue_t) (msg : key_event_msg_t) : Bool × queue_t :=
  if q.items.length < q.capacity then
    (true, { q with items := q.items ++ [msg] })
  else
    (false, q)

/-- What lies behind the two delivery paths of a detector: the queue of
`config.event_queue` and the calls made so far to `config.event_callback`
(key id and event of each, oldest first). -/
structure event_sink_t where
  queue : queue_t
  callback_calls : List (Nat × key_event_t)
  deriving DecidableEq, Repr

/-- The function `send_key_event` (lines 96-134) on the whole detector, with
the queue and the callback: the returned `sent`, the detector and the sink
after the call.  `timestamp` is the clock value read at line 107. -/
def send_key_event_full (detector : key_detector_t) (sink : event_sink_t) (key_id : Nat)
    (event : key_event_t) (timestamp : Nat) : Bool × key_detector_t × event_sink_t :=
  if event = KEY_EVENT_NONE then
    (false, detector, sink)
  else
    let msg : key_event_msg_t := { key_id := key_id, event := event, timestamp := timestamp }
    let sent := false
    let r1 : Bool × event_sink_t :=
      if detector.config.event_queue then
        ((xQueueSend sink.queue msg).1, { sink with queue := (xQueueSend sink.queue msg).2 })
      else (sent, sink)
    let r2 : Bool × event_sink_t :=
      if detector.config.event_callback then
        (true, { r1.2 with callback_calls := r1.2.callback_calls ++ [(key_id, event)] })
      else r1
    if r2.1 && decide (detector.config.key_count > key_id) then
      let key_info := detector.key_infos.getD key_id (key_info_init key_id)
      let key_info := { key_info with last_event_timestamp := timestamp }
      (r2.1, { detector with key_infos := detector.key_infos.set key_id key_info }, r2.2)
    else
      (r2.1, detector, r2.2)

/-- One pass of the body of the `for` loop of `key_scan_task` for key `i` on
the detector (lines 149-303): `key_info` points to `detector->key_infos[i]`,
which the pass updates in place. -/
def key_scan_iteration (detector : key_detector_t) (i : Nat) (inp : scan_input_t) :
    key_detector_t × List key_event_msg_t :=
  let r := key_scan_step detector.config i
    (detector.key_infos.getD i (key_info_init i)) inp
  ({ detector with key_infos := detector.key_infos.set i r.1 }, r.2)

/-- Passes of the loop body in any order: each entry names the key scanned
and the inputs of that pass. -/
def key_scan_schedule :
    key_detector_t → List (Nat × scan_input_t) → key_detector_t × List key_event_msg_t
  | detector, [] => (detector, [])
  | detector, p :: rest =>
    let r := key_scan_iteration detector p.1 p.2
    let r2 := key_scan_schedule r.1 rest
    (r2.1, r.2 ++ r2.2)

/-- The inputs a schedule gives to key `j`, in order. -/
def inputs_of_key (j : Nat) (sched : List (Nat × scan_input_t)) : List scan_input_t :=
  (sched.filter (fun p => p.1 = j)).map (fun p => p.2)

/-- The function `is_key_pressed` (lines 43-62).  `key_gpio_read` gives the
level read on each GPIO number.  A detector made by `key_detector_create` has
a hardware entry for every `key_id < key_count`; where the list is missing or
too short an entry on GPIO0, active low, stands in. -/
def is_key_pressed (detector : Option key_detector_t) (key_id : Nat)
    (key_gpio_read : Nat → Nat) : Bool :=
  match detector with
  | none => false
  | some d =>
    if key_id ≥ d.config.key_count then
      false
    else
      let hw_cfg := (d.config.hw_configs.getD []).getD key_id
        { gpio_num := 0, active_level := key_active_level_t.KEY_ACTIVE_LOW,
          pull_enable := 0, pull_up := 0 }
      let level := key_gpio_read hw_cfg.gpio_num
      if hw_cfg.active_level = key_active_level_t.KEY_ACTIVE_LOW then
        level == 0
      else
        level == 1

/-- The error codes of `esp_err_t` (ESP-IDF, outside this repository) that
the key driver names, and any other code. -/
inductive esp_err_t where
  | ESP_OK
  | ESP_FAIL
  | ESP_ERR_INVALID_ARG
  | ESP_ERR_OTHER (code : Nat)
  deriving DecidableEq, Repr

open esp_err_t

/-- The struct `gpio_config_t` as `key_gpio_init` fills it: the pull fields
hold `true` for the `..._ENABLE` constant and `false` for `..._DISABLE`. -/
structure gpio_config_t where
  intr_type : Nat
  mode : Nat
  pin_bit_mask : Nat
  pull_up_en : Bool
  pull_down_en : Bool
  deriving DecidableEq, Repr

/-- What `key_gpio_init` uses of the GPIO driver (ESP-IDF, outside this
repository): the constants `GPIO_NUM_MAX` and `GPIO_MODE_INPUT` and the
result of `gpio_config` for each configuration. -/
structure gpio_driver_t where
  GPIO_NUM_MAX : Nat
  GPIO_MODE_INPUT : Nat
  gpio_config : gpio_config_t → esp_err_t

abbrev GPIO_INTR_DISABLE : Nat := 0

/-- The `for` loop of `key_gpio_init` (lines 51-90) over the entries still to
configure. -/
def key_gpio_init_loop (drv : gpio_driver_t) : List key_hw_config_t → esp_err_t
  | [] => ESP_OK
  | hw_cfg :: rest =>
    if hw_cfg.gpio_num > drv.GPIO_NUM_MAX then
      ESP_ERR_INVALID_ARG
    else
      let io_conf : gpio_config_t :=
        { intr_type := GPIO_INTR_DISABLE,
          mode := drv.GPIO_MODE_INPUT,
          pin_bit_mask := 2 ^ hw_cfg.gpio_num % 2 ^ 64,
          pull_up_en := if hw_cfg.pull_enable ≠ 0 then decide (hw_cfg.pull_up ≠ 0) else false,
          pull_down_en := if hw_cfg.pull_enable ≠ 0 then decide (hw_cfg.pull_up = 0) else false }
      let err := drv.gpio_config io_conf
      if err ≠ ESP_OK then err else key_gpio_init_loop drv rest

/-- The function `key_gpio_init` of `key_config.c` (lines 30-94): its return
value.  `config` is a pointer (`none` is NULL) to an array that holds at least
`count` entries; the two file-level variables it also writes are read nowhere. -/
def key_gpio_init (drv : gpio_driver_t) (config : Option (List key_hw_config_t))
    (count : Nat) : esp_err_t :=
  match config with
  | none => ESP_ERR_INVALID_ARG
  | some hw_configs =>
    if count = 0 ∨ count > MAX_KEY_COUNT then
      ESP_ERR_INVALID_ARG
    else
      key_gpio_init_loop drv (hw_configs.take count)

/-- The array `key_infos` as `key_detector_create` leaves it (lines 344-359):
the first `key_count` records initialised, the others all zero from `memset`. -/
def key_infos_init (key_count : Nat) : List key_info_t :=
  (List.range MAX_KEY_COUNT).map
    (fun i => if i < key_count then key_info_init i else key_info_init 0)

/-- The function `key_detector_create` (lines 318-371).  `config` is a pointer
(`none` is NULL), `malloc_ok` tells whether `malloc` returned memory. -/
def key_detector_create (drv : gpio_driver_t) (malloc_ok : Bool)
    (config : Option key_detector_config_t) : Option key_detector_t :=
  match config with
  | none => none
  | some cfg =>
    if cfg.key_count = 0 ∨ cfg.key_count > MAX_KEY_COUNT then
      none
    else
      match cfg.hw_configs with
      | none => none
      | some _ =>
        if !malloc_ok then
          none
        else
          let detector : key_detector_t :=
            { config := cfg, key_infos := key_infos_init cfg.key_count,
              scan_task_handle := none, task_running := false, tick_counter := 0 }
          let err := key_gpio_init drv cfg.hw_configs cfg.key_count
          if err ≠ ESP_OK then none else some detector

/-- The configurations the claim on construction calls invalid: the
configuration is missing, the key count is 0 or greater than 8, or
`hw_configs` is missing. -/
def config_rejected : Option key_detector_config_t → Prop
  | none => True
  | some cfg => cfg.key_count = 0 ∨ cfg.key_count > 8 ∨ cfg.hw_configs = none

/-- A GPIO driver on which every pin up to 48 can be configured. -/
def gpio_driver_ok : gpio_driver_t :=
  { GPIO_NUM_MAX := 48, GPIO_MODE_INPUT := 1, gpio_config := fun _ => ESP_OK }

/-- The detector `key_init` obtains from `key_detector_create`. -/
def key_init_detector : key_detector_t :=
  { config := key_init_config, key_infos := key_infos_init 1,
    scan_task_handle := none, task_running := false, tick_counter := 0 }

/-- The hardware entry of the BOOT key in `key_driver.c` (lines 20-26). -/
def boot_key_hw : key_hw_config_t :=
  { gpio_num := 0, active_level := key_active_level_t.KEY_ACTIVE_LOW,
    pull_enable := 0, pull_up := 1 }

/-- A hardware entry for an active-high key on GPIO4 with pull-down. -/
def high_key_hw : key_hw_config_t :=
  { gpio_num := 4, active_level := key_active_level_t.KEY_ACTIVE_HIGH,
    pull_enable := 1, pull_up := 0 }

/-- A detector as `key_detector_create` makes it for the BOOT key and an
active-high key. -/
def two_key_detector : key_detector_t :=
  { config := { key_init_config with
                hw_configs := some [boot_key_hw, high_key_hw], key_count := 2 },
    key_infos := key_infos_init 2,
    scan_task_handle := none, task_running := false, tick_counter := 0 }

/-- An iteration whose re-sample agrees with its first sample. -/
def ev_clean (x : scan_input_t) : Prop := x.still_pressed = x.pressed

/-- Two iterations that take the same samples at the same time; the outcomes
of their `send_key_event` calls may differ. -/
def same_samples (x y : scan_input_t) : Prop :=
  x.pressed = y.pressed ∧ x.current_time = y.current_time ∧
    x.still_pressed = y.still_pressed

/-- Two records that agree in every field the state machine reads:
`last_event_timestamp` is read only while waiting for a second click and
while a long press is detected. -/
def key_sim (k k2 : key_info_t) : Prop :=
  k.key_id = k2.key_id ∧ k.state = k2.state ∧ k.last_state = k2.last_state ∧
  k.press_timestamp = k2.press_timestamp ∧ k.release_timestamp = k2.release_timestamp ∧
  k.click_count = k2.click_count ∧ k.long_press_detected = k2.long_press_detected ∧
  ((k.state = KEY_STATE_WAIT_RELEASE ∨
      (k.state = KEY_STATE_PRESSED ∧ k.long_press_detected = true)) →
    k.last_event_timestamp = k2.last_event_timestamp)

/-- What holds of a record after iterations with clean samples whose
timestamps neither decrease nor wrap, `now` being the time of the last one:
`press_timestamp` is not in the future, and while `long_press_detected` is set
the key is either Pressed with at least 1000 ms held, or Debouncing a release
that began at least 1000 ms after the press. -/
def long_flag_inv (now : Nat) (k : key_info_t) : Prop :=
  k.press_timestamp ≤ now ∧
  (k.long_press_detected = true →
    (k.state = KEY_STATE_PRESSED ∧ k.press_timestamp + KEY_LONG_PRESS_TIME_MS ≤ now) ∨
    (k.state = KEY_STATE_DEBOUNCE ∧
      k.press_timestamp + KEY_LONG_PRESS_TIME_MS ≤ k.release_timestamp ∧
      k.release_timestamp ≤ UINT32_MAX))

/-- One clean press and release: active `a`, `W`, `c`, `H`; inactive `r`,
`V`, `u`, where `c` confirms the press and `u` confirms the release. -/
def click_ticks (a : scan_input_t) (W : List scan_input_t) (c : scan_input_t)
    (H : List scan_input_t) (r : scan_input_t) (V : List scan_input_t) (u : scan_input_t) :
    List scan_input_t :=
  a :: (W ++ c :: (H ++ r :: (V ++ [u])))

/-- The press of `click_ticks` is a confirmed short press with a confirmed
release: `c` is the first active iteration at least 20 ms after `a`, the
first inactive sample `r` comes at most 300 ms after `a`, and `u` is the first
inactive iteration at least 20 ms after `r`. -/
def click_ok (a : scan_input_t) (W : List scan_input_t) (c : scan_input_t)
    (H : List scan_input_t) (r : scan_input_t) (V : List scan_input_t) (u : scan_input_t) :
    Prop :=
  (∀ x ∈ a :: (W ++ c :: H), ev_active x) ∧
  (∀ x ∈ r :: (V ++ [u]), ev_inactive x) ∧
  (∀ x ∈ W, x.current_time < a.current_time + KEY_DEBOUNCE_TIME_MS) ∧
  a.current_time + KEY_DEBOUNCE_TIME_MS ≤ c.current_time ∧
  r.current_time ≤ a.current_time + KEY_CLICK_TIME_MS ∧
  (∀ x ∈ V, x.current_time < r.current_time + KEY_DEBOUNCE_TIME_MS) ∧
  r.current_time + KEY_DEBOUNCE_TIME_MS ≤ u.current_time

/-- Two short presses with the double-click timer run out in between: a first
click, inactive `W3` inside the gap, the inactive iteration `e` at which the
gap has elapsed, inactive `W4`, then a second click and inactive `post`. -/
def late_second_press_ticks (pre : List scan_input_t) (a : scan_input_t)
    (W1 : List scan_input_t) (c : scan_input_t) (H1 : List scan_input_t) (r : scan_input_t)
    (W2 : List scan_input_t) (u : scan_input_t) (W3 : List scan_input_t) (e : scan_input_t)
    (W4 : List scan_input_t) (a2 : scan_input_t) (V1 : List scan_input_t) (c2 : scan_input_t)
    (G1 : List scan_input_t) (r2 : scan_input_t) (V2 : List scan_input_t) (u2 : scan_input_t)
    (post : List scan_input_t) : List scan_input_t :=
  pre ++ (click_ticks a W1 c H1 r W2 u ++ (W3 ++ e :: (W4 ++
    (click_ticks a2 V1 c2 G1 r2 V2 u2 ++ post))))

/-- Two clean short presses where, before the second one starts, an inactive
sample `e` is taken 500 ms or more after the iteration `u` that confirmed the
release of the first; `post` ends before the second timer runs out. -/
def late_second_press_scenario (pre : List scan_input_t) (a : scan_input_t)
    (W1 : List scan_input_t) (c : scan_input_t) (H1 : List scan_input_t) (r : scan_input_t)
    (W2 : List scan_input_t) (u : scan_input_t) (W3 : List scan_input_t) (e : scan_input_t)
    (W4 : List scan_input_t) (a2 : scan_input_t) (V1 : List scan_input_t) (c2 : scan_input_t)
    (G1 : List scan_input_t) (r2 : scan_input_t) (V2 : List scan_input_t) (u2 : scan_input_t)
    (post : List scan_input_t) : Prop :=
  times_ok (late_second_press_ticks pre a W1 c H1 r W2 u W3 e W4 a2 V1 c2 G1 r2 V2 u2 post) ∧
  (∀ x ∈ pre, ev_inactive x) ∧
  click_ok a W1 c H1 r W2 u ∧
  (∀ x ∈ W3 ++ e :: W4, ev_inactive x) ∧
  (∀ x ∈ W3, x.current_time < u.current_time + KEY_DOUBLE_CLICK_INTERVAL_MS) ∧
  u.current_time + KEY_DOUBLE_CLICK_INTERVAL_MS ≤ e.current_time ∧
  click_ok a2 V1 c2 G1 r2 V2 u2 ∧
  (∀ x ∈ post, ev_inactive x) ∧
  (∀ x ∈ post, x.current_time < u2.current_time + KEY_DOUBLE_CLICK_INTERVAL_MS)

/-- One press of medium length: inactive `pre`; active `a`, `W1`, `c`, `H1`;
inactive `r`, `W2`, `u`, `post`. -/
def held_press_ticks (pre : List scan_input_t) (a : scan_input_t) (W1 : List scan_input_t)
    (c : scan_input_t) (H1 : List scan_input_t) (r : scan_input_t) (W2 : List scan_input_t)
    (u : scan_input_t) (post : List scan_input_t) : List scan_input_t :=
  pre ++ a :: (W1 ++ c :: (H1 ++ r :: (W2 ++ u :: post)))

/-- A clean confirmed press whose first inactive sample `r` comes more than
300 ms and less than 1000 ms after its first active sample `a`, with a
confirmed release: timestamps never decrease or wrap; `c` is the first active
iteration at least 20 ms after `a`; `u` is the first inactive iteration at
least 20 ms after `r`. -/
def held_press_scenario (pre : List scan_input_t) (a : scan_input_t)
    (W1 : List scan_input_t) (c : scan_input_t) (H1 : List scan_input_t) (r : scan_input_t)
    (W2 : List scan_input_t) (u : scan_input_t) (post : List scan_input_t) : Prop :=
  times_ok (held_press_ticks pre a W1 c H1 r W2 u post) ∧
  (∀ x ∈ pre, ev_inactive x) ∧
  (∀ x ∈ a :: (W1 ++ c :: H1), ev_active x) ∧
  (∀ x ∈ r :: (W2 ++ u :: post), ev_inactive x) ∧
  (∀ x ∈ W1, x.current_time < a.current_time + KEY_DEBOUNCE_TIME_MS) ∧
  a.current_time + KEY_DEBOUNCE_TIME_MS ≤ c.current_time ∧
  a.current_time + KEY_CLICK_TIME_MS < r.current_time ∧
  r.current_time < a.current_time + KEY_LONG_PRESS_TIME_MS ∧
  (∀ x ∈ W2, x.current_time < r.current_time + KEY_DEBOUNCE_TIME_MS) ∧
  r.current_time + KEY_DEBOUNCE_TIME_MS ≤ u.current_time

/-- A click followed by a longer second press: inactive `pre`, a first click,
inactive `W3`, then active `a2`, `V1`, `c2`, `G` and inactive `r2`, `V2`,
`u2`, `post`. -/
def lost_click_ticks (pre : List scan_input_t) (a : scan_input_t)
    (W1 : List scan_input_t) (c : scan_input_t) (H1 : List scan_input_t) (r : scan_input_t)
    (W2 : List scan_input_t) (u : scan_input_t) (W3 : List scan_input_t)
    (a2 : scan_input_t) (V1 : List scan_input_t) (c2 : scan_input_t)
    (G : List scan_input_t) (r2 : scan_input_t) (V2 : List scan_input_t) (u2 : scan_input_t)
    (post : List scan_input_t) : List scan_input_t :=
  pre ++ (click_ticks a W1 c H1 r W2 u ++ (W3 ++ a2 :: (V1 ++ c2 :: (G ++ r2 ::
    (V2 ++ u2 :: post)))))

/-- A clean first click and a clean second press that starts (`a2`) less
than 500 ms after the iteration `u` that confirmed the first release, is
confirmed at `c2`, stays active through `G`, and whose first inactive sample
`r2` comes more than 300 ms after `a2`; `u2` confirms the second release. -/
def lost_click_scenario (pre : List scan_input_t) (a : scan_input_t)
    (W1 : List scan_input_t) (c : scan_input_t) (H1 : List scan_input_t) (r : scan_input_t)
    (W2 : List scan_input_t) (u : scan_input_t) (W3 : List scan_input_t)
    (a2 : scan_input_t) (V1 : List scan_input_t) (c2 : scan_input_t)
    (G : List scan_input_t) (r2 : scan_input_t) (V2 : List scan_input_t) (u2 : scan_input_t)
    (post : List scan_input_t) : Prop :=
  times_ok (lost_click_ticks pre a W1 c H1 r W2 u W3 a2 V1 c2 G r2 V2 u2 post) ∧
  (∀ x ∈ pre, ev_inactive x) ∧
  click_ok a W1 c H1 r W2 u ∧
  (∀ x ∈ W3, ev_inactive x) ∧
  a2.current_time < u.current_time + KEY_DOUBLE_CLICK_INTERVAL_MS ∧
  (∀ x ∈ a2 :: (V1 ++ c2 :: G), ev_active x) ∧
  (∀ x ∈ r2 :: (V2 ++ u2 :: post), ev_inactive x) ∧
  (∀ x ∈ V1, x.current_time < a2.current_time + KEY_DEBOUNCE_TIME_MS) ∧
  a2.current_time + KEY_DEBOUNCE_TIME_MS ≤ c2.current_time ∧
  a2.current_time + KEY_CLICK_TIME_MS < r2.current_time ∧
  (∀ x ∈ V2, x.current_time < r2.current_time + KEY_DEBOUNCE_TIME_MS) ∧
  r2.current_time + KEY_DEBOUNCE_TIME_MS ≤ u2.current_time

/-- A tick whose two samples agree, the clock reading `t` throughout the
iteration and every queue send refused (queue full). -/
def tick_dropped (t : Nat) (active : Bool) : scan_input_t :=
  { pressed := active, current_time := t, still_pressed := active,
    send1 := { timestamp := t, queue_ok := false },
    send2 := { timestamp := t, queue_ok := false } }

/-- The configuration of `key_init` with a queue and no callback, so that a
delivery fails whenever the queue is full. -/
def queue_only_config : key_detector_config_t :=
  { key_init_config with event_callback := false }

/-! The RTC driver PCF85063.c: register encoding of date and time -/

/-- The macro `YEAR_OFFSET` of PCF85063.h. -/
abbrev YEAR_OFFSET : Int := 1970

/-- The struct `datetime_t` of PCF85063.h: `year` is a `uint16_t`, the other
fields are `uint8_t`. -/
structure datetime_t where
  year : Nat
  month : Nat
  day : Nat
  dotw : Nat
  hour : Nat
  minute : Nat
  second : Nat
  deriving DecidableEq, Repr

/-- Conversion of an `int` to `uint8_t`: reduction modulo `2 ^ 8`. -/
def to_uint8 (v : Int) : Nat := (v % 256).toNat

/-- Conversion of an `int` to `uint16_t`: reduction modulo `2 ^ 16`. -/
def to_uint16 (v : Int) : Nat := (v % 65536).toNat

/-- The function `decToBcd` (lines 216-220): `int` division and remainder
truncate toward zero, and the result is cast to `uint8_t`. -/
def decToBcd (val : Int) : Nat :=
  to_uint8 (val.tdiv 10 * 16 + val.tmod 10)

/-- The function `bcdToDec` (lines 228-232), on a `uint8_t` argument. -/
def bcdToDec (val : Nat) : Int :=
  ((val / 16 * 10 + val % 16 : Nat) : Int)

/-- The function `PCF85063_Set_All` (lines 101-114): the seven bytes `buf`
it hands to `I2C_WRITE` for the registers from `RTC_SECOND_ADDR` on. -/
def PCF85063_Set_All (time : datetime_t) : List Nat :=
  [decToBcd (time.second : Int),
   decToBcd (time.minute : Int),
   decToBcd (time.hour : Int),
   decToBcd (time.day : Int),
   decToBcd (time.dotw : Int),
   decToBcd (time.month : Int),
   decToBcd ((time.year : Int) - YEAR_OFFSET)]

/-- The function `PCF85063_Read_Time` (lines 120-135), as the decoding of the
seven bytes `buf` that `I2C_READ` filled from the registers from
`RTC_SECOND_ADDR` on (`buf` starts as all zero). -/
def PCF85063_Read_Time (buf : List Nat) : datetime_t :=
  { second := to_uint8 (bcdToDec (buf.getD 0 0 &&& 0x7F)),
    minute := to_uint8 (bcdToDec (buf.getD 1 0 &&& 0x7F)),
    hour := to_uint8 (bcdToDec (buf.getD 2 0 &&& 0x3F)),
    day := to_uint8 (bcdToDec (buf.getD 3 0 &&& 0x3F)),
    dotw := to_uint8 (bcdToDec (buf.getD 4 0 &&& 0x07)),
    month := to_uint8 (bcdToDec (buf.getD 5 0 &&& 0x1F)),
    year := to_uint16 (bcdToDec (buf.getD 6 0) + YEAR_OFFSET) }

/-! Lemmas on single iterations and runs -/

theorem time_diff_ms_of_le {e l : Nat} (h : e ≤ l) (hl : l ≤ UINT32_MAX) :
    time_diff_ms e l = l - e := by
  unfold time_diff_ms u32_sub
  simp only [UINT32_MAX] at hl
  rw [if_pos h]; omega

theorem send_key_event_frame (config : key_detector_config_t) (k : key_info_t) (i : Nat)
    (e : key_event_t) (oc : send_outcome_t) :
    (send_key_event config k i e oc).2.key_id = k.key_id ∧
    (send_key_event config k i e oc).2.state = k.state ∧
    (send_key_event config k i e oc).2.last_state = k.last_state ∧
    (send_key_event config k i e oc).2.press_timestamp = k.press_timestamp ∧
    (send_key_event config k i e oc).2.release_timestamp = k.release_timestamp ∧
    (send_key_event config k i e oc).2.click_count = k.click_count ∧
    (send_key_event config k i e oc).2.long_press_detected = k.long_press_detected := by
  simp only [send_key_event]
  split_ifs <;> simp

theorem scan_send_key_id (config : key_detector_config_t) (i : Nat) (x : scan_input_t)
    (c : scan_ctx_t) (e : key_event_t) :
    (scan_send config i x c e).key_info.key_id = c.key_info.key_id :=
  (send_key_event_frame config c.key_info i e _).1

theorem scan_send_state (config : key_detector_config_t) (i : Nat) (x : scan_input_t)
    (c : scan_ctx_t) (e : key_event_t) :
    (scan_send config i x c e).key_info.state = c.key_info.state :=
  (send_key_event_frame config c.key_info i e _).2.1

theorem scan_send_press_timestamp (config : key_detector_config_t) (i : Nat)
    (x : scan_input_t) (c : scan_ctx_t) (e : key_event_t) :
    (scan_send config i x c e).key_info.press_timestamp = c.key_info.press_timestamp :=
  (send_key_event_frame config c.key_info i e _).2.2.2.1

theorem scan_send_release_timestamp (config : key_detector_config_t) (i : Nat)
    (x : scan_input_t) (c : scan_ctx_t) (e : key_event_t) :
    (scan_send config i x c e).key_info.release_timestamp = c.key_info.release_timestamp :=
  (send_key_event_frame config c.key_info i e _).2.2.2.2.1

theorem scan_send_click_count (config : key_detector_config_t) (i : Nat) (x : scan_input_t)
    (c : scan_ctx_t) (e : key_event_t) :
    (scan_send config i x c e).key_info.click_count = c.key_info.click_count :=
  (send_key_event_frame config c.key_info i e _).2.2.2.2.2.1

theorem scan_send_long_press_detected (config : key_detector_config_t) (i : Nat)
    (x : scan_input_t) (c : scan_ctx_t) (e : key_event_t) :
    (scan_send config i x c e).key_info.long_press_detected =
      c.key_info.long_press_detected :=
  (send_key_event_frame config c.key_info i e _).2.2.2.2.2.2

theorem scan_send_events (config : key_detector_config_t) (i : Nat) (x : scan_input_t)
    (c : scan_ctx_t) (e : key_event_t) :
    events_of (scan_send config i x c e).log = events_of c.log ++ [e] := by
  simp [scan_send, events_of]

theorem key_scan_run_append (config : key_detector_config_t) (i : Nat) (k : key_info_t)
    (l1 l2 : List scan_input_t) :
    key_scan_run config i k (l1 ++ l2) =
      ((key_scan_run config i (key_scan_run config i k l1).1 l2).1,
        (key_scan_run config i k l1).2 ++ (key_scan_run config i (key_scan_run config i k l1).1 l2).2) := by
  induction l1 generalizing k with
  | nil => simp [key_scan_run]
  | cons x xs ih => simp [key_scan_run, ih, List.append_assoc]

theorem key_scan_run_fst_append (config : key_detector_config_t) (i : Nat) (k : key_info_t)
    (l1 l2 : List scan_input_t) :
    (key_scan_run config i k (l1 ++ l2)).1 =
      (key_scan_run config i (key_scan_run config i k l1).1 l2).1 := by
  rw [key_scan_run_append]

theorem key_scan_run_events_append (config : key_detector_config_t) (i : Nat) (k : key_info_t)
    (l1 l2 : List scan_input_t) :
    events_of (key_scan_run config i k (l1 ++ l2)).2 =
      events_of (key_scan_run config i k l1).2 ++
        events_of (key_scan_run config i (key_scan_run config i k l1).1 l2).2 := by
  rw [key_scan_run_append]
  simp [events_of]

theorem key_scan_run_events_cons (config : key_detector_config_t) (i : Nat) (k : key_info_t)
    (x : scan_input_t) (l : List scan_input_t) :
    events_of (key_scan_run config i k (x :: l)).2 =
      events_of (key_scan_step config i k x).2 ++
        events_of (key_scan_run config i (key_scan_step config i k x).1 l).2 := by
  simp [key_scan_run, events_of]

theorem reach_nil (config : key_detector_config_t) (i : Nat) (P : key_info_t → Prop) :
    Reach config i P [] [] P := by
  intro k hk; exact ⟨hk, rfl⟩

theorem reach_append {config : key_detector_config_t} {i : Nat} {P Q R : key_info_t → Prop}
    {l1 l2 : List scan_input_t} {e1 e2 : List key_event_t}
    (h1 : Reach config i P l1 e1 Q) (h2 : Reach config i Q l2 e2 R) :
    Reach config i P (l1 ++ l2) (e1 ++ e2) R := by
  intro k hk
  obtain ⟨hq, he1⟩ := h1 k hk
  obtain ⟨hr, he2⟩ := h2 _ hq
  rw [key_scan_run_append]
  refine ⟨hr, ?_⟩
  simp only [events_of, List.map_append] at *
  rw [he1, he2]

theorem reach_single {config : key_detector_config_t} {i : Nat} {P Q : key_info_t → Prop}
    {x : scan_input_t} {e : List key_event_t}
    (h : ∀ k, P k → Q (key_scan_step config i k x).1 ∧
      events_of (key_scan_step config i k x).2 = e) :
    Reach config i P [x] e Q := by
  intro k hk
  obtain ⟨hq, he⟩ := h k hk
  simp only [key_scan_run, List.append_nil]
  exact ⟨hq, he⟩

theorem reach_cons {config : key_detector_config_t} {i : Nat} {P Q R : key_info_t → Prop}
    {x : scan_input_t} {l : List scan_input_t} {e1 e2 : List key_event_t}
    (h1 : Reach config i P [x] e1 Q) (h2 : Reach config i Q l e2 R) :
    Reach config i P (x :: l) (e1 ++ e2) R := reach_append h1 h2

/-- Inputs that leave every record of `P` untouched keep `P` and hand over no event. -/
theorem reach_idle {config : key_detector_config_t} {i : Nat} {P : key_info_t → Prop}
    {l : List scan_input_t}
    (h : ∀ x ∈ l, ∀ k, P k → key_scan_step config i k x = (k, [])) :
    Reach config i P l [] P := by
  induction l with
  | nil => exact reach_nil config i P
  | cons x xs ih =>
    have hx : Reach config i P [x] [] P := reach_single (fun k hk => by
      rw [h x (List.mem_cons_self _ _) k hk]; exact ⟨hk, rfl⟩)
    exact reach_cons hx (ih (fun y hy => h y (List.mem_cons_of_mem _ hy)))

theorem step_released_idle (config : key_detector_config_t) (i : Nat) (x : scan_input_t)
    (hx : x.pressed = false) (k : key_info_t) (hk : in_released k) :
    key_scan_step config i k x = (k, []) := by
  obtain ⟨hs, -⟩ := hk
  simp [key_scan_step, scan_released, hs, hx]

theorem step_released_press (config : key_detector_config_t) (i : Nat) (x : scan_input_t)
    (hx : x.pressed = true) (k : key_info_t) (hk : in_released k) :
    in_debounce_press x.current_time 0 (key_scan_step config i k x).1 ∧
      events_of (key_scan_step config i k x).2 = [] := by
  obtain ⟨hs, hc⟩ := hk
  simp [key_scan_step, scan_released, hs, hx, in_debounce_press, hc, events_of]

theorem step_debounce_press_idle (config : key_detector_config_t) (i : Nat) (x : scan_input_t)
    (p c : Nat) (hx : x.pressed = true) (h1 : p ≤ x.current_time)
    (h2 : x.current_time < p + 20) (h3 : x.current_time ≤ UINT32_MAX)
    (k : key_info_t) (hk : in_debounce_press p c k) :
    key_scan_step config i k x = (k, []) := by
  obtain ⟨hs, hp, -⟩ := hk
  have hd : time_diff_ms p x.current_time < 20 := by
    rw [time_diff_ms_of_le h1 h3]; omega
  simp [key_scan_step, scan_debounce, hs, hx, hp, Nat.not_le.mpr hd]

theorem step_debounce_press_confirm (config : key_detector_config_t) (i : Nat) (x : scan_input_t)
    (p : Nat) (hx : ev_active x) (h1 : p + 20 ≤ x.current_time)
    (h3 : x.current_time ≤ UINT32_MAX)
    (k : key_info_t) (hk : in_debounce_press p 0 k) :
    in_pressed p 0 (key_scan_step config i k x).1 ∧
      events_of (key_scan_step config i k x).2 = [KEY_EVENT_PRESS_DOWN] := by
  obtain ⟨hs, hp, hc⟩ := hk
  obtain ⟨hx1, hx2⟩ := hx
  have hd : 20 ≤ time_diff_ms p x.current_time := by
    rw [time_diff_ms_of_le (by omega) h3]; omega
  simp [key_scan_step, scan_debounce, hs, hx1, hx2, hp, hd, hc, in_pressed, scan_send_state,
    scan_send_press_timestamp, scan_send_click_count, scan_send_long_press_detected,
    scan_send_events]
  simp [events_of]

theorem step_debounce_press_confirm_second (config : key_detector_config_t) (i : Nat)
    (x : scan_input_t)
    (p : Nat) (hx : ev_active x) (h1 : p + 20 ≤ x.current_time)
    (h3 : x.current_time ≤ UINT32_MAX)
    (k : key_info_t) (hk : in_debounce_press p 1 k) :
    in_pressed p 1 (key_scan_step config i k x).1 ∧
      events_of (key_scan_step config i k x).2 = [] := by
  obtain ⟨hs, hp, hc⟩ := hk
  obtain ⟨hx1, hx2⟩ := hx
  have hd : 20 ≤ time_diff_ms p x.current_time := by
    rw [time_diff_ms_of_le (by omega) h3]; omega
  simp [key_scan_step, scan_debounce, hs, hx1, hx2, hp, hd, hc, in_pressed, events_of]

theorem step_pressed_idle (config : key_detector_config_t) (i : Nat) (x : scan_input_t)
    (p c : Nat) (hx : x.pressed = true) (h1 : p ≤ x.current_time)
    (h2 : x.current_time < p + 1000) (h3 : x.current_time ≤ UINT32_MAX)
    (k : key_info_t) (hk : in_pressed p c k) :
    key_scan_step config i k x = (k, []) := by
  obtain ⟨hs, hp, -, hl⟩ := hk
  have hd : time_diff_ms p x.current_time < 1000 := by
    rw [time_diff_ms_of_le h1 h3]; omega
  simp [key_scan_step, scan_pressed, hs, hx, hp, hl, Nat.not_le.mpr hd]

theorem step_pressed_long_start (config : key_detector_config_t) (i : Nat) (x : scan_input_t)
    (p c : Nat) (hx : x.pressed = true) (h1 : p + 1000 ≤ x.current_time)
    (h3 : x.current_time ≤ UINT32_MAX)
    (k : key_info_t) (hk : in_pressed p c k) :
    in_pressed_long p (key_scan_step config i k x).1 ∧
      events_of (key_scan_step config i k x).2 =
        [KEY_EVENT_LONG_PRESS_START, KEY_EVENT_LONG_PRESS_HOLD] := by
  obtain ⟨hs, hp, -, hl⟩ := hk
  have hd : time_diff_ms p x.current_time = x.current_time - p :=
    time_diff_ms_of_le (by omega) h3
  have h0 : time_diff_ms x.current_time x.current_time = 0 := by
    rw [time_diff_ms_of_le (le_refl _) h3]; omega
  have hsub : 200 ≤ u32_sub (x.current_time - p) 0 := by
    unfold u32_sub; simp only [UINT32_MAX] at h3; omega
  have hge : 1000 ≤ x.current_time - p := by omega
  simp [key_scan_step, scan_pressed, hs, hx, hp, hl, hd, h0, hsub, hge, in_pressed_long,
    scan_send_state, scan_send_press_timestamp, scan_send_long_press_detected,
    scan_send_events]
  simp [events_of]

theorem step_pressed_long_hold (config : key_detector_config_t) (i : Nat) (x : scan_input_t)
    (p : Nat) (hx : x.pressed = true)
    (k : key_info_t) (hk : in_pressed_long p k) :
    in_pressed_long p (key_scan_step config i k x).1 ∧
      ∀ e ∈ events_of (key_scan_step config i k x).2, e = KEY_EVENT_LONG_PRESS_HOLD := by
  obtain ⟨hs, hp, hl⟩ := hk
  simp only [key_scan_step, scan_pressed, hs, hx, hl]
  simp
  split
  · simp [in_pressed_long, scan_send_state, scan_send_press_timestamp,
      scan_send_long_press_detected, scan_send_events, hs, hp, hl]
    simp [events_of]
  · simp [in_pressed_long, events_of, hs, hp, hl]

theorem step_pressed_release (config : key_detector_config_t) (i : Nat) (x : scan_input_t)
    (p c : Nat) (hx : x.pressed = false)
    (k : key_info_t) (hk : in_pressed p c k) :
    in_debounce_release p x.current_time c (key_scan_step config i k x).1 ∧
      events_of (key_scan_step config i k x).2 = [] := by
  obtain ⟨hs, hp, hc, hl⟩ := hk
  simp [key_scan_step, scan_pressed, hs, hx, hp, hl, hc, in_debounce_release, events_of]

theorem step_pressed_long_release (config : key_detector_config_t) (i : Nat) (x : scan_input_t)
    (p : Nat) (hx : x.pressed = false)
    (k : key_info_t) (hk : in_pressed_long p k) :
    in_debounce_release_long p x.current_time (key_scan_step config i k x).1 ∧
      events_of (key_scan_step config i k x).2 = [] := by
  obtain ⟨hs, hp, hl⟩ := hk
  simp [key_scan_step, scan_pressed, hs, hx, hp, hl, in_debounce_release_long, events_of]

theorem step_debounce_release_idle (config : key_detector_config_t) (i : Nat)
    (x : scan_input_t) (r : Nat) (hx : x.pressed = false) (h1 : r ≤ x.current_time)
    (h2 : x.current_time < r + 20) (h3 : x.current_time ≤ UINT32_MAX)
    (k : key_info_t) (hs : k.state = KEY_STATE_DEBOUNCE) (hr : k.release_timestamp = r) :
    key_scan_step config i k x = (k, []) := by
  have hd : time_diff_ms r x.current_time < 20 := by
    rw [time_diff_ms_of_le h1 h3]; omega
  simp [key_scan_step, scan_debounce, hs, hx, hr, Nat.not_le.mpr hd]

theorem step_release_confirm_first (config : key_detector_config_t) (i : Nat)
    (x : scan_input_t) (p r : Nat) (hx : ev_inactive x) (hpr : p ≤ r) (hdur : r ≤ p + 300)
    (h1 : r + 20 ≤ x.current_time) (h3 : x.current_time ≤ UINT32_MAX)
    (k : key_info_t) (hk : in_debounce_release p r 0 k) :
    in_wait_release x.current_time (key_scan_step config i k x).1 ∧
      events_of (key_scan_step config i k x).2 = [KEY_EVENT_PRESS_UP] := by
  obtain ⟨hs, hp, hr, hc, hl⟩ := hk
  obtain ⟨hx1, hx2⟩ := hx
  have hd : 20 ≤ time_diff_ms r x.current_time := by
    rw [time_diff_ms_of_le (by omega) h3]; omega
  have hpd : time_diff_ms p r ≤ 300 := by
    rw [time_diff_ms_of_le hpr (by omega)]; omega
  simp [key_scan_step, scan_debounce, scan_confirm_release, hs, hx1, hx2, hd, hr, hp, hpd, hc,
    in_wait_release, scan_send_state, scan_send_press_timestamp, scan_send_release_timestamp,
    scan_send_click_count, scan_send_long_press_detected, scan_send_events]
  simp [events_of]

theorem step_release_confirm_second (config : key_detector_config_t) (i : Nat)
    (x : scan_input_t) (p r : Nat) (hx : ev_inactive x) (hpr : p ≤ r) (hdur : r ≤ p + 300)
    (h1 : r + 20 ≤ x.current_time) (h3 : x.current_time ≤ UINT32_MAX)
    (k : key_info_t) (hk : in_debounce_release p r 1 k) :
    in_released (key_scan_step config i k x).1 ∧
      events_of (key_scan_step config i k x).2 =
        [KEY_EVENT_PRESS_UP, KEY_EVENT_DOUBLE_CLICK] := by
  obtain ⟨hs, hp, hr, hc, hl⟩ := hk
  obtain ⟨hx1, hx2⟩ := hx
  have hd : 20 ≤ time_diff_ms r x.current_time := by
    rw [time_diff_ms_of_le (by omega) h3]; omega
  have hpd : time_diff_ms p r ≤ 300 := by
    rw [time_diff_ms_of_le hpr (by omega)]; omega
  simp [key_scan_step, scan_debounce, scan_confirm_release, hs, hx1, hx2, hd, hr, hp, hpd, hc,
    in_released, scan_send_state, scan_send_press_timestamp, scan_send_release_timestamp,
    scan_send_click_count, scan_send_long_press_detected, scan_send_events]
  simp [events_of]

theorem step_release_confirm_long (config : key_detector_config_t) (i : Nat)
    (x : scan_input_t) (p r : Nat) (hx : ev_inactive x) (hdur : p + 300 < r)
    (h1 : r + 20 ≤ x.current_time) (h3 : x.current_time ≤ UINT32_MAX)
    (k : key_info_t) (hk : in_debounce_release_long p r k) :
    in_released (key_scan_step config i k x).1 ∧
      events_of (key_scan_step config i k x).2 =
        [KEY_EVENT_PRESS_UP, KEY_EVENT_LONG_PRESS_END] := by
  obtain ⟨hs, hp, hr, hl⟩ := hk
  obtain ⟨hx1, hx2⟩ := hx
  have hd : 20 ≤ time_diff_ms r x.current_time := by
    rw [time_diff_ms_of_le (by omega) h3]; omega
  have hpd : ¬ time_diff_ms p r ≤ 300 := by
    rw [time_diff_ms_of_le (by omega) (by omega)]; omega
  simp [key_scan_step, scan_debounce, scan_confirm_release, hs, hx1, hx2, hd, hr, hp, hpd, hl,
    in_released, scan_send_state, scan_send_press_timestamp, scan_send_release_timestamp,
    scan_send_click_count, scan_send_long_press_detected, scan_send_events]
  simp [events_of]

theorem step_wait_idle (config : key_detector_config_t) (i : Nat) (x : scan_input_t)
    (w : Nat) (hx : x.pressed = false) (h1 : w ≤ x.current_time)
    (h2 : x.current_time < w + 500) (h3 : x.current_time ≤ UINT32_MAX)
    (k : key_info_t) (hk : in_wait_release w k) :
    key_scan_step config i k x = (k, []) := by
  obtain ⟨hs, hw, -⟩ := hk
  have hd : time_diff_ms w x.current_time < 500 := by
    rw [time_diff_ms_of_le h1 h3]; omega
  simp [key_scan_step, scan_wait_release, hs, hx, hw, Nat.not_le.mpr hd]

theorem step_wait_timeout (config : key_detector_config_t) (i : Nat) (x : scan_input_t)
    (w : Nat) (hx : x.pressed = false) (h1 : w + 500 ≤ x.current_time)
    (h3 : x.current_time ≤ UINT32_MAX)
    (k : key_info_t) (hk : in_wait_release w k) :
    in_released (key_scan_step config i k x).1 ∧
      events_of (key_scan_step config i k x).2 = [KEY_EVENT_SINGLE_CLICK] := by
  obtain ⟨hs, hw, -⟩ := hk
  have hd : 500 ≤ time_diff_ms w x.current_time := by
    rw [time_diff_ms_of_le (by omega) h3]; omega
  simp [key_scan_step, scan_wait_release, hs, hx, hw, hd, in_released, scan_send_state,
    scan_send_events]
  simp [events_of]

theorem step_wait_press (config : key_detector_config_t) (i : Nat) (x : scan_input_t)
    (w : Nat) (hx : x.pressed = true)
    (k : key_info_t) (hk : in_wait_release w k) :
    in_debounce_press x.current_time 1 (key_scan_step config i k x).1 ∧
      events_of (key_scan_step config i k x).2 = [] := by
  obtain ⟨hs, hw, hc⟩ := hk
  simp [key_scan_step, scan_wait_release, hs, hx, hc, in_debounce_press, events_of]

theorem times_ok_append {l1 l2 : List scan_input_t} (h : times_ok (l1 ++ l2)) :
    times_ok l1 ∧ times_ok l2 ∧ ∀ x ∈ l1, ∀ y ∈ l2, x.current_time ≤ y.current_time := by
  obtain ⟨hp, hb⟩ := h
  rw [List.pairwise_append] at hp
  obtain ⟨h1, h2, h3⟩ := hp
  exact ⟨⟨h1, fun x hx => hb x (List.mem_append_left _ hx)⟩,
    ⟨h2, fun x hx => hb x (List.mem_append_right _ hx)⟩, h3⟩

theorem times_ok_cons {x : scan_input_t} {l : List scan_input_t} (h : times_ok (x :: l)) :
    x.current_time ≤ UINT32_MAX ∧ times_ok l ∧ ∀ y ∈ l, x.current_time ≤ y.current_time := by
  obtain ⟨hp, hb⟩ := h
  rw [List.pairwise_cons] at hp
  exact ⟨hb x (List.mem_cons_self _ _), ⟨hp.2, fun y hy => hb y (List.mem_cons_of_mem _ hy)⟩,
    hp.1⟩

/-- Released, inactive samples: nothing happens. -/
theorem reach_released_idle (config : key_detector_config_t) (i : Nat)
    (l : List scan_input_t) (h : ∀ x ∈ l, ev_inactive x) :
    Reach config i in_released l [] in_released :=
  reach_idle (fun x hx k hk => step_released_idle config i x (h x hx).1 k hk)

theorem run_pressed_long (config : key_detector_config_t) (i : Nat) (p : Nat)
    (l : List scan_input_t) (h : ∀ x ∈ l, x.pressed = true) (k : key_info_t)
    (hk : in_pressed_long p k) :
    in_pressed_long p (key_scan_run config i k l).1 ∧
      ∀ e ∈ events_of (key_scan_run config i k l).2, e = KEY_EVENT_LONG_PRESS_HOLD := by
  induction l generalizing k with
  | nil => exact ⟨hk, by simp [key_scan_run, events_of]⟩
  | cons x xs ih =>
    obtain ⟨h1, h2⟩ := step_pressed_long_hold config i x p (h x (by simp)) k hk
    obtain ⟨h3, h4⟩ := ih (fun y hy => h y (by simp [hy])) _ h1
    refine ⟨h3, ?_⟩
    intro e he
    simp only [key_scan_run, events_of, List.map_append, List.mem_append] at he
    rcases he with he | he
    · exact h2 e he
    · exact h4 e he

theorem scan_inputs_succ (inputs : Nat → scan_input_t) (n : Nat) :
    scan_inputs inputs (n + 1) = scan_inputs inputs n ++ [inputs n] := by
  simp [scan_inputs, List.range_succ]

theorem key_scan_run_inputs_succ (config : key_detector_config_t) (i : Nat) (k : key_info_t)
    (inputs : Nat → scan_input_t) (n : Nat) :
    (key_scan_run config i k (scan_inputs inputs (n + 1))).1 =
      (key_scan_step config i (key_scan_run config i k (scan_inputs inputs n)).1
        (inputs n)).1 := by
  rw [scan_inputs_succ, key_scan_run_fst_append]
  simp [key_scan_run]

theorem step_inactive_not_pressed (config : key_detector_config_t) (i : Nat)
    (x : scan_input_t) (hx : x.pressed = false) (k : key_info_t)
    (hk : k.state ≠ KEY_STATE_PRESSED) :
    (key_scan_step config i k x).1.state ≠ KEY_STATE_PRESSED := by
  simp only [key_scan_step]
  split_ifs with h0 h2 h3
  · simp [scan_released, hx, h0]
  · simp only [scan_debounce, scan_confirm_release, hx, Bool.false_eq_true, if_false]
    split_ifs <;> simp [scan_send_state, h2]
  · simp only [scan_wait_release, hx, Bool.false_eq_true, if_false]
    split_ifs <;> simp [scan_send_state, h3]
  · simp

theorem time_diff_ms_next_tick (t : Nat) :
    time_diff_ms (t % 4294967296) ((t + 10) % 4294967296) < KEY_DEBOUNCE_TIME_MS := by
  unfold time_diff_ms u32_sub u32_add
  simp only [UINT32_MAX, KEY_DEBOUNCE_TIME_MS]
  split_ifs <;> omega

/-- Across a wrap of the 32-bit clock `time_diff_ms` returns one less than the
time truly elapsed. -/
theorem time_diff_ms_across_wrap (earlier d : Nat) (he : earlier ≤ UINT32_MAX)
    (hd : d ≤ UINT32_MAX) (hwrap : UINT32_MAX < earlier + d) :
    time_diff_ms earlier ((earlier + d) % 4294967296) = d - 1 := by
  unfold time_diff_ms u32_add u32_sub
  simp only [UINT32_MAX] at *
  split_ifs <;> omega

/-- Once a long press is detected, every further active iteration hands over
LongPressHold, whatever the time since the previous one. -/
theorem step_pressed_long_hold_fires (config : key_detector_config_t) (i : Nat)
    (x : scan_input_t) (p w : Nat) (hx : x.pressed = true) (hpw : p + 200 ≤ w)
    (hwt : w ≤ x.current_time) (h3 : x.current_time ≤ UINT32_MAX)
    (k : key_info_t) (hk : in_pressed_long p k) (hw : k.last_event_timestamp = w) :
    events_of (key_scan_step config i k x).2 = [KEY_EVENT_LONG_PRESS_HOLD] ∧
      (key_scan_step config i k x).1.last_event_timestamp = x.current_time := by
  obtain ⟨hs, hp, hl⟩ := hk
  have hd : time_diff_ms p x.current_time = x.current_time - p :=
    time_diff_ms_of_le (by omega) h3
  have hd2 : time_diff_ms w x.current_time = x.current_time - w :=
    time_diff_ms_of_le hwt h3
  have hsub : 200 ≤ u32_sub (x.current_time - p) (x.current_time - w) := by
    unfold u32_sub; simp only [UINT32_MAX] at h3; omega
  simp [key_scan_step, scan_pressed, hs, hx, hp, hl, hw, hd, hd2, hsub, scan_send_events]
  simp [events_of]

/-- In state Debounce an inactive clean sample taken 20 ms or more after
`release_timestamp` hands over PressUp, whatever began the debounce. -/
theorem step_debounce_inactive_press_up (config : key_detector_config_t) (i : Nat)
    (x : scan_input_t) (hx : ev_inactive x) (k : key_info_t)
    (hs : k.state = KEY_STATE_DEBOUNCE)
    (hd : KEY_DEBOUNCE_TIME_MS ≤ time_diff_ms k.release_timestamp x.current_time) :
    ∃ rest, events_of (key_scan_step config i k x).2 = KEY_EVENT_PRESS_UP :: rest := by
  obtain ⟨hx1, hx2⟩ := hx
  simp only [KEY_DEBOUNCE_TIME_MS] at hd
  simp only [key_scan_step, scan_debounce, scan_confirm_release, hs, hx1, hx2]
  simp [hd]
  split_ifs <;> simp [scan_send, events_of]

/-- The value of `is_key_pressed` on a key with a hardware entry. -/
theorem is_key_pressed_value (d : key_detector_t) (key_id : Nat)
    (key_gpio_read : Nat → Nat) (hws : List key_hw_config_t) (hw : key_hw_config_t)
    (hid : key_id < d.config.key_count)
    (hcfg : d.config.hw_configs = some hws) (hhw : hws.get? key_id = some hw) :
    is_key_pressed (some d) key_id key_gpio_read =
      (if hw.active_level = key_active_level_t.KEY_ACTIVE_LOW then
        key_gpio_read hw.gpio_num == 0 else key_gpio_read hw.gpio_num == 1) := by
  have hget : (d.config.hw_configs.getD []).getD key_id
      { gpio_num := 0, active_level := key_active_level_t.KEY_ACTIVE_LOW,
        pull_enable := 0, pull_up := 0 } = hw := by
    rw [hcfg]
    simp [List.getD_eq_getElem?_getD, List.get?_eq_getElem?] at hhw ⊢
    rw [hhw]; rfl
  simp only [is_key_pressed, Nat.not_le.mpr hid, if_false, hget]

/-- A call of `scan_send` leaves `last_state` as it was. -/
theorem scan_send_last_state (config : key_detector_config_t) (i : Nat)
    (x : scan_input_t) (c : scan_ctx_t) (e : key_event_t) :
    (scan_send config i x c e).key_info.last_state = c.key_info.last_state :=
  (send_key_event_frame config c.key_info i e _).2.2.1

/-- A call of `scan_send` appends one entry to the log. -/
theorem scan_send_log (config : key_detector_config_t) (i : Nat) (x : scan_input_t)
    (c : scan_ctx_t) (e : key_event_t) :
    (scan_send config i x c e).log =
      c.log ++ [{ key_id := i, event := e,
                  timestamp := (if c.log.length = 0 then x.send1 else x.send2).timestamp }] :=
  rfl

/-- Every call of `send_key_event` made by one iteration for key `i` passes
key id `i` and one of the seven events the state machine produces. -/
theorem key_scan_step_log (config : key_detector_config_t) (i : Nat) (k : key_info_t)
    (inp : scan_input_t) :
    ∀ m ∈ (key_scan_step config i k inp).2,
      m.key_id = i ∧
      (m.event = KEY_EVENT_PRESS_DOWN ∨ m.event = KEY_EVENT_PRESS_UP ∨
        m.event = KEY_EVENT_SINGLE_CLICK ∨ m.event = KEY_EVENT_DOUBLE_CLICK ∨
        m.event = KEY_EVENT_LONG_PRESS_START ∨ m.event = KEY_EVENT_LONG_PRESS_HOLD ∨
        m.event = KEY_EVENT_LONG_PRESS_END) := by
  intro m hm
  simp only [key_scan_step] at hm
  split_ifs at hm with h0 h1 h2 h3
  · simp only [scan_released] at hm
    split_ifs at hm <;> simp at hm
  · simp only [scan_pressed] at hm
    split_ifs at hm <;> simp [scan_send_log] at hm <;>
      (try rcases hm with hm | hm) <;> subst_vars <;> simp
  · simp only [scan_debounce, scan_confirm_release] at hm
    split_ifs at hm <;> simp [scan_send_log] at hm <;>
      (try rcases hm with hm | hm) <;> subst_vars <;> simp
  · simp only [scan_wait_release] at hm
    split_ifs at hm <;> simp [scan_send_log] at hm
    subst_vars
    simp
  · simp at hm

/-- The record and the result of `send_key_event_full` are those of
`send_key_event` on record `key_id` with the queue's answer as outcome. -/
theorem send_key_event_full_record (d : key_detector_t) (sink : event_sink_t) (key_id : Nat)
    (event : key_event_t) (timestamp : Nat) (hid : key_id < d.key_infos.length) :
    (send_key_event_full d sink key_id event timestamp).1 =
      (send_key_event d.config (d.key_infos.getD key_id (key_info_init key_id)) key_id event
        { timestamp := timestamp,
          queue_ok := (xQueueSend sink.queue
            { key_id := key_id, event := event, timestamp := timestamp }).1 }).1 ∧
    (send_key_event_full d sink key_id event timestamp).2.1.key_infos.getD key_id
        (key_info_init key_id) =
      (send_key_event d.config (d.key_infos.getD key_id (key_info_init key_id)) key_id event
        { timestamp := timestamp,
          queue_ok := (xQueueSend sink.queue
            { key_id := key_id, event := event, timestamp := timestamp }).1 }).2 := by
  simp only [send_key_event_full, send_key_event]
  split_ifs <;> simp_all [List.getD_eq_getElem?_getD]

/-- A call of `send_key_event` with key id `key_id` leaves every other record
of the detector as it was. -/
theorem send_key_event_full_frame (d : key_detector_t) (sink : event_sink_t) (key_id j : Nat)
    (event : key_event_t) (timestamp : Nat) (hne : key_id ≠ j) :
    (send_key_event_full d sink key_id event timestamp).2.1.key_infos[j]? =
      d.key_infos[j]? := by
  simp only [send_key_event_full]
  split_ifs <;> simp [List.getElem?_set_ne hne]

/-- One iteration on two records that differ at most in `last_event_timestamp`
(and not even there while it is read), with the same samples and time but any
sink configurations and delivery outcomes. -/
theorem key_scan_step_sim_aux (config config2 : key_detector_config_t) (i : Nat)
    (k : key_info_t) (le2 : Nat) (x : scan_input_t) (o1 o2 : send_outcome_t)
    (h8 : (k.state = KEY_STATE_WAIT_RELEASE ∨
        (k.state = KEY_STATE_PRESSED ∧ k.long_press_detected = true)) →
      k.last_event_timestamp = le2) :
    key_sim (key_scan_step config i k x).1
        (key_scan_step config2 i { k with last_event_timestamp := le2 }
          { x with send1 := o1, send2 := o2 }).1 ∧
      events_of (key_scan_step config i k x).2 =
        events_of (key_scan_step config2 i { k with last_event_timestamp := le2 }
          { x with send1 := o1, send2 := o2 }).2 := by
  by_cases h0 : k.state = KEY_STATE_RELEASED
  · by_cases hp : x.pressed = true <;>
      simp_all [key_scan_step, scan_released, key_sim, events_of]
  by_cases h1 : k.state = KEY_STATE_PRESSED
  · by_cases hp : x.pressed = true
    · by_cases hl : k.long_press_detected = true
      · have hle := h8 (Or.inr ⟨h1, hl⟩)
        subst hle
        by_cases hc : KEY_LONG_PRESS_HOLD_INTERVAL_MS ≤
            u32_sub (time_diff_ms k.press_timestamp x.current_time)
              (time_diff_ms k.last_event_timestamp x.current_time)
        · simp [key_scan_step, scan_pressed, h1, hp, hl, hc, key_sim, scan_send_state,
            scan_send_key_id, scan_send_press_timestamp, scan_send_release_timestamp,
            scan_send_click_count, scan_send_long_press_detected, scan_send_events,
            scan_send_last_state]
        · simp [key_scan_step, scan_pressed, h1, hp, hl, hc, key_sim, events_of]
      · have hl' : k.long_press_detected = false := by simpa using hl
        by_cases hs : KEY_LONG_PRESS_TIME_MS ≤ time_diff_ms k.press_timestamp x.current_time
        · by_cases hc : KEY_LONG_PRESS_HOLD_INTERVAL_MS ≤
              u32_sub (time_diff_ms k.press_timestamp x.current_time)
                (time_diff_ms x.current_time x.current_time)
          · simp [key_scan_step, scan_pressed, h1, hp, hl', hs, hc, key_sim, scan_send_state,
              scan_send_key_id, scan_send_press_timestamp, scan_send_release_timestamp,
              scan_send_click_count, scan_send_long_press_detected, scan_send_events,
              scan_send_last_state]
          · simp [key_scan_step, scan_pressed, h1, hp, hl', hs, hc, key_sim, scan_send_state,
              scan_send_key_id, scan_send_press_timestamp, scan_send_release_timestamp,
              scan_send_click_count, scan_send_long_press_detected, scan_send_events,
              scan_send_last_state]
        · simp [key_scan_step, scan_pressed, h1, hp, hl', hs, key_sim, events_of]
    · have hp' : x.pressed = false := by simpa using hp
      simp [key_scan_step, scan_pressed, h1, hp', key_sim, events_of]
  by_cases h2 : k.state = KEY_STATE_DEBOUNCE
  · by_cases hp : x.pressed = true
    · by_cases hd : KEY_DEBOUNCE_TIME_MS ≤ time_diff_ms k.press_timestamp x.current_time <;>
        by_cases hs : x.still_pressed = true <;>
        by_cases hc : k.click_count = 1 <;>
        simp [key_scan_step, scan_debounce, h2, hp, hd, hs, hc, key_sim, scan_send_state,
          scan_send_key_id, scan_send_press_timestamp, scan_send_release_timestamp,
          scan_send_click_count, scan_send_long_press_detected, scan_send_events,
          scan_send_last_state]
    · have hp' : x.pressed = false := by simpa using hp
      by_cases hd : KEY_DEBOUNCE_TIME_MS ≤
          time_diff_ms k.release_timestamp x.current_time <;>
        by_cases hs : x.still_pressed = true <;>
        by_cases hdur : time_diff_ms k.press_timestamp k.release_timestamp ≤
          KEY_CLICK_TIME_MS <;>
        by_cases hc1 : (k.click_count + 1) % 256 = 1 <;>
        by_cases hc2 : (k.click_count + 1) % 256 = 2 <;>
        by_cases hl : k.long_press_detected = true <;>
        simp [key_scan_step, scan_debounce, scan_confirm_release, h2, hp', hd, hs, hdur, hc1,
          hc2, hl, key_sim, scan_send_state, scan_send_key_id, scan_send_press_timestamp,
          scan_send_release_timestamp, scan_send_click_count, scan_send_long_press_detected,
          scan_send_events, scan_send_last_state]
  by_cases h3 : k.state = KEY_STATE_WAIT_RELEASE
  · have hle := h8 (Or.inl h3)
    subst hle
    by_cases hp : x.pressed = true <;>
      by_cases hw : KEY_DOUBLE_CLICK_INTERVAL_MS ≤
        time_diff_ms k.last_event_timestamp x.current_time <;>
      simp [key_scan_step, scan_wait_release, h3, hp, hw, key_sim, scan_send_state,
        scan_send_key_id, scan_send_press_timestamp, scan_send_release_timestamp,
        scan_send_click_count, scan_send_long_press_detected, scan_send_events,
        scan_send_last_state]
  · simp [key_scan_step, h0, h1, h2, h3, key_sim, events_of]

/-- One iteration on two records that agree in what the state machine reads,
with the same samples and time but any sink configurations and any delivery
outcomes, hands the same events to `send_key_event` and leaves records that
again agree. -/
theorem key_scan_step_sim (config config2 : key_detector_config_t) (i : Nat)
    (k k2 : key_info_t) (x y : scan_input_t) (hk : key_sim k k2) (hxy : same_samples x y) :
    key_sim (key_scan_step config i k x).1 (key_scan_step config2 i k2 y).1 ∧
      events_of (key_scan_step config i k x).2 =
        events_of (key_scan_step config2 i k2 y).2 := by
  obtain ⟨a1, a2, a3, a4, a5, a6, a7, a8⟩ := k
  obtain ⟨b1, b2, b3, b4, b5, b6, b7, b8⟩ := k2
  obtain ⟨p1, p2, p3, p4, p5⟩ := x
  obtain ⟨q1, q2, q3, q4, q5⟩ := y
  simp only [key_sim, same_samples] at hk hxy
  obtain ⟨rfl, rfl, rfl, rfl, rfl, rfl, rfl, e8⟩ := hk
  obtain ⟨rfl, rfl, rfl⟩ := hxy
  exact key_scan_step_sim_aux config config2 i ⟨a1, a2, a3, a4, a5, a6, a7, a8⟩ b6
    ⟨p1, p2, p3, p4, p5⟩ q4 q5 e8

/-- A record agrees with itself. -/
theorem key_sim_refl (k : key_info_t) : key_sim k k :=
  ⟨rfl, rfl, rfl, rfl, rfl, rfl, rfl, fun _ => rfl⟩

/-- One iteration keeps the click count at 0 or 1, and at 0 in state
Released. -/
theorem key_scan_step_click_count (config : key_detector_config_t) (i : Nat) (k : key_info_t)
    (x : scan_input_t) (hc : k.click_count ≤ 1)
    (hr : k.state = KEY_STATE_RELEASED → k.click_count = 0) :
    (key_scan_step config i k x).1.click_count ≤ 1 ∧
      ((key_scan_step config i k x).1.state = KEY_STATE_RELEASED →
        (key_scan_step config i k x).1.click_count = 0) := by
  by_cases h0 : k.state = KEY_STATE_RELEASED
  · have hz := hr h0
    by_cases hp : x.pressed = true <;>
      simp [key_scan_step, scan_released, h0, hp, hz]
  by_cases h1 : k.state = KEY_STATE_PRESSED
  · simp only [key_scan_step, if_neg h0, if_pos h1, scan_pressed]
    split_ifs <;>
      simp [scan_send_state, scan_send_click_count, hc, h1]
  by_cases h2 : k.state = KEY_STATE_DEBOUNCE
  · have hcase : k.click_count = 0 ∨ k.click_count = 1 := by omega
    simp only [key_scan_step, if_neg h0, if_neg h1, if_pos h2, scan_debounce,
      scan_confirm_release]
    rcases hcase with hz | hz <;>
      split_ifs <;>
      simp_all [scan_send_state, scan_send_click_count]
  by_cases h3 : k.state = KEY_STATE_WAIT_RELEASE
  · simp only [key_scan_step, if_neg h0, if_neg h1, if_neg h2, if_pos h3, scan_wait_release]
    split_ifs <;>
      simp [scan_send_state, scan_send_click_count, hc, h3]
  · simp [key_scan_step, h0, h1, h2, h3]

/-- The record of key `j` after any schedule is the one key `j` reaches on its
own inputs alone, and the calls made for key `j` are those of that run. -/
theorem key_scan_schedule_key (sched : List (Nat × scan_input_t)) (d : key_detector_t)
    (j : Nat) (hj : j < d.key_infos.length) :
    (key_scan_schedule d sched).1.key_infos.getD j (key_info_init j) =
      (key_scan_run d.config j (d.key_infos.getD j (key_info_init j))
        (inputs_of_key j sched)).1 ∧
    (key_scan_schedule d sched).2.filter (fun m => decide (m.key_id = j)) =
      (key_scan_run d.config j (d.key_infos.getD j (key_info_init j))
        (inputs_of_key j sched)).2 := by
  induction sched generalizing d with
  | nil => simp [key_scan_schedule, inputs_of_key, key_scan_run]
  | cons p rest ih =>
    have hlen : j < (key_scan_iteration d p.1 p.2).1.key_infos.length := by
      simp [key_scan_iteration, hj]
    obtain ⟨ih1, ih2⟩ := ih (key_scan_iteration d p.1 p.2).1 hlen
    have hcfg : (key_scan_iteration d p.1 p.2).1.config = d.config := rfl
    have hlog : ∀ m ∈ (key_scan_iteration d p.1 p.2).2, m.key_id = p.1 := fun m hm =>
      (key_scan_step_log d.config p.1 _ p.2 m hm).1
    simp only [key_scan_schedule, List.filter_append]
    rw [ih1, ih2, hcfg]
    by_cases hp : p.1 = j
    · have hrec : (key_scan_iteration d p.1 p.2).1.key_infos.getD j (key_info_init j) =
          (key_scan_step d.config j (d.key_infos.getD j (key_info_init j)) p.2).1 := by
        subst hp
        simp [key_scan_iteration, List.getD_eq_getElem?_getD, hj]
      have hall : (key_scan_iteration d p.1 p.2).2.filter (fun m => decide (m.key_id = j)) =
          (key_scan_step d.config j (d.key_infos.getD j (key_info_init j)) p.2).2 := by
        rw [List.filter_eq_self.mpr (fun m hm => by simp [hlog m hm, hp])]
        subst hp
        rfl
      rw [hrec, hall]
      simp [inputs_of_key, hp, key_scan_run]
    · have hrec : (key_scan_iteration d p.1 p.2).1.key_infos.getD j (key_info_init j) =
          d.key_infos.getD j (key_info_init j) := by
        simp [key_scan_iteration, List.getD_eq_getElem?_getD, List.getElem?_set_ne hp]
      have hnone : (key_scan_iteration d p.1 p.2).2.filter (fun m => decide (m.key_id = j)) =
          [] := by
        rw [List.filter_eq_nil_iff]
        intro m hm
        simp [hlog m hm, hp]
      rw [hrec, hnone]
      simp [inputs_of_key, hp]

/-- One clean iteration keeps `long_flag_inv`. -/
theorem key_scan_step_long_flag (config : key_detector_config_t) (i : Nat) (k : key_info_t)
    (x : scan_input_t) (now : Nat) (hinv : long_flag_inv now k) (hclean : ev_clean x)
    (hnow : now ≤ x.current_time) (hmax : x.current_time ≤ UINT32_MAX) :
    long_flag_inv x.current_time (key_scan_step config i k x).1 := by
  obtain ⟨hp, hl⟩ := hinv
  simp only [ev_clean] at hclean
  simp only [KEY_LONG_PRESS_TIME_MS] at hl
  have hpt : k.press_timestamp ≤ x.current_time := le_trans hp hnow
  by_cases h0 : k.state = KEY_STATE_RELEASED
  · have hlf : k.long_press_detected = false := by
      cases hb : k.long_press_detected
      · rfl
      · rcases hl hb with h | h
        · rw [h0] at h; exact absurd h.1 (by decide)
        · rw [h0] at h; exact absurd h.1 (by decide)
    by_cases hpr : x.pressed = true <;>
      simp [key_scan_step, scan_released, h0, hpr, long_flag_inv, hlf, hpt]
  by_cases h1 : k.state = KEY_STATE_PRESSED
  · by_cases hpr : x.pressed = true
    · have hd : time_diff_ms k.press_timestamp x.current_time =
          x.current_time - k.press_timestamp := time_diff_ms_of_le hpt hmax
      have hgoal : (key_scan_step config i k x).1.state = KEY_STATE_PRESSED ∧
          (key_scan_step config i k x).1.press_timestamp = k.press_timestamp ∧
          ((key_scan_step config i k x).1.long_press_detected = true →
            k.press_timestamp + 1000 ≤ x.current_time) := by
        by_cases hb : k.long_press_detected = true
        · have h1000 : k.press_timestamp + 1000 ≤ x.current_time := by
            rcases hl hb with h | h
            · omega
            · rw [h1] at h; exact absurd h.1 (by decide)
          simp only [key_scan_step, if_neg h0, if_pos h1, scan_pressed, hpr, hb]
          simp
          split_ifs <;>
            simp [scan_send_state, scan_send_press_timestamp, h1, h1000]
        · have hb' : k.long_press_detected = false := by simpa using hb
          by_cases hs : KEY_LONG_PRESS_TIME_MS ≤ time_diff_ms k.press_timestamp x.current_time
          · have h1000 : k.press_timestamp + 1000 ≤ x.current_time := by
              rw [hd] at hs; simp only [KEY_LONG_PRESS_TIME_MS] at hs; omega
            simp only [key_scan_step, if_neg h0, if_pos h1, scan_pressed, hpr, hb', hs]
            simp
            split_ifs <;>
              simp [scan_send_state, scan_send_press_timestamp, h1, h1000]
          · simp [key_scan_step, h1, scan_pressed, hpr, hb', hs]
      obtain ⟨g1, g2, g3⟩ := hgoal
      refine ⟨by rw [g2]; exact hpt, fun hb => Or.inl ⟨g1, ?_⟩⟩
      rw [g2]; exact g3 hb
    · have hpr' : x.pressed = false := by simpa using hpr
      have hstep : (key_scan_step config i k x).1 =
          { k with state := KEY_STATE_DEBOUNCE, release_timestamp := x.current_time,
                   last_event_timestamp := x.current_time } := by
        simp [key_scan_step, h1, scan_pressed, hpr']
      rw [hstep]
      refine ⟨hpt, fun hb => Or.inr ⟨rfl, ?_, hmax⟩⟩
      rcases hl hb with h | h
      · show k.press_timestamp + 1000 ≤ x.current_time
        omega
      · rw [h1] at h; exact absurd h.1 (by decide)
  by_cases h2 : k.state = KEY_STATE_DEBOUNCE
  · have hkeep : long_flag_inv x.current_time k := by
      refine ⟨hpt, fun hb => ?_⟩
      rcases hl hb with h | h
      · rw [h2] at h; exact absurd h.1 (by decide)
      · exact Or.inr h
    by_cases hpr : x.pressed = true
    · have hst : x.still_pressed = true := by rw [hclean, hpr]
      by_cases hd : KEY_DEBOUNCE_TIME_MS ≤ time_diff_ms k.press_timestamp x.current_time
      · by_cases hc : k.click_count = 1 <;>
          simp [key_scan_step, h2, scan_debounce, hpr, hst, hd, hc, long_flag_inv,
            scan_send_press_timestamp, hpt]
      · have hstep : key_scan_step config i k x = (k, []) := by
          simp [key_scan_step, h2, scan_debounce, hpr, hd]
        rw [hstep]; exact hkeep
    · have hpr' : x.pressed = false := by simpa using hpr
      have hst : x.still_pressed = false := by rw [hclean, hpr']
      by_cases hd : KEY_DEBOUNCE_TIME_MS ≤ time_diff_ms k.release_timestamp x.current_time
      · by_cases hb : k.long_press_detected = true
        · have hdur : ¬ time_diff_ms k.press_timestamp k.release_timestamp ≤
              KEY_CLICK_TIME_MS := by
            rcases hl hb with h | h
            · rw [h2] at h; exact absurd h.1 (by decide)
            · rw [time_diff_ms_of_le (by omega) h.2.2]
              simp only [KEY_CLICK_TIME_MS]; omega
          simp [key_scan_step, h2, scan_debounce, scan_confirm_release, hpr', hst, hd, hb,
            hdur, long_flag_inv, scan_send_press_timestamp, scan_send_release_timestamp,
            scan_send_long_press_detected, hpt]
        · have hb' : k.long_press_detected = false := by simpa using hb
          simp only [key_scan_step, if_neg h0, if_neg h1, if_pos h2, scan_debounce,
            scan_confirm_release, hpr', hst]
          simp only [Bool.false_eq_true, if_false, if_pos hd, if_true]
          split_ifs <;>
            simp [long_flag_inv, scan_send_press_timestamp, scan_send_release_timestamp,
              scan_send_long_press_detected, scan_send_click_count, hb', hpt]
      · have hstep : key_scan_step config i k x = (k, []) := by
          simp [key_scan_step, h2, scan_debounce, hpr', hd]
        rw [hstep]; exact hkeep
  by_cases h3 : k.state = KEY_STATE_WAIT_RELEASE
  · have hlf : k.long_press_detected = false := by
      cases hb : k.long_press_detected
      · rfl
      · rcases hl hb with h | h
        · rw [h3] at h; exact absurd h.1 (by decide)
        · rw [h3] at h; exact absurd h.1 (by decide)
    simp only [key_scan_step, if_neg h0, if_neg h1, if_neg h2, if_pos h3, scan_wait_release]
    split_ifs <;>
      simp [long_flag_inv, scan_send_press_timestamp, scan_send_long_press_detected, hlf, hpt]
  · simp [key_scan_step, h0, h1, h2, h3, long_flag_inv, hpt]

/-- Clean iterations with timestamps that neither decrease nor wrap keep
`long_flag_inv`. -/
theorem key_scan_run_long_flag (config : key_detector_config_t) (i : Nat)
    (l : List scan_input_t) (k : key_info_t) (now : Nat) (hinv : long_flag_inv now k)
    (hclean : ∀ x ∈ l, ev_clean x) (ht : times_ok l)
    (hnow : ∀ x ∈ l, now ≤ x.current_time) :
    ∃ now2, long_flag_inv now2 (key_scan_run config i k l).1 := by
  induction l generalizing k now with
  | nil => exact ⟨now, hinv⟩
  | cons x xs ih =>
    obtain ⟨hx, hxs, hle⟩ := times_ok_cons ht
    have hstep := key_scan_step_long_flag config i k x now hinv
      (hclean x (List.mem_cons_self _ _)) (hnow x (List.mem_cons_self _ _)) hx
    exact ih _ x.current_time hstep (fun y hy => hclean y (List.mem_cons_of_mem _ hy)) hxs hle

set_option maxRecDepth 100000 in
/-- After the long press with a bouncing release (`bouncy_long_press`) the key
is in state Released with `long_press_detected` still set. -/
theorem bouncy_long_press_flag_survives :
    (key_scan_run key_init_config 0 (key_info_init 0) bouncy_long_press).1.state =
      KEY_STATE_RELEASED ∧
    (key_scan_run key_init_config 0 (key_info_init 0)
      bouncy_long_press).1.long_press_detected = true := by
  decide

/-- A clean confirmed short press and its confirmed release, from Released
with no click pending: PressDown and PressUp, and the double-click timer
starts at the confirming iteration. -/
theorem reach_click (config : key_detector_config_t) (i : Nat)
    (a : scan_input_t) (W : List scan_input_t) (c : scan_input_t) (H : List scan_input_t)
    (r : scan_input_t) (V : List scan_input_t) (u : scan_input_t)
    (hok : click_ok a W c H r V u) (htimes : times_ok (click_ticks a W c H r V u)) :
    Reach config i in_released (click_ticks a W c H r V u)
      [KEY_EVENT_PRESS_DOWN, KEY_EVENT_PRESS_UP] (in_wait_release u.current_time) := by
  obtain ⟨hact, hrel, hW, hc, hr, hV, hu⟩ := hok
  unfold click_ticks at htimes ⊢
  simp only [KEY_DEBOUNCE_TIME_MS, KEY_CLICK_TIME_MS] at *
  obtain ⟨-, t1, a_le⟩ := times_ok_cons htimes
  obtain ⟨tW, t2, -⟩ := times_ok_append t1
  obtain ⟨c_ok, t3, -⟩ := times_ok_cons t2
  obtain ⟨tH, t4, H_le⟩ := times_ok_append t3
  obtain ⟨r_ok, t5, r_le⟩ := times_ok_cons t4
  obtain ⟨tV, t6, -⟩ := times_ok_append t5
  obtain ⟨u_ok, -, -⟩ := times_ok_cons t6
  have a_r : a.current_time ≤ r.current_time := a_le r (by simp)
  have s2 : Reach config i in_released [a] [] (in_debounce_press a.current_time 0) :=
    reach_single (step_released_press config i a (hact a (by simp)).1)
  have s3 : Reach config i (in_debounce_press a.current_time 0) W []
      (in_debounce_press a.current_time 0) :=
    reach_idle (fun x hx k hk =>
      step_debounce_press_idle config i x _ _ (hact x (by simp [hx])).1
        (a_le x (by simp [hx])) (hW x hx) (tW.2 x hx) k hk)
  have s4 : Reach config i (in_debounce_press a.current_time 0) [c] [KEY_EVENT_PRESS_DOWN]
      (in_pressed a.current_time 0) :=
    reach_single (step_debounce_press_confirm config i c _ (hact c (by simp)) hc c_ok)
  have s5 : Reach config i (in_pressed a.current_time 0) H [] (in_pressed a.current_time 0) :=
    reach_idle (fun x hx k hk =>
      step_pressed_idle config i x _ _ (hact x (by simp [hx])).1 (a_le x (by simp [hx]))
        (by have := H_le x hx r (by simp); omega) (tH.2 x hx) k hk)
  have s6 : Reach config i (in_pressed a.current_time 0) [r] []
      (in_debounce_release a.current_time r.current_time 0) :=
    reach_single (step_pressed_release config i r _ _ (hrel r (by simp)).1)
  have s7 : Reach config i (in_debounce_release a.current_time r.current_time 0) V []
      (in_debounce_release a.current_time r.current_time 0) :=
    reach_idle (fun x hx k hk =>
      step_debounce_release_idle config i x _ (hrel x (by simp [hx])).1
        (r_le x (by simp [hx])) (hV x hx) (tV.2 x hx) k hk.1 hk.2.2.1)
  have s8 : Reach config i (in_debounce_release a.current_time r.current_time 0) [u]
      [KEY_EVENT_PRESS_UP] (in_wait_release u.current_time) :=
    reach_single (step_release_confirm_first config i u _ _ (hrel u (by simp)) a_r hr hu u_ok)
  exact reach_cons s2 (reach_append s3 (reach_cons s4 (reach_append s5
    (reach_cons s6 (reach_append s7 s8)))))

/-- The last iteration of `click_ticks` is not earlier than any other. -/
theorem click_ticks_last (a : scan_input_t) (W : List scan_input_t) (c : scan_input_t)
    (H : List scan_input_t) (r : scan_input_t) (V : List scan_input_t) (u : scan_input_t) :
    u ∈ click_ticks a W c H r V u := by
  simp [click_ticks]

/-- Runs on two records that agree in what the state machine reads, over
inputs with the same samples and times, hand the same events to
`send_key_event` and end in records that again agree, whatever the sink
configurations and delivery outcomes. -/
theorem key_scan_run_sim (config config2 : key_detector_config_t) (i : Nat)
    (l l2 : List scan_input_t) (hl : List.Forall₂ same_samples l l2)
    (k k2 : key_info_t) (hk : key_sim k k2) :
    key_sim (key_scan_run config i k l).1 (key_scan_run config2 i k2 l2).1 ∧
      events_of (key_scan_run config i k l).2 = events_of (key_scan_run config2 i k2 l2).2 := by
  induction hl generalizing k k2 with
  | nil => exact ⟨hk, rfl⟩
  | cons hxy _ ih =>
    obtain ⟨h1, h2⟩ := key_scan_step_sim config config2 i k k2 _ _ hk hxy
    obtain ⟨h3, h4⟩ := ih _ _ h1
    refine ⟨h3, ?_⟩
    rw [key_scan_run_events_cons, key_scan_run_events_cons, h2, h4]

/-- The confirmed release of a press that lasted more than 300 ms and was not
a long press: PressUp only, and the click count is cleared. -/
theorem step_release_confirm_plain (config : key_detector_config_t) (i : Nat)
    (x : scan_input_t) (p r c : Nat) (hx : ev_inactive x) (hdur : p + 300 < r)
    (h1 : r + 20 ≤ x.current_time) (h3 : x.current_time ≤ UINT32_MAX)
    (k : key_info_t) (hk : in_debounce_release p r c k) :
    in_released (key_scan_step config i k x).1 ∧
      events_of (key_scan_step config i k x).2 = [KEY_EVENT_PRESS_UP] := by
  obtain ⟨hs, hp, hr, -, hl⟩ := hk
  obtain ⟨hx1, hx2⟩ := hx
  have hd : 20 ≤ time_diff_ms r x.current_time := by
    rw [time_diff_ms_of_le (by omega) h3]; omega
  have hpd : ¬ time_diff_ms p r ≤ 300 := by
    rw [time_diff_ms_of_le (by omega) (by omega)]; omega
  simp [key_scan_step, scan_debounce, scan_confirm_release, hs, hx1, hx2, hd, hr, hp, hpd, hl,
    in_released, scan_send_state, scan_send_press_timestamp, scan_send_release_timestamp,
    scan_send_click_count, scan_send_long_press_detected, scan_send_events]
  simp [events_of]

/-- From Pressed without long press: a clean release that starts more than
300 ms after the press candidate hands over PressUp only and ends in Released
with no click pending. -/
theorem reach_release_plain (config : key_detector_config_t) (i : Nat) (p c : Nat)
    (r : scan_input_t) (V : List scan_input_t) (u : scan_input_t) (post : List scan_input_t)
    (ht : times_ok (r :: (V ++ u :: post)))
    (hrel : ∀ x ∈ r :: (V ++ u :: post), ev_inactive x)
    (hdur : p + 300 < r.current_time)
    (hV : ∀ x ∈ V, x.current_time < r.current_time + 20)
    (hu : r.current_time + 20 ≤ u.current_time) :
    Reach config i (in_pressed p c) (r :: (V ++ u :: post)) [KEY_EVENT_PRESS_UP]
      in_released := by
  obtain ⟨-, t1, r_le⟩ := times_ok_cons ht
  obtain ⟨tV, t2, -⟩ := times_ok_append t1
  obtain ⟨u_ok, -, -⟩ := times_ok_cons t2
  have s1 : Reach config i (in_pressed p c) [r] []
      (in_debounce_release p r.current_time c) :=
    reach_single (step_pressed_release config i r _ _ (hrel r (by simp)).1)
  have s2 : Reach config i (in_debounce_release p r.current_time c) V []
      (in_debounce_release p r.current_time c) :=
    reach_idle (fun x hx k hk =>
      step_debounce_release_idle config i x _ (hrel x (by simp [hx])).1
        (r_le x (by simp [hx])) (hV x hx) (tV.2 x hx) k hk.1 hk.2.2.1)
  have s3 : Reach config i (in_debounce_release p r.current_time c) [u]
      [KEY_EVENT_PRESS_UP] in_released :=
    reach_single (step_release_confirm_plain config i u _ _ _ (hrel u (by simp)) hdur hu u_ok)
  have s4 : Reach config i in_released post [] in_released :=
    reach_released_idle config i post (fun x hx => hrel x (by simp [hx]))
  exact reach_cons s1 (reach_append s2 (reach_cons s3 s4))

/-- From Pressed with a long press detected: a clean release that starts more
than 300 ms after the press candidate hands over PressUp and LongPressEnd and
ends in Released with no click pending. -/
theorem reach_release_long (config : key_detector_config_t) (i : Nat) (p : Nat)
    (r : scan_input_t) (V : List scan_input_t) (u : scan_input_t) (post : List scan_input_t)
    (ht : times_ok (r :: (V ++ u :: post)))
    (hrel : ∀ x ∈ r :: (V ++ u :: post), ev_inactive x)
    (hdur : p + 300 < r.current_time)
    (hV : ∀ x ∈ V, x.current_time < r.current_time + 20)
    (hu : r.current_time + 20 ≤ u.current_time) :
    Reach config i (in_pressed_long p) (r :: (V ++ u :: post))
      [KEY_EVENT_PRESS_UP, KEY_EVENT_LONG_PRESS_END] in_released := by
  obtain ⟨-, t1, r_le⟩ := times_ok_cons ht
  obtain ⟨tV, t2, -⟩ := times_ok_append t1
  obtain ⟨u_ok, -, -⟩ := times_ok_cons t2
  have s1 : Reach config i (in_pressed_long p) [r] []
      (in_debounce_release_long p r.current_time) :=
    reach_single (step_pressed_long_release config i r _ (hrel r (by simp)).1)
  have s2 : Reach config i (in_debounce_release_long p r.current_time) V []
      (in_debounce_release_long p r.current_time) :=
    reach_idle (fun x hx k hk =>
      step_debounce_release_idle config i x _ (hrel x (by simp [hx])).1
        (r_le x (by simp [hx])) (hV x hx) (tV.2 x hx) k hk.1 hk.2.2.1)
  have s3 : Reach config i (in_debounce_release_long p r.current_time) [u]
      [KEY_EVENT_PRESS_UP, KEY_EVENT_LONG_PRESS_END] in_released :=
    reach_single (step_release_confirm_long config i u _ _ (hrel u (by simp)) hdur hu u_ok)
  have s4 : Reach config i in_released post [] in_released :=
    reach_released_idle config i post (fun x hx => hrel x (by simp [hx]))
  exact reach_cons s1 (reach_append s2 (reach_cons s3 s4))

/-- Active samples in state Pressed, no long press detected at the start:
either every one is taken less than 1000 ms after the press candidate and
nothing happens, or one reaches 1000 ms and the calls are LongPressStart,
LongPressHold and further LongPressHold. -/
theorem run_pressed_active (config : key_detector_config_t) (i : Nat) (p c : Nat)
    (l : List scan_input_t) (hact : ∀ x ∈ l, x.pressed = true)
    (hb : ∀ x ∈ l, x.current_time ≤ UINT32_MAX) (hp : ∀ x ∈ l, p ≤ x.current_time)
    (k : key_info_t) (hk : in_pressed p c k) :
    ((∀ x ∈ l, x.current_time < p + 1000) ∧ in_pressed p c (key_scan_run config i k l).1 ∧
        events_of (key_scan_run config i k l).2 = []) ∨
    ((∃ x ∈ l, p + 1000 ≤ x.current_time) ∧ in_pressed_long p (key_scan_run config i k l).1 ∧
        ∃ holds, events_of (key_scan_run config i k l).2 =
            [KEY_EVENT_LONG_PRESS_START, KEY_EVENT_LONG_PRESS_HOLD] ++ holds ∧
          ∀ e ∈ holds, e = KEY_EVENT_LONG_PRESS_HOLD) := by
  induction l with
  | nil => exact Or.inl ⟨by simp, hk, rfl⟩
  | cons x xs ih =>
    by_cases hx : x.current_time < p + 1000
    · have hstep := step_pressed_idle config i x p c (hact x (by simp)) (hp x (by simp)) hx
        (hb x (by simp)) k hk
      have hrun : key_scan_run config i k (x :: xs) = key_scan_run config i k xs := by
        simp [key_scan_run, hstep]
      rw [hrun]
      rcases ih (fun y hy => hact y (by simp [hy])) (fun y hy => hb y (by simp [hy]))
          (fun y hy => hp y (by simp [hy])) with ⟨h1, h2, h3⟩ | ⟨⟨y, hy, hy2⟩, h2, h3⟩
      · refine Or.inl ⟨?_, h2, h3⟩
        intro y hy
        rcases List.mem_cons.mp hy with rfl | hy
        · exact hx
        · exact h1 y hy
      · exact Or.inr ⟨⟨y, List.mem_cons_of_mem _ hy, hy2⟩, h2, h3⟩
    · obtain ⟨h1, h2⟩ := step_pressed_long_start config i x p c (hact x (by simp))
        (by omega) (hb x (by simp)) k hk
      obtain ⟨h3, h4⟩ := run_pressed_long config i p xs (fun y hy => hact y (by simp [hy]))
        _ h1
      refine Or.inr ⟨⟨x, by simp, by omega⟩, ?_, ?_⟩
      · simpa [key_scan_run] using h3
      · refine ⟨events_of (key_scan_run config i (key_scan_step config i k x).1 xs).2, ?_, h4⟩
        rw [key_scan_run_events_cons, h2]

/-- Decoding a byte made by `decToBcd`: for every `v` up to 99 `bcdToDec`
gives `v` back; the masks of `PCF85063_Read_Time` keep the byte of a value in
the range of their register; a year from 1970 to 2069 comes back through the
year register. -/
theorem bcd_round_trip_masked :
    ∀ v : Nat, v < 100 →
      bcdToDec (decToBcd (v : Int)) = (v : Int) ∧
      (v < 60 → to_uint8 (bcdToDec (decToBcd (v : Int) &&& 0x7F)) = v) ∧
      (v < 32 → to_uint8 (bcdToDec (decToBcd (v : Int) &&& 0x3F)) = v) ∧
      (v < 7 → to_uint8 (bcdToDec (decToBcd (v : Int) &&& 0x07)) = v) ∧
      (v < 13 → to_uint8 (bcdToDec (decToBcd (v : Int) &&& 0x1F)) = v) ∧
      to_uint16 (bcdToDec (decToBcd (((1970 + v : Nat) : Int) - YEAR_OFFSET)) + YEAR_OFFSET) =
        1970 + v := by
  decide

/-! Claims -/

/-- C1: from a record in state Released with click count 0 (such as the one
`key_detector_create` writes), a clean press that is
confirmed after the 20 ms debounce window, whose first inactive sample comes at
most 300 ms after its first active sample, and that is followed by inactive
samples until 500 ms after the release was confirmed, hands exactly PressDown,
PressUp, SingleClick to `send_key_event`, in that order. -/
theorem single_click_sequence (config : key_detector_config_t) (i : Nat)
    (k : key_info_t) (hstate : k.state = KEY_STATE_RELEASED) (hcount : k.click_count = 0)
    (pre W1 H1 W2 W3 post : List scan_input_t) (a c r u e : scan_input_t)
    (h : single_click_scenario pre a W1 c H1 r W2 u W3 e post) :
    events_of (key_scan_run config i k
        (single_click_ticks pre a W1 c H1 r W2 u W3 e post)).2 =
      [KEY_EVENT_PRESS_DOWN, KEY_EVENT_PRESS_UP, KEY_EVENT_SINGLE_CLICK] := by
  obtain ⟨htimes, hpre, hact, hrel, hW1, hc, hr, hW2, hu, hW3, he⟩ := h
  unfold single_click_ticks at htimes ⊢
  simp only [KEY_DEBOUNCE_TIME_MS, KEY_CLICK_TIME_MS, KEY_DOUBLE_CLICK_INTERVAL_MS] at *
  obtain ⟨-, t0, -⟩ := times_ok_append htimes
  obtain ⟨-, t1, a_le⟩ := times_ok_cons t0
  obtain ⟨tW1, t2, -⟩ := times_ok_append t1
  obtain ⟨c_ok, t3, -⟩ := times_ok_cons t2
  obtain ⟨tH1, t4, H1_le⟩ := times_ok_append t3
  obtain ⟨r_ok, t5, r_le⟩ := times_ok_cons t4
  obtain ⟨tW2, t6, -⟩ := times_ok_append t5
  obtain ⟨u_ok, t7, u_le⟩ := times_ok_cons t6
  obtain ⟨tW3, t8, -⟩ := times_ok_append t7
  obtain ⟨e_ok, -, -⟩ := times_ok_cons t8
  have a_r : a.current_time ≤ r.current_time := a_le r (by simp)
  have s1 := reach_released_idle config i pre hpre
  have s2 : Reach config i in_released [a] [] (in_debounce_press a.current_time 0) :=
    reach_single (step_released_press config i a (hact a (by simp)).1)
  have s3 : Reach config i (in_debounce_press a.current_time 0) W1 []
      (in_debounce_press a.current_time 0) :=
    reach_idle (fun x hx k hk =>
      step_debounce_press_idle config i x _ _ (hact x (by simp [hx])).1
        (a_le x (by simp [hx])) (hW1 x hx) (tW1.2 x hx) k hk)
  have s4 : Reach config i (in_debounce_press a.current_time 0) [c] [KEY_EVENT_PRESS_DOWN]
      (in_pressed a.current_time 0) :=
    reach_single (step_debounce_press_confirm config i c _ (hact c (by simp)) hc c_ok)
  have s5 : Reach config i (in_pressed a.current_time 0) H1 [] (in_pressed a.current_time 0) :=
    reach_idle (fun x hx k hk =>
      step_pressed_idle config i x _ _ (hact x (by simp [hx])).1 (a_le x (by simp [hx]))
        (by have := H1_le x hx r (by simp); omega)
        (tH1.2 x hx) k hk)
  have s6 : Reach config i (in_pressed a.current_time 0) [r] []
      (in_debounce_release a.current_time r.current_time 0) :=
    reach_single (step_pressed_release config i r _ _ (hrel r (by simp)).1)
  have s7 : Reach config i (in_debounce_release a.current_time r.current_time 0) W2 []
      (in_debounce_release a.current_time r.current_time 0) :=
    reach_idle (fun x hx k hk =>
      step_debounce_release_idle config i x _ (hrel x (by simp [hx])).1
        (r_le x (by simp [hx])) (hW2 x hx) (tW2.2 x hx) k hk.1 hk.2.2.1)
  have s8 : Reach config i (in_debounce_release a.current_time r.current_time 0) [u]
      [KEY_EVENT_PRESS_UP] (in_wait_release u.current_time) :=
    reach_single (step_release_confirm_first config i u _ _ (hrel u (by simp)) a_r hr hu u_ok)
  have s9 : Reach config i (in_wait_release u.current_time) W3 []
      (in_wait_release u.current_time) :=
    reach_idle (fun x hx k hk =>
      step_wait_idle config i x _ (hrel x (by simp [hx])).1 (u_le x (by simp [hx]))
        (hW3 x hx) (tW3.2 x hx) k hk)
  have s10 : Reach config i (in_wait_release u.current_time) [e] [KEY_EVENT_SINGLE_CLICK]
      in_released :=
    reach_single (step_wait_timeout config i e _ (hrel e (by simp)).1 he e_ok)
  have s11 := reach_released_idle config i post (fun x hx => hrel x (by simp [hx]))
  exact (reach_append s1 (reach_cons s2 (reach_append s3 (reach_cons s4 (reach_append s5
    (reach_cons s6 (reach_append s7 (reach_cons s8 (reach_append s9
      (reach_cons s10 s11))))))))) k ⟨hstate, hcount⟩).2

/-- C1, at a concrete press: samples every 10 ms, active from 10 ms to 40 ms,
inactive to 580 ms. -/
theorem single_click_sequence_witness :
    events_of (key_scan_run key_init_config 0 (key_info_init 0)
        (single_click_ticks [tick 0 false] (tick 10 true) [tick 20 true] (tick 30 true)
          [tick 40 true] (tick 50 false) [tick 60 false] (tick 70 false)
          (ticks_every_10ms 80 49 false) (tick 570 false) [tick 580 false])).2 =
      [KEY_EVENT_PRESS_DOWN, KEY_EVENT_PRESS_UP, KEY_EVENT_SINGLE_CLICK] :=
  single_click_sequence key_init_config 0 (key_info_init 0) rfl rfl _ _ _ _ _ _ _ _ _ _ _
    (by
      simp only [single_click_scenario, single_click_ticks, times_ok, ev_active, ev_inactive,
        ticks_every_10ms, tick, UINT32_MAX, KEY_DEBOUNCE_TIME_MS, KEY_CLICK_TIME_MS,
        KEY_DOUBLE_CLICK_INTERVAL_MS]
      decide)

/-- C2 (amended): from a record in state Released with click count 0, two
clean confirmed presses, each released at most 300 ms
after its first active sample, the second starting less than 500 ms after the
first release was confirmed, hand exactly PressDown, PressUp, PressUp,
DoubleClick to `send_key_event`: the PressDown of the second press is
suppressed, and there is no SingleClick. -/
theorem double_click_sequence (config : key_detector_config_t) (i : Nat)
    (k : key_info_t) (hstate : k.state = KEY_STATE_RELEASED) (hcount : k.click_count = 0)
    (pre W1 H1 W2 W3 V1 G1 V2 post : List scan_input_t)
    (a c r u a2 c2 r2 u2 : scan_input_t)
    (h : double_click_scenario pre a W1 c H1 r W2 u W3 a2 V1 c2 G1 r2 V2 u2 post) :
    events_of (key_scan_run config i k
        (double_click_ticks pre a W1 c H1 r W2 u W3 a2 V1 c2 G1 r2 V2 u2 post)).2 =
      [KEY_EVENT_PRESS_DOWN, KEY_EVENT_PRESS_UP, KEY_EVENT_PRESS_UP,
        KEY_EVENT_DOUBLE_CLICK] := by
  obtain ⟨htimes, hpre, hact, hrel, hact2, hrel2, hW1, hc, hr, hW2, hu, ha2, hV1, hc2, hr2,
    hV2, hu2⟩ := h
  unfold double_click_ticks at htimes ⊢
  simp only [KEY_DEBOUNCE_TIME_MS, KEY_CLICK_TIME_MS, KEY_DOUBLE_CLICK_INTERVAL_MS] at *
  obtain ⟨-, t0, -⟩ := times_ok_append htimes
  obtain ⟨-, t1, a_le⟩ := times_ok_cons t0
  obtain ⟨tW1, t2, -⟩ := times_ok_append t1
  obtain ⟨c_ok, t3, -⟩ := times_ok_cons t2
  obtain ⟨tH1, t4, H1_le⟩ := times_ok_append t3
  obtain ⟨r_ok, t5, r_le⟩ := times_ok_cons t4
  obtain ⟨tW2, t6, -⟩ := times_ok_append t5
  obtain ⟨u_ok, t7, u_le⟩ := times_ok_cons t6
  obtain ⟨tW3, t8, W3_le⟩ := times_ok_append t7
  obtain ⟨-, t9, a2_le⟩ := times_ok_cons t8
  obtain ⟨tV1, t10, -⟩ := times_ok_append t9
  obtain ⟨c2_ok, t11, -⟩ := times_ok_cons t10
  obtain ⟨tG1, t12, G1_le⟩ := times_ok_append t11
  obtain ⟨r2_ok, t13, r2_le⟩ := times_ok_cons t12
  obtain ⟨tV2, t14, -⟩ := times_ok_append t13
  obtain ⟨u2_ok, -, -⟩ := times_ok_cons t14
  have a_r : a.current_time ≤ r.current_time := a_le r (by simp)
  have a2_r2 : a2.current_time ≤ r2.current_time := a2_le r2 (by simp)
  have s1 := reach_released_idle config i pre hpre
  have s2 : Reach config i in_released [a] [] (in_debounce_press a.current_time 0) :=
    reach_single (step_released_press config i a (hact a (by simp)).1)
  have s3 : Reach config i (in_debounce_press a.current_time 0) W1 []
      (in_debounce_press a.current_time 0) :=
    reach_idle (fun x hx k hk =>
      step_debounce_press_idle config i x _ _ (hact x (by simp [hx])).1
        (a_le x (by simp [hx])) (hW1 x hx) (tW1.2 x hx) k hk)
  have s4 : Reach config i (in_debounce_press a.current_time 0) [c] [KEY_EVENT_PRESS_DOWN]
      (in_pressed a.current_time 0) :=
    reach_single (step_debounce_press_confirm config i c _ (hact c (by simp)) hc c_ok)
  have s5 : Reach config i (in_pressed a.current_time 0) H1 [] (in_pressed a.current_time 0) :=
    reach_idle (fun x hx k hk =>
      step_pressed_idle config i x _ _ (hact x (by simp [hx])).1 (a_le x (by simp [hx]))
        (by have := H1_le x hx r (by simp); omega) (tH1.2 x hx) k hk)
  have s6 : Reach config i (in_pressed a.current_time 0) [r] []
      (in_debounce_release a.current_time r.current_time 0) :=
    reach_single (step_pressed_release config i r _ _ (hrel r (by simp)).1)
  have s7 : Reach config i (in_debounce_release a.current_time r.current_time 0) W2 []
      (in_debounce_release a.current_time r.current_time 0) :=
    reach_idle (fun x hx k hk =>
      step_debounce_release_idle config i x _ (hrel x (by simp [hx])).1
        (r_le x (by simp [hx])) (hW2 x hx) (tW2.2 x hx) k hk.1 hk.2.2.1)
  have s8 : Reach config i (in_debounce_release a.current_time r.current_time 0) [u]
      [KEY_EVENT_PRESS_UP] (in_wait_release u.current_time) :=
    reach_single (step_release_confirm_first config i u _ _ (hrel u (by simp)) a_r hr hu u_ok)
  have s9 : Reach config i (in_wait_release u.current_time) W3 []
      (in_wait_release u.current_time) :=
    reach_idle (fun x hx k hk =>
      step_wait_idle config i x _ (hrel x (by simp [hx])).1 (u_le x (by simp [hx]))
        (by have := W3_le x hx a2 (by simp); omega) (tW3.2 x hx) k hk)
  have s10 : Reach config i (in_wait_release u.current_time) [a2] []
      (in_debounce_press a2.current_time 1) :=
    reach_single (step_wait_press config i a2 _ (hact2 a2 (by simp)).1)
  have s11 : Reach config i (in_debounce_press a2.current_time 1) V1 []
      (in_debounce_press a2.current_time 1) :=
    reach_idle (fun x hx k hk =>
      step_debounce_press_idle config i x _ _ (hact2 x (by simp [hx])).1
        (a2_le x (by simp [hx])) (hV1 x hx) (tV1.2 x hx) k hk)
  have s12 : Reach config i (in_debounce_press a2.current_time 1) [c2] []
      (in_pressed a2.current_time 1) :=
    reach_single
      (step_debounce_press_confirm_second config i c2 _ (hact2 c2 (by simp)) hc2 c2_ok)
  have s13 : Reach config i (in_pressed a2.current_time 1) G1 []
      (in_pressed a2.current_time 1) :=
    reach_idle (fun x hx k hk =>
      step_pressed_idle config i x _ _ (hact2 x (by simp [hx])).1 (a2_le x (by simp [hx]))
        (by have := G1_le x hx r2 (by simp); omega) (tG1.2 x hx) k hk)
  have s14 : Reach config i (in_pressed a2.current_time 1) [r2] []
      (in_debounce_release a2.current_time r2.current_time 1) :=
    reach_single (step_pressed_release config i r2 _ _ (hrel2 r2 (by simp)).1)
  have s15 : Reach config i (in_debounce_release a2.current_time r2.current_time 1) V2 []
      (in_debounce_release a2.current_time r2.current_time 1) :=
    reach_idle (fun x hx k hk =>
      step_debounce_release_idle config i x _ (hrel2 x (by simp [hx])).1
        (r2_le x (by simp [hx])) (hV2 x hx) (tV2.2 x hx) k hk.1 hk.2.2.1)
  have s16 : Reach config i (in_debounce_release a2.current_time r2.current_time 1) [u2]
      [KEY_EVENT_PRESS_UP, KEY_EVENT_DOUBLE_CLICK] in_released :=
    reach_single
      (step_release_confirm_second config i u2 _ _ (hrel2 u2 (by simp)) a2_r2 hr2 hu2 u2_ok)
  have s17 := reach_released_idle config i post (fun x hx => hrel2 x (by simp [hx]))
  exact (reach_append s1 (reach_cons s2 (reach_append s3 (reach_cons s4 (reach_append s5
    (reach_cons s6 (reach_append s7 (reach_cons s8 (reach_append s9 (reach_cons s10
      (reach_append s11 (reach_cons s12 (reach_append s13 (reach_cons s14 (reach_append s15
        (reach_cons s16 s17))))))))))))))) k ⟨hstate, hcount⟩).2

/-- C2 (amended), at a concrete double click: samples every 10 ms, active from
10 ms to 40 ms and from 90 ms to 120 ms. -/
theorem double_click_sequence_witness :
    events_of (key_scan_run key_init_config 0 (key_info_init 0)
        (double_click_ticks [tick 0 false] (tick 10 true) [tick 20 true] (tick 30 true)
          [tick 40 true] (tick 50 false) [tick 60 false] (tick 70 false) [tick 80 false]
          (tick 90 true) [tick 100 true] (tick 110 true) [tick 120 true] (tick 130 false)
          [tick 140 false] (tick 150 false) [tick 160 false])).2 =
      [KEY_EVENT_PRESS_DOWN, KEY_EVENT_PRESS_UP, KEY_EVENT_PRESS_UP,
        KEY_EVENT_DOUBLE_CLICK] :=
  double_click_sequence key_init_config 0 (key_info_init 0) rfl rfl
    _ _ _ _ _ _ _ _ _ _ _ _ _ _ _ _ _
    (by simp [double_click_scenario, double_click_ticks, times_ok, tick, ev_active,
      ev_inactive, UINT32_MAX, KEY_DEBOUNCE_TIME_MS, KEY_CLICK_TIME_MS,
      KEY_DOUBLE_CLICK_INTERVAL_MS])

/-- C2 as stated fails: it is not true that every such pair of presses hands
PressDown, PressUp, PressDown, PressUp, DoubleClick to `send_key_event`; the
double click sampled every 10 ms and active from 10 ms to 40 ms and from 90 ms
to 120 ms does not. -/
theorem double_click_claimed_sequence_refuted :
    ¬ ∀ (config : key_detector_config_t) (i : Nat)
      (pre W1 H1 W2 W3 V1 G1 V2 post : List scan_input_t)
      (a c r u a2 c2 r2 u2 : scan_input_t),
      double_click_scenario pre a W1 c H1 r W2 u W3 a2 V1 c2 G1 r2 V2 u2 post →
      events_of (key_scan_run config i (key_info_init i)
          (double_click_ticks pre a W1 c H1 r W2 u W3 a2 V1 c2 G1 r2 V2 u2 post)).2 =
        [KEY_EVENT_PRESS_DOWN, KEY_EVENT_PRESS_UP, KEY_EVENT_PRESS_DOWN, KEY_EVENT_PRESS_UP,
          KEY_EVENT_DOUBLE_CLICK] := by
  intro hall
  have h := hall key_init_config 0 [tick 0 false] [tick 20 true] [tick 40 true] [tick 60 false]
    [tick 80 false] [tick 100 true] [tick 120 true] [tick 140 false] [tick 160 false]
    (tick 10 true) (tick 30 true) (tick 50 false) (tick 70 false)
    (tick 90 true) (tick 110 true) (tick 130 false) (tick 150 false)
    (by simp [double_click_scenario, double_click_ticks, times_ok, tick, ev_active,
      ev_inactive, UINT32_MAX, KEY_DEBOUNCE_TIME_MS, KEY_CLICK_TIME_MS,
      KEY_DOUBLE_CLICK_INTERVAL_MS])
  revert h
  decide

/-- In a long-press event list LongPressStart and LongPressEnd occur once. -/
theorem long_press_counts (holds : List key_event_t)
    (h : ∀ e ∈ holds, e = KEY_EVENT_LONG_PRESS_HOLD) :
    List.count KEY_EVENT_LONG_PRESS_START
        (KEY_EVENT_PRESS_DOWN :: KEY_EVENT_LONG_PRESS_START ::
          (holds ++ [KEY_EVENT_PRESS_UP, KEY_EVENT_LONG_PRESS_END])) = 1 ∧
      List.count KEY_EVENT_LONG_PRESS_END
        (KEY_EVENT_PRESS_DOWN :: KEY_EVENT_LONG_PRESS_START ::
          (holds ++ [KEY_EVENT_PRESS_UP, KEY_EVENT_LONG_PRESS_END])) = 1 := by
  have h1 : List.count KEY_EVENT_LONG_PRESS_START holds = 0 :=
    List.count_eq_zero.mpr (fun hm => by have := h _ hm; cases this)
  have h2 : List.count KEY_EVENT_LONG_PRESS_END holds = 0 :=
    List.count_eq_zero.mpr (fun hm => by have := h _ hm; cases this)
  constructor
  · simp [List.count_cons, List.count_append, h1]
  · simp [List.count_cons, List.count_append, h2]

/-- The events of a long press, split at the iteration that confirms the
release. -/
theorem long_press_events (config : key_detector_config_t) (i : Nat)
    (k : key_info_t) (hstate : k.state = KEY_STATE_RELEASED) (hcount : k.click_count = 0)
    (pre W1 H1 H2 W2 post : List scan_input_t) (a c s r u : scan_input_t)
    (h : long_press_scenario pre a W1 c H1 s H2 r W2 u post) :
    ∃ holds : List key_event_t,
      (∀ e ∈ holds, e = KEY_EVENT_LONG_PRESS_HOLD) ∧
      events_of (key_scan_run config i k
          (long_press_ticks_before_confirm pre a W1 c H1 s H2 r W2)).2 =
        KEY_EVENT_PRESS_DOWN :: KEY_EVENT_LONG_PRESS_START :: holds ∧
      events_of (key_scan_step config i
          (key_scan_run config i k
            (long_press_ticks_before_confirm pre a W1 c H1 s H2 r W2)).1 u).2 =
        [KEY_EVENT_PRESS_UP, KEY_EVENT_LONG_PRESS_END] ∧
      events_of (key_scan_run config i k
          (long_press_ticks pre a W1 c H1 s H2 r W2 u post)).2 =
        KEY_EVENT_PRESS_DOWN :: KEY_EVENT_LONG_PRESS_START ::
          (holds ++ [KEY_EVENT_PRESS_UP, KEY_EVENT_LONG_PRESS_END]) := by
  obtain ⟨htimes, hpre, hact, hrel, hW1, hc, hH1, hs, hW2, hu⟩ := h
  unfold long_press_ticks long_press_ticks_before_confirm at htimes
  simp only [KEY_DEBOUNCE_TIME_MS, KEY_LONG_PRESS_TIME_MS] at *
  obtain ⟨tA, tu, -⟩ := times_ok_append htimes
  obtain ⟨u_ok, -, -⟩ := times_ok_cons tu
  obtain ⟨-, t0, -⟩ := times_ok_append tA
  obtain ⟨-, t1, a_le⟩ := times_ok_cons t0
  obtain ⟨tW1, t2, -⟩ := times_ok_append t1
  obtain ⟨c_ok, t3, -⟩ := times_ok_cons t2
  obtain ⟨tH1, t4, -⟩ := times_ok_append t3
  obtain ⟨s_ok, t5, s_le⟩ := times_ok_cons t4
  obtain ⟨-, t6, -⟩ := times_ok_append t5
  obtain ⟨r_ok, tW2, r_le⟩ := times_ok_cons t6
  have s_r : s.current_time ≤ r.current_time := s_le r (by simp)
  have s1 := reach_released_idle config i pre hpre
  have s2 : Reach config i in_released [a] [] (in_debounce_press a.current_time 0) :=
    reach_single (step_released_press config i a (hact a (by simp)).1)
  have s3 : Reach config i (in_debounce_press a.current_time 0) W1 []
      (in_debounce_press a.current_time 0) :=
    reach_idle (fun x hx k hk =>
      step_debounce_press_idle config i x _ _ (hact x (by simp [hx])).1
        (a_le x (by simp [hx])) (hW1 x hx) (tW1.2 x hx) k hk)
  have s4 : Reach config i (in_debounce_press a.current_time 0) [c] [KEY_EVENT_PRESS_DOWN]
      (in_pressed a.current_time 0) :=
    reach_single (step_debounce_press_confirm config i c _ (hact c (by simp)) hc c_ok)
  have s5 : Reach config i (in_pressed a.current_time 0) H1 [] (in_pressed a.current_time 0) :=
    reach_idle (fun x hx k hk =>
      step_pressed_idle config i x _ _ (hact x (by simp [hx])).1 (a_le x (by simp [hx]))
        (hH1 x hx) (tH1.2 x hx) k hk)
  have s6 : Reach config i (in_pressed a.current_time 0) [s]
      [KEY_EVENT_LONG_PRESS_START, KEY_EVENT_LONG_PRESS_HOLD]
      (in_pressed_long a.current_time) :=
    reach_single (step_pressed_long_start config i s _ _ (hact s (by simp)).1 hs s_ok)
  have hA := reach_append s1 (reach_cons s2 (reach_append s3 (reach_cons s4
    (reach_append s5 s6)))) k ⟨hstate, hcount⟩
  obtain ⟨qA, eA⟩ := hA
  obtain ⟨qH, eH⟩ := run_pressed_long config i a.current_time H2
    (fun x hx => (hact x (by simp [hx])).1) _ qA
  have s7 : Reach config i (in_pressed_long a.current_time) [r] []
      (in_debounce_release_long a.current_time r.current_time) :=
    reach_single (step_pressed_long_release config i r _ (hrel r (by simp)).1)
  have s8 : Reach config i (in_debounce_release_long a.current_time r.current_time) W2 []
      (in_debounce_release_long a.current_time r.current_time) :=
    reach_idle (fun x hx k hk =>
      step_debounce_release_idle config i x _ (hrel x (by simp [hx])).1
        (r_le x hx) (hW2 x hx) (tW2.2 x hx) k hk.1 hk.2.2.1)
  obtain ⟨qR, eR⟩ := reach_cons s7 s8 _ qH
  obtain ⟨qU, eU⟩ := step_release_confirm_long config i u a.current_time r.current_time
    (hrel u (by simp)) (by omega) hu u_ok _ qR
  obtain ⟨-, eP⟩ := reach_released_idle config i post (fun x hx => hrel x (by simp [hx])) _ qU
  have hsplit : long_press_ticks_before_confirm pre a W1 c H1 s H2 r W2 =
      (pre ++ a :: (W1 ++ c :: (H1 ++ [s]))) ++ (H2 ++ r :: W2) := by
    simp [long_press_ticks_before_confirm]
  have hst : (key_scan_run config i k
      (long_press_ticks_before_confirm pre a W1 c H1 s H2 r W2)).1 =
      (key_scan_run config i (key_scan_run config i (key_scan_run config i k
        (pre ++ a :: (W1 ++ c :: (H1 ++ [s])))).1 H2).1 (r :: W2)).1 := by
    rw [hsplit, key_scan_run_fst_append, key_scan_run_fst_append config i _ H2 (r :: W2)]
  have hbefore : events_of (key_scan_run config i k
      (long_press_ticks_before_confirm pre a W1 c H1 s H2 r W2)).2 =
      KEY_EVENT_PRESS_DOWN :: KEY_EVENT_LONG_PRESS_START :: (KEY_EVENT_LONG_PRESS_HOLD ::
        events_of (key_scan_run config i (key_scan_run config i k
          (pre ++ a :: (W1 ++ c :: (H1 ++ [s])))).1 H2).2) := by
    rw [hsplit, key_scan_run_events_append,
      key_scan_run_events_append config i _ H2 (r :: W2), eA, eR]
    simp
  refine ⟨KEY_EVENT_LONG_PRESS_HOLD :: events_of (key_scan_run config i
    (key_scan_run config i k (pre ++ a :: (W1 ++ c :: (H1 ++ [s])))).1 H2).2,
    ?_, hbefore, ?_, ?_⟩
  · intro e he
    rcases List.mem_cons.mp he with he | he
    · exact he
    · exact eH e he
  · rw [hst]; exact eU
  · unfold long_press_ticks
    rw [key_scan_run_events_append, hbefore, hst]
    have hcons : events_of (key_scan_run config i
        (key_scan_run config i (key_scan_run config i (key_scan_run config i k
          (pre ++ a :: (W1 ++ c :: (H1 ++ [s])))).1 H2).1 (r :: W2)).1 (u :: post)).2 =
        [KEY_EVENT_PRESS_UP, KEY_EVENT_LONG_PRESS_END] := by
      rw [key_scan_run_events_cons, eU, eP]
      rfl
    rw [hcons]
    simp

/-- C3: from a record in state Released with click count 0 (such as the one
`key_detector_create` writes), a clean press that stays
active until its held time reaches 1000 ms and is then released hands
PressDown, LongPressStart, some LongPressHold events, PressUp, LongPressEnd to
`send_key_event`: LongPressStart exactly once, LongPressEnd exactly once and
after it, and LongPressEnd on the iteration `u` that confirms the release. -/
theorem long_press_sequence (config : key_detector_config_t) (i : Nat)
    (k : key_info_t) (hstate : k.state = KEY_STATE_RELEASED) (hcount : k.click_count = 0)
    (pre W1 H1 H2 W2 post : List scan_input_t) (a c s r u : scan_input_t)
    (h : long_press_scenario pre a W1 c H1 s H2 r W2 u post) :
    ∃ holds : List key_event_t,
      (∀ e ∈ holds, e = KEY_EVENT_LONG_PRESS_HOLD) ∧
      events_of (key_scan_run config i k
          (long_press_ticks_before_confirm pre a W1 c H1 s H2 r W2)).2 =
        KEY_EVENT_PRESS_DOWN :: KEY_EVENT_LONG_PRESS_START :: holds ∧
      events_of (key_scan_step config i
          (key_scan_run config i k
            (long_press_ticks_before_confirm pre a W1 c H1 s H2 r W2)).1 u).2 =
        [KEY_EVENT_PRESS_UP, KEY_EVENT_LONG_PRESS_END] ∧
      events_of (key_scan_run config i k
          (long_press_ticks pre a W1 c H1 s H2 r W2 u post)).2 =
        KEY_EVENT_PRESS_DOWN :: KEY_EVENT_LONG_PRESS_START ::
          (holds ++ [KEY_EVENT_PRESS_UP, KEY_EVENT_LONG_PRESS_END]) ∧
      List.count KEY_EVENT_LONG_PRESS_START
          (events_of (key_scan_run config i k
            (long_press_ticks pre a W1 c H1 s H2 r W2 u post)).2) = 1 ∧
      List.count KEY_EVENT_LONG_PRESS_END
          (events_of (key_scan_run config i k
            (long_press_ticks pre a W1 c H1 s H2 r W2 u post)).2) = 1 := by
  obtain ⟨holds, h1, h2, h3, h4⟩ := long_press_events config i k hstate hcount pre W1 H1 H2 W2 post
    a c s r u h
  obtain ⟨c1, c2⟩ := long_press_counts holds h1
  refine ⟨holds, h1, h2, h3, h4, ?_, ?_⟩
  · rw [h4]; exact c1
  · rw [h4]; exact c2

/-- C3, at a concrete long press: active from 10 ms to 1020 ms, release
confirmed at 1050 ms. -/
theorem long_press_sequence_witness :
    List.count KEY_EVENT_LONG_PRESS_START
        (events_of (key_scan_run key_init_config 0 (key_info_init 0)
          (long_press_ticks [tick 0 false] (tick 10 true) [tick 20 true] (tick 30 true)
            [tick 500 true] (tick 1010 true) [tick 1020 true] (tick 1030 false)
            [tick 1040 false] (tick 1050 false) [tick 1060 false])).2) = 1 ∧
      List.count KEY_EVENT_LONG_PRESS_END
        (events_of (key_scan_run key_init_config 0 (key_info_init 0)
          (long_press_ticks [tick 0 false] (tick 10 true) [tick 20 true] (tick 30 true)
            [tick 500 true] (tick 1010 true) [tick 1020 true] (tick 1030 false)
            [tick 1040 false] (tick 1050 false) [tick 1060 false])).2) = 1 := by
  obtain ⟨holds, -, -, -, -, h5, h6⟩ := long_press_sequence key_init_config 0
    (key_info_init 0) rfl rfl [tick 0 false]
    [tick 20 true] [tick 500 true] [tick 1020 true] [tick 1040 false] [tick 1060 false]
    (tick 10 true) (tick 30 true) (tick 1010 true) (tick 1030 false) (tick 1050 false)
    (by simp [long_press_scenario, long_press_ticks, long_press_ticks_before_confirm,
      times_ok, tick, ev_active, ev_inactive, UINT32_MAX, KEY_DEBOUNCE_TIME_MS,
      KEY_LONG_PRESS_TIME_MS])
  exact ⟨h5, h6⟩

/-- C4, evaluated: a key held from 0 ms and sampled every 10 ms hands
LongPressStart and LongPressHold to `send_key_event` in the same iteration at
1000 ms and LongPressHold again at 1010 ms, so the holds are 0 ms and 10 ms
apart, not the 200 ms of `KEY_LONG_PRESS_HOLD_INTERVAL_MS`. -/
theorem long_press_hold_every_tick :
    (key_scan_run key_init_config 0 (key_info_init 0) (ticks_every_10ms 0 102 true)).2 =
      [⟨0, KEY_EVENT_PRESS_DOWN, 20⟩, ⟨0, KEY_EVENT_LONG_PRESS_START, 1000⟩,
        ⟨0, KEY_EVENT_LONG_PRESS_HOLD, 1000⟩, ⟨0, KEY_EVENT_LONG_PRESS_HOLD, 1010⟩] := by
  decide

set_option maxRecDepth 100000 in
/-- C5, evaluated: after a long press whose release bounces
(`bouncy_long_press`), the key hands SingleClick to `send_key_event` at
1560 ms; from the iteration of LongPressStart (index 100) up to the one before
SingleClick the state is never Released, and the iteration that hands over
SingleClick is the one that ends in Released. -/
theorem bouncy_long_press_single_click :
    (key_scan_run key_init_config 0 (key_info_init 0) bouncy_long_press).2 =
      [⟨0, KEY_EVENT_PRESS_DOWN, 20⟩, ⟨0, KEY_EVENT_LONG_PRESS_START, 1000⟩,
        ⟨0, KEY_EVENT_LONG_PRESS_HOLD, 1000⟩, ⟨0, KEY_EVENT_LONG_PRESS_HOLD, 1010⟩,
        ⟨0, KEY_EVENT_PRESS_UP, 1060⟩, ⟨0, KEY_EVENT_SINGLE_CLICK, 1560⟩] ∧
    (((key_scan_trace key_init_config 0 (key_info_init 0) bouncy_long_press).drop 100).dropLast.all
      (fun e => decide (e.1 ≠ KEY_STATE_RELEASED))) = true ∧
    (key_scan_trace key_init_config 0 (key_info_init 0) bouncy_long_press).getLast? =
      some (KEY_STATE_RELEASED, [KEY_EVENT_SINGLE_CLICK]) := by
  decide

/-- C6, evaluated: from the record `key_detector_create` writes, a signal
sampled active at 100 ms and inactive from 110 ms on (active for less than
20 ms) makes the iteration at 110 ms hand PressUp to `send_key_event`. -/
theorem short_chatter_emits_press_up :
    (key_scan_run key_init_config 0 (key_info_init 0)
        (tick 100 true :: ticks_every_10ms 110 5 false)).2 =
      [⟨0, KEY_EVENT_PRESS_UP, 110⟩] := by
  decide

/-- C7: with samples exactly 10 ms apart (the 32-bit clock may wrap), a key in
state Released whose first sample is active on at most two consecutive
iterations and inactive on all others is not in state Pressed after any
iteration. -/
theorem short_pulse_never_pressed (config : key_detector_config_t) (i : Nat) (k : key_info_t)
    (t0 : Nat) (inputs : Nat → scan_input_t) (start len : Nat)
    (hk : k.state = KEY_STATE_RELEASED)
    (hlen : len ≤ 2)
    (htime : ∀ n, (inputs n).current_time = (t0 + 10 * n) % 4294967296)
    (hsig : ∀ n, (inputs n).pressed = true ↔ start ≤ n ∧ n < start + len) :
    ∀ n, (key_scan_run config i k (scan_inputs inputs n)).1.state ≠ KEY_STATE_PRESSED := by
  have inv : ∀ n,
      (n ≤ start → (key_scan_run config i k (scan_inputs inputs n)).1 = k) ∧
      (start < n → n ≤ start + len →
        (key_scan_run config i k (scan_inputs inputs n)).1.state = KEY_STATE_DEBOUNCE ∧
        (key_scan_run config i k (scan_inputs inputs n)).1.press_timestamp =
          (inputs start).current_time) ∧
      (key_scan_run config i k (scan_inputs inputs n)).1.state ≠ KEY_STATE_PRESSED := by
    intro n
    induction n with
    | zero =>
      refine ⟨fun _ => rfl, fun h => absurd h (Nat.not_lt_zero _), ?_⟩
      show k.state ≠ KEY_STATE_PRESSED
      rw [hk]; decide
    | succ n ih =>
      obtain ⟨ih1, ih2, ih3⟩ := ih
      rw [key_scan_run_inputs_succ]
      by_cases hact : (inputs n).pressed = true
      · obtain ⟨hn1, hn2⟩ := (hsig n).mp hact
        rcases Nat.eq_or_lt_of_le hn1 with heq | hlt
        · -- the first active tick
          subst heq
          rw [ih1 (le_refl _)]
          have hstep : (key_scan_step config i k (inputs start)).1.state = KEY_STATE_DEBOUNCE ∧
              (key_scan_step config i k (inputs start)).1.press_timestamp =
                (inputs start).current_time := by
            simp [key_scan_step, scan_released, hk, hact]
          refine ⟨fun h => absurd h (by omega), fun _ _ => hstep, ?_⟩
          rw [hstep.1]; decide
        · -- the second active tick
          obtain ⟨hs, hp⟩ := ih2 hlt (by omega)
          have hn : n = start + 1 := by omega
          have hd : time_diff_ms (inputs start).current_time (inputs n).current_time <
              KEY_DEBOUNCE_TIME_MS := by
            rw [htime start, htime n, hn]
            have := time_diff_ms_next_tick (t0 + 10 * start)
            rwa [show t0 + 10 * start + 10 = t0 + 10 * (start + 1) by ring] at this
          have hstep : key_scan_step config i
              (key_scan_run config i k (scan_inputs inputs n)).1 (inputs n) =
              ((key_scan_run config i k (scan_inputs inputs n)).1, []) := by
            simp [key_scan_step, scan_debounce, hs, hact, hp, Nat.not_le.mpr hd]
          rw [hstep]
          refine ⟨fun h => absurd h (by omega), fun _ _ => ⟨hs, hp⟩, ih3⟩
      · have hina : (inputs n).pressed = false := by simpa using hact
        have hnot : ¬ (start ≤ n ∧ n < start + len) := fun h => hact ((hsig n).mpr h)
        refine ⟨?_, ?_, step_inactive_not_pressed config i _ hina _ ih3⟩
        · intro hle
          rw [ih1 (by omega)]
          simp [key_scan_step, scan_released, hk, hina]
        · intro h1 h2
          exact absurd ⟨by omega, by omega⟩ hnot
  exact fun n => (inv n).2.2

/-- C7, at a concrete pulse: active on the iterations at 130 ms and 140 ms
only, looked at after eight iterations. -/
theorem short_pulse_never_pressed_witness :
    (key_scan_run key_init_config 0 (key_info_init 0) (scan_inputs pulse_inputs 8)).1.state ≠
      KEY_STATE_PRESSED :=
  short_pulse_never_pressed key_init_config 0 (key_info_init 0) 100 pulse_inputs 3 2 rfl
    (by decide) (fun _ => rfl) (fun n => by simp [pulse_inputs, tick]) 8

/-- C8, evaluated: with 10 ms truly elapsed, `time_diff_ms` returns 9 when the
clock wrapped in between (`earlier = UINT32_MAX - 4`, `later = 5`) and 10 when
it did not (`earlier = 100`, `later = 110`). -/
theorem time_diff_ms_wrap_off_by_one :
    (4294967291 + 10) % 4294967296 = 5 ∧ time_diff_ms 4294967291 5 = 9 ∧
      time_diff_ms 100 110 = 10 := by
  decide

/-- C9: for 32-bit `earlier` and `later`, `time_diff_ms` equals the exact
integer `later - earlier` when `later ≥ earlier` and the exact integer
`(UINT32_MAX - earlier) + later` otherwise, and every intermediate value lies
in `0 .. UINT32_MAX`. -/
theorem time_diff_ms_branches (earlier later : Nat) (he : earlier ≤ UINT32_MAX)
    (hl : later ≤ UINT32_MAX) :
    (later ≥ earlier →
      ((time_diff_ms earlier later : Nat) : Int) = (later : Int) - (earlier : Int) ∧
      0 ≤ (later : Int) - (earlier : Int) ∧
      (later : Int) - (earlier : Int) ≤ (UINT32_MAX : Int)) ∧
    (later < earlier →
      ((time_diff_ms earlier later : Nat) : Int) =
        ((UINT32_MAX : Int) - (earlier : Int)) + (later : Int) ∧
      0 ≤ (UINT32_MAX : Int) - (earlier : Int) ∧
      (UINT32_MAX : Int) - (earlier : Int) ≤ (UINT32_MAX : Int) ∧
      0 ≤ ((UINT32_MAX : Int) - (earlier : Int)) + (later : Int) ∧
      ((UINT32_MAX : Int) - (earlier : Int)) + (later : Int) ≤ (UINT32_MAX : Int)) := by
  unfold time_diff_ms u32_add u32_sub
  simp only [UINT32_MAX] at *
  constructor
  · intro h
    rw [if_pos h]
    omega
  · intro h
    rw [if_neg (by omega)]
    omega

/-- C9, at `earlier = 4294967291`, `later = 5`: the second branch. -/
theorem time_diff_ms_branches_witness :
    ((time_diff_ms 4294967291 5 : Nat) : Int) =
      ((UINT32_MAX : Int) - ((4294967291 : Nat) : Int)) + ((5 : Nat) : Int) :=
  ((time_diff_ms_branches 4294967291 5 (by decide) (by decide)).2 (by decide)).1

/-- C10: `key_detector_get_state` leaves the detector as it found it, and any
number `n` of successive calls with no scan iteration in between return `n`
times the result of the first. -/
theorem key_detector_get_state_read_only (detector : Option key_detector_t) (key_id : Nat) :
    (key_detector_get_state detector key_id).2 = detector ∧
      ∀ n, key_detector_get_state_calls key_id n detector =
        List.replicate n (key_detector_get_state detector key_id).1 := by
  have hsame : (key_detector_get_state detector key_id).2 = detector := by
    unfold key_detector_get_state
    cases detector with
    | none => rfl
    | some d =>
      simp only
      split_ifs <;> rfl
  refine ⟨hsame, ?_⟩
  intro n
  induction n with
  | zero => rfl
  | succ n ih =>
    simp only [key_detector_get_state_calls, List.replicate_succ]
    rw [hsame, ih]

/-- C11: `key_detector_get_state` returns `KEY_STATE_RELEASED` for the NULL
handle and for every `key_id ≥ key_count`, and the stored state of record
`key_id` for every `key_id < key_count`. -/
theorem key_detector_get_state_value (d : key_detector_t) (key_id : Nat)
    (hlen : d.config.key_count ≤ d.key_infos.length) :
    (key_detector_get_state none key_id).1 = KEY_STATE_RELEASED ∧
    (key_id ≥ d.config.key_count →
      (key_detector_get_state (some d) key_id).1 = KEY_STATE_RELEASED) ∧
    (∀ h : key_id < d.config.key_count,
      (key_detector_get_state (some d) key_id).1 =
        (d.key_infos.get ⟨key_id, Nat.lt_of_lt_of_le h hlen⟩).state) := by
  refine ⟨rfl, ?_, ?_⟩
  · intro h
    simp [key_detector_get_state, h]
  · intro h
    have hlt : key_id < d.key_infos.length := Nat.lt_of_lt_of_le h hlen
    simp [key_detector_get_state, Nat.not_le.mpr h, List.getElem?_eq_getElem hlt]

/-- C11, on the detector of `key_init` with its one record in state Pressed:
key 0 reads Pressed, key 1 reads Released. -/
theorem key_detector_get_state_value_witness :
    (key_detector_get_state
        (some { key_init_detector with
                key_infos := [{ key_info_init 0 with state := KEY_STATE_PRESSED }] }) 0).1 =
      KEY_STATE_PRESSED ∧
    (key_detector_get_state
        (some { key_init_detector with
                key_infos := [{ key_info_init 0 with state := KEY_STATE_PRESSED }] }) 1).1 =
      KEY_STATE_RELEASED :=
  ⟨(key_detector_get_state_value
      { key_init_detector with
        key_infos := [{ key_info_init 0 with state := KEY_STATE_PRESSED }] } 0
      (by decide)).2.2 (by decide),
    (key_detector_get_state_value
      { key_init_detector with
        key_infos := [{ key_info_init 0 with state := KEY_STATE_PRESSED }] } 1
      (by decide)).2.1 (by decide)⟩

/-- C14: on a record whose state is none of the four named states, one
iteration sets the state to Released, the click count to 0 and
`long_press_detected` to false, changes nothing else and calls
`send_key_event` not at all, whatever the samples and the time. -/
theorem unknown_state_reset (config : key_detector_config_t) (i : Nat) (k : key_info_t)
    (inp : scan_input_t)
    (h0 : k.state ≠ KEY_STATE_RELEASED) (h1 : k.state ≠ KEY_STATE_PRESSED)
    (h2 : k.state ≠ KEY_STATE_DEBOUNCE) (h3 : k.state ≠ KEY_STATE_WAIT_RELEASE) :
    key_scan_step config i k inp =
      ({ k with state := KEY_STATE_RELEASED, click_count := 0, long_press_detected := false },
        []) := by
  simp [key_scan_step, h0, h1, h2, h3]

/-- C14, on a record with state value 7, click count 2 and the long-press
flag set. -/
theorem unknown_state_reset_witness :
    key_scan_step key_init_config 0
        { key_info_init 0 with state := 7, click_count := 2, long_press_detected := true }
        (tick 50 true) =
      (key_info_init 0, []) :=
  unknown_state_reset key_init_config 0
    { key_info_init 0 with state := 7, click_count := 2, long_press_detected := true }
    (tick 50 true) (by decide) (by decide) (by decide) (by decide)

/-- C20: for a key with a hardware entry and a level of 0 or 1 on its GPIO,
`is_key_pressed` is true exactly when the level is 0 on an active-low key and
exactly when it is 1 on an active-high key; a key of the other polarity that
reads the same level gives the opposite answer; the answer is false for the
NULL handle and for every `key_id ≥ key_count`. -/
theorem is_key_pressed_polarity (d : key_detector_t) (key_id : Nat)
    (key_gpio_read : Nat → Nat) (hws : List key_hw_config_t) (hw : key_hw_config_t)
    (hid : key_id < d.config.key_count)
    (hcfg : d.config.hw_configs = some hws) (hhw : hws.get? key_id = some hw)
    (hlevel : key_gpio_read hw.gpio_num = 0 ∨ key_gpio_read hw.gpio_num = 1) :
    (hw.active_level = key_active_level_t.KEY_ACTIVE_LOW →
      (is_key_pressed (some d) key_id key_gpio_read = true ↔
        key_gpio_read hw.gpio_num = 0)) ∧
    (hw.active_level = key_active_level_t.KEY_ACTIVE_HIGH →
      (is_key_pressed (some d) key_id key_gpio_read = true ↔
        key_gpio_read hw.gpio_num = 1)) ∧
    (∀ (key_id2 : Nat) (hw2 : key_hw_config_t), key_id2 < d.config.key_count →
      hws.get? key_id2 = some hw2 → hw2.active_level ≠ hw.active_level →
      key_gpio_read hw2.gpio_num = key_gpio_read hw.gpio_num →
      is_key_pressed (some d) key_id2 key_gpio_read =
        !is_key_pressed (some d) key_id key_gpio_read) ∧
    is_key_pressed none key_id key_gpio_read = false ∧
    (∀ id, id ≥ d.config.key_count → is_key_pressed (some d) id key_gpio_read = false) := by
  have hval := is_key_pressed_value d key_id key_gpio_read hws hw hid hcfg hhw
  refine ⟨?_, ?_, ?_, rfl, ?_⟩
  · intro hl
    rw [hval, if_pos hl]; simp
  · intro hh
    rw [hval, if_neg (by rw [hh]; decide)]; simp
  · intro key_id2 hw2 hid2 hhw2 hne hsame
    rw [hval, is_key_pressed_value d key_id2 key_gpio_read hws hw2 hid2 hcfg hhw2, hsame]
    cases h1 : hw.active_level <;> cases h2 : hw2.active_level <;>
      rcases hlevel with h | h <;> simp_all
  · intro id hge
    simp [is_key_pressed, hge]

/-- C20, on `two_key_detector` with both pins reading level 0: key 0 (active
low) is pressed and key 1 (active high) gives the opposite answer. -/
theorem is_key_pressed_polarity_witness :
    is_key_pressed (some two_key_detector) 0 (fun _ => 0) = true ∧
      is_key_pressed (some two_key_detector) 1 (fun _ => 0) =
        !is_key_pressed (some two_key_detector) 0 (fun _ => 0) :=
  ⟨((is_key_pressed_polarity two_key_detector 0 (fun _ => 0) [boot_key_hw, high_key_hw]
      boot_key_hw (by decide) rfl rfl (Or.inl rfl)).1 rfl).mpr rfl,
    (is_key_pressed_polarity two_key_detector 0 (fun _ => 0) [boot_key_hw, high_key_hw]
      boot_key_hw (by decide) rfl rfl (Or.inl rfl)).2.2.1
      1 high_key_hw (by decide) rfl (by decide) rfl⟩

/-- C13: `send_key_event` called with `KEY_EVENT_NONE` returns false and
leaves the detector, the queue and the callback record as they were, and no
call of `send_key_event` made by an iteration of the scan loop passes
`KEY_EVENT_NONE` or a value outside PressDown..LongPressEnd. -/
theorem event_none_never_sent (d : key_detector_t) (sink : event_sink_t) (key_id : Nat)
    (timestamp : Nat) (i : Nat) (k : key_info_t) (inp : scan_input_t)
    (m : key_event_msg_t) (hm : m ∈ (key_scan_step d.config i k inp).2) :
    send_key_event_full d sink key_id KEY_EVENT_NONE timestamp = (false, d, sink) ∧
      m.event ≠ KEY_EVENT_NONE ∧ m.event ≠ KEY_EVENT_MAX := by
  refine ⟨rfl, ?_⟩
  obtain ⟨-, h⟩ := key_scan_step_log d.config i k inp m hm
  rcases h with h | h | h | h | h | h | h <;> rw [h] <;> exact ⟨by decide, by decide⟩

/-- C13, on the detector of `key_init` and the iteration that confirms a
press of key 0. -/
theorem event_none_never_sent_witness :
    send_key_event_full key_init_detector
        { queue := { capacity := 20, items := [] }, callback_calls := [] } 0
        KEY_EVENT_NONE 30 =
      (false, key_init_detector,
        { queue := { capacity := 20, items := [] }, callback_calls := [] }) ∧
    KEY_EVENT_PRESS_DOWN ≠ KEY_EVENT_NONE ∧ KEY_EVENT_PRESS_DOWN ≠ KEY_EVENT_MAX :=
  event_none_never_sent key_init_detector
    { queue := { capacity := 20, items := [] }, callback_calls := [] } 0 30 0
    { key_info_init 0 with state := KEY_STATE_DEBOUNCE, press_timestamp := 10 }
    (tick 30 true) { key_id := 0, event := KEY_EVENT_PRESS_DOWN, timestamp := 30 }
    (by decide)

/-- C18: for an event other than `KEY_EVENT_NONE`, `send_key_event` leaves a
full queue as it was (and puts the message at the end of a queue with room),
calls a configured callback exactly once with that key id and event whatever
the queue did, returns true exactly when the queue took the message or a
callback is configured, and never aborts the iteration: the events an
iteration hands over and the record it leaves, apart from
`last_event_timestamp` where that is not read, are the same for every sink
configuration and every delivery outcome. -/
theorem send_key_event_delivery (d : key_detector_t) (sink : event_sink_t) (key_id : Nat)
    (event : key_event_t) (timestamp : Nat) (hne : event ≠ KEY_EVENT_NONE) :
    (d.config.event_queue = true → sink.queue.capacity ≤ sink.queue.items.length →
      (send_key_event_full d sink key_id event timestamp).2.2.queue = sink.queue) ∧
    (d.config.event_queue = true → sink.queue.items.length < sink.queue.capacity →
      (send_key_event_full d sink key_id event timestamp).2.2.queue.items =
        sink.queue.items ++ [{ key_id := key_id, event := event, timestamp := timestamp }]) ∧
    (d.config.event_queue = false →
      (send_key_event_full d sink key_id event timestamp).2.2.queue = sink.queue) ∧
    (d.config.event_callback = true →
      (send_key_event_full d sink key_id event timestamp).2.2.callback_calls =
        sink.callback_calls ++ [(key_id, event)]) ∧
    (d.config.event_callback = false →
      (send_key_event_full d sink key_id event timestamp).2.2.callback_calls =
        sink.callback_calls) ∧
    ((send_key_event_full d sink key_id event timestamp).1 = true ↔
      (d.config.event_queue = true ∧ sink.queue.items.length < sink.queue.capacity) ∨
        d.config.event_callback = true) ∧
    (∀ (config2 : key_detector_config_t) (i : Nat) (k : key_info_t) (x y : scan_input_t),
      same_samples x y →
      events_of (key_scan_step d.config i k x).2 = events_of (key_scan_step config2 i k y).2 ∧
      key_sim (key_scan_step d.config i k x).1 (key_scan_step config2 i k y).1) := by
  refine ⟨?_, ?_, ?_, ?_, ?_, ?_, ?_⟩
  · intro hq hfull
    simp only [send_key_event_full, if_neg hne, hq, if_true, xQueueSend,
      if_neg (Nat.not_lt.mpr hfull)]
    split_ifs <;> rfl
  · intro hq hroom
    simp only [send_key_event_full, if_neg hne, hq, if_true, xQueueSend, if_pos hroom]
    split_ifs <;> rfl
  · intro hq
    simp only [send_key_event_full, if_neg hne, hq, Bool.false_eq_true, if_false]
    split_ifs <;> rfl
  · intro hc
    simp only [send_key_event_full, if_neg hne, hc, if_true]
    split_ifs <;> rfl
  · intro hc
    simp only [send_key_event_full, if_neg hne, hc, Bool.false_eq_true, if_false]
    split_ifs <;> rfl
  · simp only [send_key_event_full, if_neg hne, xQueueSend]
    split_ifs <;> simp_all
  · intro config2 i k x y hxy
    have h := key_scan_step_sim d.config config2 i k k x y (key_sim_refl k) hxy
    exact ⟨h.2, h.1⟩

/-- C18, on the detector of `key_init` (queue and callback both configured)
with a full queue of capacity 1: sending PressUp for key 0 leaves the queue
as it was, records one callback call and returns true. -/
theorem send_key_event_delivery_witness :
    (send_key_event_full key_init_detector
        { queue := { capacity := 1, items := [⟨0, KEY_EVENT_PRESS_DOWN, 30⟩] },
          callback_calls := [(0, KEY_EVENT_PRESS_DOWN)] }
        0 KEY_EVENT_PRESS_UP 70).2.2.queue =
      { capacity := 1, items := [⟨0, KEY_EVENT_PRESS_DOWN, 30⟩] } ∧
    (send_key_event_full key_init_detector
        { queue := { capacity := 1, items := [⟨0, KEY_EVENT_PRESS_DOWN, 30⟩] },
          callback_calls := [(0, KEY_EVENT_PRESS_DOWN)] }
        0 KEY_EVENT_PRESS_UP 70).2.2.callback_calls =
      [(0, KEY_EVENT_PRESS_DOWN)] ++ [(0, KEY_EVENT_PRESS_UP)] :=
  ⟨(send_key_event_delivery key_init_detector
      { queue := { capacity := 1, items := [⟨0, KEY_EVENT_PRESS_DOWN, 30⟩] },
        callback_calls := [(0, KEY_EVENT_PRESS_DOWN)] }
      0 KEY_EVENT_PRESS_UP 70 (by decide)).1 rfl (by decide),
    (send_key_event_delivery key_init_detector
      { queue := { capacity := 1, items := [⟨0, KEY_EVENT_PRESS_DOWN, 30⟩] },
        callback_calls := [(0, KEY_EVENT_PRESS_DOWN)] }
      0 KEY_EVENT_PRESS_UP 70 (by decide)).2.2.2.1 rfl⟩

/-- C12: `key_detector_create` returns NULL whenever the configuration is
rejected (config missing, key count 0 or above 8, `hw_configs` missing) and
`key_gpio_init` returns `ESP_ERR_INVALID_ARG` whenever its configuration is
missing or its count is 0 or above 8; a count from 1 to 8 with the
configuration present is not rejected: `key_gpio_init` goes on to configure
the pins, and `key_detector_create` returns the fully initialised detector
unless `malloc` or the pin configuration fails. -/
theorem key_detector_create_validation (drv : gpio_driver_t) (malloc_ok : Bool)
    (config : Option key_detector_config_t) (hw : Option (List key_hw_config_t))
    (count : Nat) :
    (config_rejected config → key_detector_create drv malloc_ok config = none) ∧
    ((hw = none ∨ count = 0 ∨ count > MAX_KEY_COUNT) →
      key_gpio_init drv hw count = ESP_ERR_INVALID_ARG) ∧
    (∀ cfg hws, config = some cfg → cfg.hw_configs = some hws →
      1 ≤ cfg.key_count → cfg.key_count ≤ MAX_KEY_COUNT →
      ¬ config_rejected config ∧
      key_gpio_init drv cfg.hw_configs cfg.key_count =
        key_gpio_init_loop drv (hws.take cfg.key_count) ∧
      key_detector_create drv malloc_ok config =
        (if malloc_ok = true ∧
            key_gpio_init_loop drv (hws.take cfg.key_count) = ESP_OK then
          some { config := cfg, key_infos := key_infos_init cfg.key_count,
                 scan_task_handle := none, task_running := false, tick_counter := 0 }
        else none)) := by
  refine ⟨?_, ?_, ?_⟩
  · intro h
    cases config with
    | none => rfl
    | some cfg =>
      simp only [config_rejected] at h
      simp only [key_detector_create]
      rcases h with h | h | h
      · simp [h]
      · simp [h]
      · rw [h]
        split_ifs <;> rfl
  · intro h
    cases hw with
    | none => rfl
    | some hws =>
      rcases h with h | h | h
      · cases h
      · simp [key_gpio_init, h]
      · simp [key_gpio_init, h]
  · intro cfg hws hc hh h1 h8
    subst hc
    have hne : ¬ (cfg.key_count = 0 ∨ cfg.key_count > MAX_KEY_COUNT) := by
      simp only [MAX_KEY_COUNT] at *; omega
    refine ⟨?_, ?_, ?_⟩
    · simp only [config_rejected, hh]
      simp only [MAX_KEY_COUNT] at *
      simp
      omega
    · simp only [key_gpio_init, hh, if_neg hne]
    · simp only [key_detector_create, if_neg hne, hh, key_gpio_init]
      cases malloc_ok <;> simp

/-- C12, on the configuration of `key_init`: with nine keys it is refused,
as it stands it yields the detector. -/
theorem key_detector_create_validation_witness :
    key_detector_create gpio_driver_ok true
        (some { key_init_config with key_count := 9 }) = none ∧
      key_detector_create gpio_driver_ok true (some key_init_config) =
        some key_init_detector :=
  ⟨(key_detector_create_validation gpio_driver_ok true
      (some { key_init_config with key_count := 9 }) none 0).1
      (Or.inr (Or.inl (by decide))),
    ((key_detector_create_validation gpio_driver_ok true (some key_init_config) none 0).2.2
      key_init_config [boot_key_hw] rfl rfl (by decide) (by decide)).2.2⟩

/-- C15: after any sequence of iterations from the record
`key_detector_create` writes, whatever the timestamps, samples and delivery
outcomes, the click count is 0, 1 or 2, and it is 0 whenever the state is
Released. -/
theorem click_count_invariant (config : key_detector_config_t) (i : Nat)
    (l : List scan_input_t) :
    ((key_scan_run config i (key_info_init i) l).1.click_count = 0 ∨
      (key_scan_run config i (key_info_init i) l).1.click_count = 1 ∨
      (key_scan_run config i (key_info_init i) l).1.click_count = 2) ∧
    ((key_scan_run config i (key_info_init i) l).1.state = KEY_STATE_RELEASED →
      (key_scan_run config i (key_info_init i) l).1.click_count = 0) := by
  have inv : ∀ (l : List scan_input_t) (k : key_info_t), k.click_count ≤ 1 →
      (k.state = KEY_STATE_RELEASED → k.click_count = 0) →
      (key_scan_run config i k l).1.click_count ≤ 1 ∧
        ((key_scan_run config i k l).1.state = KEY_STATE_RELEASED →
          (key_scan_run config i k l).1.click_count = 0) := by
    intro l
    induction l with
    | nil => intro k hc hr; exact ⟨hc, hr⟩
    | cons x xs ih =>
      intro k hc hr
      obtain ⟨h1, h2⟩ := key_scan_step_click_count config i k x hc hr
      exact ih _ h1 h2
  obtain ⟨h1, h2⟩ := inv l (key_info_init i) (Nat.zero_le 1) (fun _ => rfl)
  refine ⟨?_, h2⟩
  omega

/-- C17: for distinct key ids `i` and `j`, a pass of the scan loop for key `i`
leaves the record of key `j` as it was, as does every call of
`send_key_event` with key id `i`, and every call the pass makes has key id
`i`; so after any schedule of passes the record of key `j` and the calls made
for it are those of key `j` running alone on its own inputs, and two
schedules that give key `j` the same samples and timestamps give it the same
events and the same record in all the state machine reads, whatever the other
keys do and whatever the deliveries. -/
theorem keys_independent (d : key_detector_t) (i j : Nat) (hne : i ≠ j)
    (hj : j < d.key_infos.length) (inp : scan_input_t)
    (sink : event_sink_t) (event : key_event_t) (timestamp : Nat)
    (sched : List (Nat × scan_input_t)) :
    (key_scan_iteration d i inp).1.key_infos[j]? = d.key_infos[j]? ∧
    (send_key_event_full d sink i event timestamp).2.1.key_infos[j]? = d.key_infos[j]? ∧
    (∀ m ∈ (key_scan_iteration d i inp).2, m.key_id = i) ∧
    (key_scan_schedule d sched).1.key_infos.getD j (key_info_init j) =
      (key_scan_run d.config j (d.key_infos.getD j (key_info_init j))
        (inputs_of_key j sched)).1 ∧
    (key_scan_schedule d sched).2.filter (fun m => decide (m.key_id = j)) =
      (key_scan_run d.config j (d.key_infos.getD j (key_info_init j))
        (inputs_of_key j sched)).2 ∧
    (∀ (d2 : key_detector_t) (sched2 : List (Nat × scan_input_t)),
      j < d2.key_infos.length →
      key_sim (d.key_infos.getD j (key_info_init j)) (d2.key_infos.getD j (key_info_init j)) →
      List.Forall₂ same_samples (inputs_of_key j sched) (inputs_of_key j sched2) →
      events_of ((key_scan_schedule d sched).2.filter (fun m => decide (m.key_id = j))) =
        events_of ((key_scan_schedule d2 sched2).2.filter (fun m => decide (m.key_id = j))) ∧
      key_sim ((key_scan_schedule d sched).1.key_infos.getD j (key_info_init j))
        ((key_scan_schedule d2 sched2).1.key_infos.getD j (key_info_init j))) := by
  obtain ⟨hrec, hlog⟩ := key_scan_schedule_key sched d j hj
  refine ⟨?_, send_key_event_full_frame d sink i j event timestamp hne, ?_, hrec, hlog, ?_⟩
  · simp [key_scan_iteration, List.getElem?_set_ne hne]
  · intro m hm
    exact (key_scan_step_log d.config i _ inp m hm).1
  · intro d2 sched2 hj2 hsim hsame
    obtain ⟨hrec2, hlog2⟩ := key_scan_schedule_key sched2 d2 j hj2
    obtain ⟨h1, h2⟩ := key_scan_run_sim d.config d2.config j _ _ hsame _ _ hsim
    rw [hrec, hlog, hrec2, hlog2]
    exact ⟨h2, h1⟩

/-- C17, on `two_key_detector`: a pass for key 0 that starts debouncing a
press leaves the record of key 1 as it was. -/
theorem keys_independent_witness :
    (key_scan_iteration two_key_detector 0 (tick 10 true)).1.key_infos[1]? =
      two_key_detector.key_infos[1]? :=
  (keys_independent two_key_detector 0 1 (by decide) (by decide) (tick 10 true)
    { queue := { capacity := 20, items := [] }, callback_calls := [] }
    KEY_EVENT_PRESS_DOWN 10 []).1

/-- C16 (amended): after any sequence of iterations with clean samples and
timestamps that neither decrease nor wrap, from the record
`key_detector_create` writes, `long_press_detected` is set only if the state
is Pressed or Debounce: it stays set while the release of a long press is
debounced and is cleared when that release, or a new press, is confirmed. -/
theorem long_press_flag_states (config : key_detector_config_t) (i : Nat)
    (l : List scan_input_t) (hclean : ∀ x ∈ l, ev_clean x) (ht : times_ok l)
    (hflag : (key_scan_run config i (key_info_init i) l).1.long_press_detected = true) :
    (key_scan_run config i (key_info_init i) l).1.state = KEY_STATE_PRESSED ∨
      (key_scan_run config i (key_info_init i) l).1.state = KEY_STATE_DEBOUNCE := by
  have h0 : long_flag_inv 0 (key_info_init i) :=
    ⟨Nat.le_refl 0, fun h => by simp [key_info_init] at h⟩
  obtain ⟨now2, -, h2⟩ := key_scan_run_long_flag config i l (key_info_init i) 0 h0 hclean ht
    (fun _ _ => Nat.zero_le _)
  rcases h2 hflag with h | h
  · exact Or.inl h.1
  · exact Or.inr h.1

/-- C16 (amended), on a long press whose first inactive sample has just been
taken: the flag is set and the state is Debounce. -/
theorem long_press_flag_states_witness :
    (key_scan_run key_init_config 0 (key_info_init 0)
        [tick 0 true, tick 20 true, tick 1000 true, tick 1010 false]).1.state =
      KEY_STATE_PRESSED ∨
    (key_scan_run key_init_config 0 (key_info_init 0)
        [tick 0 true, tick 20 true, tick 1000 true, tick 1010 false]).1.state =
      KEY_STATE_DEBOUNCE :=
  long_press_flag_states key_init_config 0
    [tick 0 true, tick 20 true, tick 1000 true, tick 1010 false]
    (by simp [ev_clean, tick]) (by simp [times_ok, tick, UINT32_MAX]) (by decide)

set_option maxRecDepth 100000 in
/-- C16 as stated fails: a key held from 0 ms to 1000 ms and sampled every
10 ms has `long_press_detected` set; the first inactive sample at 1010 ms
moves it to state Debounce with the flag still set. -/
theorem long_press_flag_outside_pressed :
    (key_scan_run key_init_config 0 (key_info_init 0)
        (ticks_every_10ms 0 101 true ++ [tick 1010 false])).1.long_press_detected = true ∧
    (key_scan_run key_init_config 0 (key_info_init 0)
        (ticks_every_10ms 0 101 true ++ [tick 1010 false])).1.state = KEY_STATE_DEBOUNCE ∧
    (key_scan_run key_init_config 0 (key_info_init 0)
        (ticks_every_10ms 0 101 true ++ [tick 1010 false])).1.state ≠ KEY_STATE_PRESSED := by
  decide

/-- C19 (amended): from a record in state Released with click count 0, two
clean short presses between which an inactive sample is taken 500 ms or more
after the iteration that confirmed the first release hand PressDown, PressUp,
SingleClick, PressDown, PressUp to `send_key_event`: no DoubleClick is sent
for the pair. -/
theorem late_second_press_no_double_click (config : key_detector_config_t) (i : Nat)
    (k : key_info_t) (hstate : k.state = KEY_STATE_RELEASED) (hcount : k.click_count = 0)
    (pre W1 H1 W2 W3 W4 V1 G1 V2 post : List scan_input_t)
    (a c r u e a2 c2 r2 u2 : scan_input_t)
    (h : late_second_press_scenario pre a W1 c H1 r W2 u W3 e W4 a2 V1 c2 G1 r2 V2 u2 post) :
    events_of (key_scan_run config i k
        (late_second_press_ticks pre a W1 c H1 r W2 u W3 e W4 a2 V1 c2 G1 r2 V2 u2 post)).2 =
      [KEY_EVENT_PRESS_DOWN, KEY_EVENT_PRESS_UP, KEY_EVENT_SINGLE_CLICK,
        KEY_EVENT_PRESS_DOWN, KEY_EVENT_PRESS_UP] ∧
    KEY_EVENT_DOUBLE_CLICK ∉ events_of (key_scan_run config i k
        (late_second_press_ticks pre a W1 c H1 r W2 u W3 e W4 a2 V1 c2 G1 r2 V2 u2 post)).2 := by
  obtain ⟨htimes, hpre, hok1, hgap, hW3, he, hok2, hpost, hpost2⟩ := h
  unfold late_second_press_ticks at htimes ⊢
  simp only [KEY_DOUBLE_CLICK_INTERVAL_MS] at *
  obtain ⟨-, t0, -⟩ := times_ok_append htimes
  obtain ⟨tc1, t1, c1_le⟩ := times_ok_append t0
  obtain ⟨tW3, t2, -⟩ := times_ok_append t1
  obtain ⟨e_ok, t3, -⟩ := times_ok_cons t2
  obtain ⟨-, t4, -⟩ := times_ok_append t3
  obtain ⟨tc2, tpost, c2_le⟩ := times_ok_append t4
  have s1 := reach_released_idle config i pre hpre
  have s2 := reach_click config i a W1 c H1 r W2 u hok1 tc1
  have s3 : Reach config i (in_wait_release u.current_time) W3 []
      (in_wait_release u.current_time) :=
    reach_idle (fun x hx k hk =>
      step_wait_idle config i x _ (hgap x (by simp [hx])).1
        (c1_le u (click_ticks_last a W1 c H1 r W2 u) x (by simp [hx]))
        (hW3 x hx) (tW3.2 x hx) k hk)
  have s4 : Reach config i (in_wait_release u.current_time) [e] [KEY_EVENT_SINGLE_CLICK]
      in_released :=
    reach_single (step_wait_timeout config i e _ (hgap e (by simp)).1 he e_ok)
  have s5 := reach_released_idle config i W4 (fun x hx => hgap x (by simp [hx]))
  have s6 := reach_click config i a2 V1 c2 G1 r2 V2 u2 hok2 tc2
  have s7 : Reach config i (in_wait_release u2.current_time) post []
      (in_wait_release u2.current_time) :=
    reach_idle (fun x hx k hk =>
      step_wait_idle config i x _ (hpost x hx).1
        (c2_le u2 (click_ticks_last a2 V1 c2 G1 r2 V2 u2) x hx)
        (hpost2 x hx) (tpost.2 x hx) k hk)
  have hev := (reach_append s1 (reach_append s2 (reach_append s3 (reach_cons s4
    (reach_append s5 (reach_append s6 s7))))) k ⟨hstate, hcount⟩).2
  refine ⟨hev, ?_⟩
  rw [hev]
  decide

/-- C19 (amended), at a concrete pair: first click active from 10 ms to 40 ms
with its release confirmed at 70 ms, inactive samples up to 570 ms, second
click active from 600 ms to 630 ms. -/
theorem late_second_press_no_double_click_witness :
    KEY_EVENT_DOUBLE_CLICK ∉ events_of (key_scan_run key_init_config 0 (key_info_init 0)
        (late_second_press_ticks [tick 0 false] (tick 10 true) [tick 20 true] (tick 30 true)
          [tick 40 true] (tick 50 false) [tick 60 false] (tick 70 false)
          [tick 80 false, tick 560 false] (tick 570 false) [tick 580 false, tick 590 false]
          (tick 600 true) [tick 610 true] (tick 620 true) [tick 630 true] (tick 640 false)
          [tick 650 false] (tick 660 false) [tick 670 false])).2 :=
  (late_second_press_no_double_click key_init_config 0 (key_info_init 0) rfl rfl
    [tick 0 false] [tick 20 true] [tick 40 true] [tick 60 false]
    [tick 80 false, tick 560 false] [tick 580 false, tick 590 false]
    [tick 610 true] [tick 630 true] [tick 650 false] [tick 670 false]
    (tick 10 true) (tick 30 true) (tick 50 false) (tick 70 false) (tick 570 false)
    (tick 600 true) (tick 620 true) (tick 640 false) (tick 660 false)
    (by simp [late_second_press_scenario, late_second_press_ticks, click_ticks, click_ok,
      times_ok, tick, ev_active, ev_inactive, UINT32_MAX, KEY_DEBOUNCE_TIME_MS,
      KEY_CLICK_TIME_MS, KEY_DOUBLE_CLICK_INTERVAL_MS])).2

set_option maxRecDepth 100000 in
/-- C19 as stated fails: with samples every 10 ms, a first click whose first
inactive sample is at 50 ms and whose release is confirmed at 70 ms, followed
by a second press whose first active sample is at 570 ms (520 ms after the
first inactive sample and 500 ms after the confirmed release), is a pair of
clean short presses that hands DoubleClick to `send_key_event`. -/
theorem late_second_press_double_click :
    (tick 50 false).current_time + KEY_DOUBLE_CLICK_INTERVAL_MS ≤
      (tick 570 true).current_time ∧
    (tick 70 false).current_time + KEY_DOUBLE_CLICK_INTERVAL_MS ≤
      (tick 570 true).current_time ∧
    events_of (key_scan_run key_init_config 0 (key_info_init 0)
        (double_click_ticks [tick 0 false] (tick 10 true) [tick 20 true] (tick 30 true)
          [tick 40 true] (tick 50 false) [tick 60 false] (tick 70 false)
          (ticks_every_10ms 80 49 false)
          (tick 570 true) [tick 580 true] (tick 590 true) [tick 600 true] (tick 610 false)
          [tick 620 false] (tick 630 false) [tick 640 false])).2 =
      [KEY_EVENT_PRESS_DOWN, KEY_EVENT_PRESS_UP, KEY_EVENT_PRESS_UP,
        KEY_EVENT_DOUBLE_CLICK] := by
  decide

/-- C21: an iteration in state Debounce whose sample is active, taken 20 ms or
more after `press_timestamp`, and whose re-sample is active too, sets the
state to Pressed and clears `long_press_detected`; it hands PressDown to
`send_key_event` exactly when `click_count` is not 1 before it (and then
clears the count), and with `click_count` 1 it keeps the count and makes no
call at all. -/
theorem debounce_confirmed_press (config : key_detector_config_t) (i : Nat) (k : key_info_t)
    (inp : scan_input_t) (hs : k.state = KEY_STATE_DEBOUNCE) (hp : inp.pressed = true)
    (hd : KEY_DEBOUNCE_TIME_MS ≤ time_diff_ms k.press_timestamp inp.current_time)
    (hsp : inp.still_pressed = true) :
    (key_scan_step config i k inp).1.state = KEY_STATE_PRESSED ∧
    (key_scan_step config i k inp).1.long_press_detected = false ∧
    (KEY_EVENT_PRESS_DOWN ∈ events_of (key_scan_step config i k inp).2 ↔ k.click_count ≠ 1) ∧
    (k.click_count ≠ 1 →
      events_of (key_scan_step config i k inp).2 = [KEY_EVENT_PRESS_DOWN] ∧
      (key_scan_step config i k inp).1.click_count = 0) ∧
    (k.click_count = 1 →
      (key_scan_step config i k inp).1.click_count = 1 ∧
      (key_scan_step config i k inp).2 = []) := by
  simp only [KEY_DEBOUNCE_TIME_MS] at hd
  by_cases hc : k.click_count = 1
  · simp [key_scan_step, scan_debounce, hs, hp, hsp, hd, hc, events_of]
  · simp [key_scan_step, scan_debounce, hs, hp, hsp, hd, hc, scan_send_state,
      scan_send_click_count, scan_send_long_press_detected, scan_send_events]
    simp [events_of]

/-- C21, on the second press of a double click (count 1, confirmed at 130 ms
after a candidate at 110 ms): Pressed, no call. -/
theorem debounce_confirmed_press_witness :
    (key_scan_step key_init_config 0
        { key_info_init 0 with state := KEY_STATE_DEBOUNCE, press_timestamp := 110,
                               click_count := 1, long_press_detected := true }
        (tick 130 true)).1.state = KEY_STATE_PRESSED ∧
    (key_scan_step key_init_config 0
        { key_info_init 0 with state := KEY_STATE_DEBOUNCE, press_timestamp := 110,
                               click_count := 1, long_press_detected := true }
        (tick 130 true)).2 = [] :=
  have h := debounce_confirmed_press key_init_config 0
    { key_info_init 0 with state := KEY_STATE_DEBOUNCE, press_timestamp := 110,
                           click_count := 1, long_press_detected := true }
    (tick 130 true) rfl rfl (by decide) rfl
  ⟨h.1, (h.2.2.2.2 rfl).2⟩

set_option maxRecDepth 100000 in
/-- C22, evaluated: after a long press whose release bounces (clean active
samples every 10 ms from 0 to 1010 ms, inactive at 1020 ms, a bounce at
1030 ms and at 1040 ms, inactive at 1050 ms) the record is in state Debounce
with `long_press_detected` set; the iteration at 1060 ms, which confirms the
release, hands only PressUp to `send_key_event` and leaves the record in
state WaitRelease with click count 1 and the flag still set. -/
theorem bouncy_long_release_counts_click :
    (key_scan_run key_init_config 0 (key_info_init 0)
        (ticks_every_10ms 0 102 true ++
          [tick 1020 false, bounce_tick 1030 true false, bounce_tick 1040 false true,
            tick 1050 false])).1 =
      { key_id := 0, state := KEY_STATE_DEBOUNCE, last_state := KEY_STATE_RELEASED,
        press_timestamp := 1030, release_timestamp := 1040, last_event_timestamp := 1020,
        click_count := 0, long_press_detected := true } ∧
    key_scan_step key_init_config 0
        { key_id := 0, state := KEY_STATE_DEBOUNCE, last_state := KEY_STATE_RELEASED,
          press_timestamp := 1030, release_timestamp := 1040, last_event_timestamp := 1020,
          click_count := 0, long_press_detected := true }
        (tick 1060 false) =
      ({ key_id := 0, state := KEY_STATE_WAIT_RELEASE, last_state := KEY_STATE_RELEASED,
         press_timestamp := 1030, release_timestamp := 1040, last_event_timestamp := 1060,
         click_count := 1, long_press_detected := true },
        [{ key_id := 0, event := KEY_EVENT_PRESS_UP, timestamp := 1060 }]) := by
  decide

/-- C23: from a record in state Released with click count 0 (such as the one
`key_detector_create` writes), a clean press whose first inactive sample
comes more than 300 ms and less than 1000 ms after its first active sample
hands exactly PressDown and PressUp to `send_key_event`, no click event, and
leaves the key in state Released with click count 0. -/
theorem held_press_no_click (config : key_detector_config_t) (i : Nat) (k : key_info_t)
    (hstate : k.state = KEY_STATE_RELEASED) (hcount : k.click_count = 0)
    (pre W1 H1 W2 post : List scan_input_t) (a c r u : scan_input_t)
    (h : held_press_scenario pre a W1 c H1 r W2 u post) :
    events_of (key_scan_run config i k (held_press_ticks pre a W1 c H1 r W2 u post)).2 =
      [KEY_EVENT_PRESS_DOWN, KEY_EVENT_PRESS_UP] ∧
    (key_scan_run config i k (held_press_ticks pre a W1 c H1 r W2 u post)).1.state =
      KEY_STATE_RELEASED ∧
    (key_scan_run config i k (held_press_ticks pre a W1 c H1 r W2 u post)).1.click_count =
      0 := by
  obtain ⟨htimes, hpre, hact, hrel, hW1, hc, hlo, hhi, hW2, hu⟩ := h
  unfold held_press_ticks at htimes ⊢
  simp only [KEY_DEBOUNCE_TIME_MS, KEY_CLICK_TIME_MS, KEY_LONG_PRESS_TIME_MS] at *
  obtain ⟨-, t0, -⟩ := times_ok_append htimes
  obtain ⟨-, t1, a_le⟩ := times_ok_cons t0
  obtain ⟨tW, t2, -⟩ := times_ok_append t1
  obtain ⟨c_ok, t3, -⟩ := times_ok_cons t2
  obtain ⟨tH, t4, H_le⟩ := times_ok_append t3
  have s1 : Reach config i in_released pre [] in_released :=
    reach_released_idle config i pre hpre
  have s2 : Reach config i in_released [a] [] (in_debounce_press a.current_time 0) :=
    reach_single (step_released_press config i a (hact a (by simp)).1)
  have s3 : Reach config i (in_debounce_press a.current_time 0) W1 []
      (in_debounce_press a.current_time 0) :=
    reach_idle (fun x hx k hk =>
      step_debounce_press_idle config i x _ _ (hact x (by simp [hx])).1
        (a_le x (by simp [hx])) (hW1 x hx) (tW.2 x hx) k hk)
  have s4 : Reach config i (in_debounce_press a.current_time 0) [c] [KEY_EVENT_PRESS_DOWN]
      (in_pressed a.current_time 0) :=
    reach_single (step_debounce_press_confirm config i c _ (hact c (by simp)) hc c_ok)
  have s5 : Reach config i (in_pressed a.current_time 0) H1 [] (in_pressed a.current_time 0) :=
    reach_idle (fun x hx k hk =>
      step_pressed_idle config i x _ _ (hact x (by simp [hx])).1 (a_le x (by simp [hx]))
        (by have := H_le x hx r (by simp); omega) (tH.2 x hx) k hk)
  have s6 : Reach config i (in_pressed a.current_time 0) (r :: (W2 ++ u :: post))
      [KEY_EVENT_PRESS_UP] in_released :=
    reach_release_plain config i _ _ r W2 u post t4 hrel hlo hW2 hu
  have hall := reach_append s1 (reach_cons s2 (reach_append s3 (reach_cons s4
    (reach_append s5 s6))))
  obtain ⟨hfin, hev⟩ := hall k ⟨hstate, hcount⟩
  exact ⟨by simpa using hev, hfin.1, hfin.2⟩

/-- C23, on the key of `key_init`: active from 10 ms to 400 ms (sampled
every 10 ms), inactive from 410 ms. -/
theorem held_press_no_click_witness :
    events_of (key_scan_run key_init_config 0 (key_info_init 0)
        (held_press_ticks [tick 0 false] (tick 10 true) [tick 20 true] (tick 30 true)
          (ticks_every_10ms 40 37 true) (tick 410 false) [tick 420 false] (tick 430 false)
          (ticks_every_10ms 440 60 false))).2 =
      [KEY_EVENT_PRESS_DOWN, KEY_EVENT_PRESS_UP] ∧
    (key_scan_run key_init_config 0 (key_info_init 0)
        (held_press_ticks [tick 0 false] (tick 10 true) [tick 20 true] (tick 30 true)
          (ticks_every_10ms 40 37 true) (tick 410 false) [tick 420 false] (tick 430 false)
          (ticks_every_10ms 440 60 false))).1.state = KEY_STATE_RELEASED ∧
    (key_scan_run key_init_config 0 (key_info_init 0)
        (held_press_ticks [tick 0 false] (tick 10 true) [tick 20 true] (tick 30 true)
          (ticks_every_10ms 40 37 true) (tick 410 false) [tick 420 false] (tick 430 false)
          (ticks_every_10ms 440 60 false))).1.click_count = 0 :=
  held_press_no_click key_init_config 0 (key_info_init 0) rfl rfl
    [tick 0 false] [tick 20 true] (ticks_every_10ms 40 37 true) [tick 420 false]
    (ticks_every_10ms 440 60 false) (tick 10 true) (tick 30 true) (tick 410 false)
    (tick 430 false) (by
      simp only [held_press_scenario, held_press_ticks, times_ok, ev_active, ev_inactive]
      decide)

/-- C24: an iteration in state WaitRelease with an inactive sample hands
exactly SingleClick to `send_key_event`, clears the click count and sets the
state to Released when `time_diff_ms (last_event_timestamp, now)` is 500 or
more; when it is less than 500 the iteration makes no call and leaves the
record as it was. -/
theorem wait_release_inactive_tick (config : key_detector_config_t) (i : Nat) (k : key_info_t)
    (inp : scan_input_t) (hs : k.state = KEY_STATE_WAIT_RELEASE) (hp : inp.pressed = false) :
    (KEY_DOUBLE_CLICK_INTERVAL_MS ≤ time_diff_ms k.last_event_timestamp inp.current_time →
      events_of (key_scan_step config i k inp).2 = [KEY_EVENT_SINGLE_CLICK] ∧
      (key_scan_step config i k inp).1.click_count = 0 ∧
      (key_scan_step config i k inp).1.state = KEY_STATE_RELEASED) ∧
    (time_diff_ms k.last_event_timestamp inp.current_time < KEY_DOUBLE_CLICK_INTERVAL_MS →
      key_scan_step config i k inp = (k, [])) := by
  simp only [KEY_DOUBLE_CLICK_INTERVAL_MS]
  constructor
  · intro hd
    simp [key_scan_step, scan_wait_release, hs, hp, hd, scan_send_events]
    simp [events_of]
  · intro hd
    simp [key_scan_step, scan_wait_release, hs, hp, Nat.not_le.mpr hd]

/-- C24 at the boundary: with the timer started at 70 ms, the inactive
iteration at 570 ms (exactly 500 ms) hands over SingleClick and the one at
569 ms changes nothing. -/
theorem wait_release_inactive_tick_witness :
    (events_of (key_scan_step key_init_config 0
        { key_info_init 0 with state := KEY_STATE_WAIT_RELEASE, last_event_timestamp := 70,
                               click_count := 1 } (tick 570 false)).2 =
        [KEY_EVENT_SINGLE_CLICK] ∧
      (key_scan_step key_init_config 0
        { key_info_init 0 with state := KEY_STATE_WAIT_RELEASE, last_event_timestamp := 70,
                               click_count := 1 } (tick 570 false)).1.click_count = 0 ∧
      (key_scan_step key_init_config 0
        { key_info_init 0 with state := KEY_STATE_WAIT_RELEASE, last_event_timestamp := 70,
                               click_count := 1 } (tick 570 false)).1.state =
        KEY_STATE_RELEASED) ∧
    key_scan_step key_init_config 0
        { key_info_init 0 with state := KEY_STATE_WAIT_RELEASE, last_event_timestamp := 70,
                               click_count := 1 } (tick 569 false) =
      ({ key_info_init 0 with state := KEY_STATE_WAIT_RELEASE, last_event_timestamp := 70,
                              click_count := 1 }, []) :=
  ⟨(wait_release_inactive_tick key_init_config 0
      { key_info_init 0 with state := KEY_STATE_WAIT_RELEASE, last_event_timestamp := 70,
                             click_count := 1 } (tick 570 false) rfl rfl).1 (by decide),
    (wait_release_inactive_tick key_init_config 0
      { key_info_init 0 with state := KEY_STATE_WAIT_RELEASE, last_event_timestamp := 70,
                             click_count := 1 } (tick 569 false) rfl rfl).2 (by decide)⟩

set_option maxRecDepth 100000 in
/-- C25, evaluated: a clean press sampled every 10 ms from 0 ms is in state
Pressed with `long_press_detected` clear after the iteration at 990 ms; the
iteration at 1000 ms hands LongPressStart and then LongPressHold to
`send_key_event`. -/
theorem long_press_start_and_hold_same_tick :
    (key_scan_run key_init_config 0 (key_info_init 0)
        (ticks_every_10ms 0 100 true)).1 =
      { key_id := 0, state := KEY_STATE_PRESSED, last_state := KEY_STATE_RELEASED,
        press_timestamp := 0, release_timestamp := 0, last_event_timestamp := 20,
        click_count := 0, long_press_detected := false } ∧
    key_scan_step key_init_config 0
        { key_id := 0, state := KEY_STATE_PRESSED, last_state := KEY_STATE_RELEASED,
          press_timestamp := 0, release_timestamp := 0, last_event_timestamp := 20,
          click_count := 0, long_press_detected := false }
        (tick 1000 true) =
      ({ key_id := 0, state := KEY_STATE_PRESSED, last_state := KEY_STATE_RELEASED,
         press_timestamp := 0, release_timestamp := 0, last_event_timestamp := 1000,
         click_count := 0, long_press_detected := true },
        [{ key_id := 0, event := KEY_EVENT_LONG_PRESS_START, timestamp := 1000 },
         { key_id := 0, event := KEY_EVENT_LONG_PRESS_HOLD, timestamp := 1000 }]) := by
  decide

/-- C26: two runs from the record `key_detector_create` writes, over inputs
with the same samples and timestamps but any sink configurations and any
delivery outcomes, hand the same events to `send_key_event` and agree in
state, click count and `long_press_detected` after every iteration (after the
first `n`, for every `n`).  In particular this holds when in one run every
delivery succeeds (a callback is configured, or the queue accepts: the call
returns true and records `last_event_timestamp`) and in the other every
delivery fails (no callback, and the queue absent or full: the call returns
false and leaves the record as it was). -/
theorem sink_outcome_insensitive (config config2 : key_detector_config_t) (i : Nat)
    (l l2 : List scan_input_t) (hl : List.Forall₂ same_samples l l2) (n : Nat) :
    (events_of (key_scan_run config i (key_info_init i) (l.take n)).2 =
      events_of (key_scan_run config2 i (key_info_init i) (l2.take n)).2 ∧
    (key_scan_run config i (key_info_init i) (l.take n)).1.state =
      (key_scan_run config2 i (key_info_init i) (l2.take n)).1.state ∧
    (key_scan_run config i (key_info_init i) (l.take n)).1.click_count =
      (key_scan_run config2 i (key_info_init i) (l2.take n)).1.click_count ∧
    (key_scan_run config i (key_info_init i) (l.take n)).1.long_press_detected =
      (key_scan_run config2 i (key_info_init i) (l2.take n)).1.long_press_detected) ∧
    (∀ (k : key_info_t) (event : key_event_t) (oc : send_outcome_t),
      event ≠ KEY_EVENT_NONE → i < config.key_count →
      (config.event_callback = true ∨ (config.event_queue = true ∧ oc.queue_ok = true)) →
      send_key_event config k i event oc =
        (true, { k with last_event_timestamp := oc.timestamp })) ∧
    (∀ (k : key_info_t) (event : key_event_t) (oc : send_outcome_t),
      config2.event_callback = false →
      (config2.event_queue = false ∨ oc.queue_ok = false) →
      (send_key_event config2 k i event oc).1 = false ∧
      (send_key_event config2 k i event oc).2 = k) := by
  refine ⟨?_, ?_, ?_⟩
  · obtain ⟨hsim, hev⟩ := key_scan_run_sim config config2 i (l.take n) (l2.take n)
      (List.forall₂_take n hl) (key_info_init i) (key_info_init i) (key_sim_refl _)
    obtain ⟨-, hs, -, -, -, hc, hlp, -⟩ := hsim
    exact ⟨hev, hs, hc, hlp⟩
  · intro k event oc hne hlt hok
    rcases hok with hcb | ⟨hq, hqo⟩
    · simp [send_key_event, hne, hcb, hlt]
    · by_cases hcb : config.event_callback = true <;>
        simp [send_key_event, hne, hcb, hq, hqo, hlt]
  · intro k event oc hcb hq
    by_cases hne : event = KEY_EVENT_NONE
    · simp [send_key_event, hne]
    · rcases hq with hq | hq <;>
        by_cases hq2 : config2.event_queue = true <;>
          simp_all [send_key_event]

/-- C26, on a click followed by the double-click timeout: with queue and
callback and every send accepted, and with a queue only that refuses every
send, the events after all five iterations are PressDown, PressUp,
SingleClick in both runs and the states agree. -/
theorem sink_outcome_insensitive_witness :
    events_of (key_scan_run queue_only_config 0 (key_info_init 0)
        ([tick_dropped 0 true, tick_dropped 30 true, tick_dropped 40 false,
          tick_dropped 70 false, tick_dropped 600 false].take 5)).2 =
      [KEY_EVENT_PRESS_DOWN, KEY_EVENT_PRESS_UP, KEY_EVENT_SINGLE_CLICK] ∧
    (key_scan_run key_init_config 0 (key_info_init 0)
        ([tick 0 true, tick 30 true, tick 40 false, tick 70 false,
          tick 600 false].take 5)).1.state =
      (key_scan_run queue_only_config 0 (key_info_init 0)
        ([tick_dropped 0 true, tick_dropped 30 true, tick_dropped 40 false,
          tick_dropped 70 false, tick_dropped 600 false].take 5)).1.state ∧
    (key_scan_run key_init_config 0 (key_info_init 0)
        ([tick 0 true, tick 30 true, tick 40 false, tick 70 false,
          tick 600 false].take 5)).1.last_event_timestamp ≠
      (key_scan_run queue_only_config 0 (key_info_init 0)
        ([tick_dropped 0 true, tick_dropped 30 true, tick_dropped 40 false,
          tick_dropped 70 false, tick_dropped 600 false].take 5)).1.last_event_timestamp :=
  have h := (sink_outcome_insensitive key_init_config queue_only_config 0
    [tick 0 true, tick 30 true, tick 40 false, tick 70 false, tick 600 false]
    [tick_dropped 0 true, tick_dropped 30 true, tick_dropped 40 false,
      tick_dropped 70 false, tick_dropped 600 false]
    (List.Forall₂.cons ⟨rfl, rfl, rfl⟩ (List.Forall₂.cons ⟨rfl, rfl, rfl⟩
      (List.Forall₂.cons ⟨rfl, rfl, rfl⟩ (List.Forall₂.cons ⟨rfl, rfl, rfl⟩
        (List.Forall₂.cons ⟨rfl, rfl, rfl⟩ List.Forall₂.nil))))) 5).1
  ⟨h.1.symm.trans (by decide), h.2.1, by decide⟩

/-- C27: from a record in state Released with click count 0, a clean click
followed less than 500 ms after its confirmed release by a clean second press
whose first inactive sample comes more than 300 ms after its first active
sample: the calls of `send_key_event` are PressDown, PressUp and then `rest`,
which holds no PressDown, no SingleClick and no DoubleClick.  If no active
sample of the second press is taken in state Pressed 1000 ms or more after
its start, `rest` is PressUp alone; otherwise it is LongPressStart,
LongPressHold, further LongPressHold, PressUp, LongPressEnd.  The key ends in
state Released with click count 0. -/
theorem long_second_press_click_lost (config : key_detector_config_t) (i : Nat)
    (k : key_info_t) (hstate : k.state = KEY_STATE_RELEASED) (hcount : k.click_count = 0)
    (pre W1 H1 W2 W3 V1 G V2 post : List scan_input_t)
    (a c r u a2 c2 r2 u2 : scan_input_t)
    (h : lost_click_scenario pre a W1 c H1 r W2 u W3 a2 V1 c2 G r2 V2 u2 post) :
    (∃ rest,
      events_of (key_scan_run config i k
          (lost_click_ticks pre a W1 c H1 r W2 u W3 a2 V1 c2 G r2 V2 u2 post)).2 =
        KEY_EVENT_PRESS_DOWN :: KEY_EVENT_PRESS_UP :: rest ∧
      KEY_EVENT_PRESS_DOWN ∉ rest ∧ KEY_EVENT_SINGLE_CLICK ∉ rest ∧
      KEY_EVENT_DOUBLE_CLICK ∉ rest ∧
      ((∀ x ∈ G, x.current_time < a2.current_time + KEY_LONG_PRESS_TIME_MS) →
        rest = [KEY_EVENT_PRESS_UP]) ∧
      ((∃ x ∈ G, a2.current_time + KEY_LONG_PRESS_TIME_MS ≤ x.current_time) →
        ∃ holds, rest = [KEY_EVENT_LONG_PRESS_START, KEY_EVENT_LONG_PRESS_HOLD] ++ holds ++
            [KEY_EVENT_PRESS_UP, KEY_EVENT_LONG_PRESS_END] ∧
          ∀ e ∈ holds, e = KEY_EVENT_LONG_PRESS_HOLD)) ∧
    (key_scan_run config i k
        (lost_click_ticks pre a W1 c H1 r W2 u W3 a2 V1 c2 G r2 V2 u2 post)).1.state =
      KEY_STATE_RELEASED ∧
    (key_scan_run config i k
        (lost_click_ticks pre a W1 c H1 r W2 u W3 a2 V1 c2 G r2 V2 u2 post)).1.click_count =
      0 := by
  obtain ⟨htimes, hpre, hok1, hW3, hgap, hact, hrel, hV1, hc2, hlong, hV2, hu2⟩ := h
  unfold lost_click_ticks at htimes ⊢
  simp only [KEY_DEBOUNCE_TIME_MS, KEY_CLICK_TIME_MS, KEY_LONG_PRESS_TIME_MS,
    KEY_DOUBLE_CLICK_INTERVAL_MS] at *
  obtain ⟨-, t0, -⟩ := times_ok_append htimes
  obtain ⟨tclick, t1, click_le⟩ := times_ok_append t0
  obtain ⟨tW3, t2, W3_le⟩ := times_ok_append t1
  obtain ⟨a2_ok, t3, a2_le⟩ := times_ok_cons t2
  obtain ⟨tV1, t4, -⟩ := times_ok_append t3
  obtain ⟨c2_ok, t5, -⟩ := times_ok_cons t4
  obtain ⟨tG, t6, G_le⟩ := times_ok_append t5
  have hu := click_ticks_last a W1 c H1 r W2 u
  have s1 : Reach config i in_released pre [] in_released :=
    reach_released_idle config i pre hpre
  have s2 := reach_click config i a W1 c H1 r W2 u hok1 tclick
  have s3 : Reach config i (in_wait_release u.current_time) W3 []
      (in_wait_release u.current_time) :=
    reach_idle (fun x hx k hk =>
      step_wait_idle config i x _ (hW3 x hx).1 (click_le u hu x (by simp [hx]))
        (by have := W3_le x hx a2 (by simp); omega) (tW3.2 x hx) k hk)
  have s4 : Reach config i (in_wait_release u.current_time) [a2] []
      (in_debounce_press a2.current_time 1) :=
    reach_single (step_wait_press config i a2 _ (hact a2 (by simp)).1)
  have s5 : Reach config i (in_debounce_press a2.current_time 1) V1 []
      (in_debounce_press a2.current_time 1) :=
    reach_idle (fun x hx k hk =>
      step_debounce_press_idle config i x _ _ (hact x (by simp [hx])).1
        (a2_le x (by simp [hx])) (hV1 x hx) (tV1.2 x hx) k hk)
  have s6 : Reach config i (in_debounce_press a2.current_time 1) [c2] []
      (in_pressed a2.current_time 1) :=
    reach_single (step_debounce_press_confirm_second config i c2 _ (hact c2 (by simp)) hc2
      c2_ok)
  have hhead := reach_append s1 (reach_append s2 (reach_append s3 (reach_cons s4
    (reach_append s5 s6))))
  have hsplit : pre ++ (click_ticks a W1 c H1 r W2 u ++ (W3 ++ a2 :: (V1 ++ c2 :: (G ++ r2 ::
      (V2 ++ u2 :: post))))) =
      (pre ++ (click_ticks a W1 c H1 r W2 u ++ (W3 ++ a2 :: (V1 ++ [c2])))) ++
        (G ++ r2 :: (V2 ++ u2 :: post)) := by
    simp [List.append_assoc]
  rw [hsplit]
  obtain ⟨hk1, he1⟩ := hhead k ⟨hstate, hcount⟩
  simp only [List.nil_append, List.append_nil] at he1
  rw [key_scan_run_events_append config i k _ (G ++ r2 :: (V2 ++ u2 :: post)),
    key_scan_run_fst_append config i k _ (G ++ r2 :: (V2 ++ u2 :: post)), he1,
    key_scan_run_events_append config i _ G (r2 :: (V2 ++ u2 :: post)),
    key_scan_run_fst_append config i _ G (r2 :: (V2 ++ u2 :: post))]
  have hr2 : a2.current_time + 300 < r2.current_time := hlong
  rcases run_pressed_active config i a2.current_time 1 G
      (fun x hx => (hact x (by simp [hx])).1) tG.2 (fun x hx => a2_le x (by simp [hx])) _ hk1
    with ⟨hlt, hk2, he2⟩ | ⟨hge, hk2, holds, he2, hholds⟩
  · obtain ⟨hfin, he3⟩ :=
      reach_release_plain config i _ _ r2 V2 u2 post t6 hrel hr2 hV2 hu2 _ hk2
    rw [he2, he3]
    refine ⟨⟨[KEY_EVENT_PRESS_UP], rfl, by decide, by decide, by decide, fun _ => rfl, ?_⟩,
      hfin.1, hfin.2⟩
    rintro ⟨x, hx, hx2⟩
    have := hlt x hx
    omega
  · obtain ⟨hfin, he3⟩ :=
      reach_release_long config i _ r2 V2 u2 post t6 hrel hr2 hV2 hu2 _ hk2
    rw [he2, he3]
    have hnot : ∀ e : key_event_t, e ≠ KEY_EVENT_LONG_PRESS_HOLD → e ∉ holds :=
      fun e he hmem => he (hholds e hmem)
    refine ⟨⟨[KEY_EVENT_LONG_PRESS_START, KEY_EVENT_LONG_PRESS_HOLD] ++ holds ++
        [KEY_EVENT_PRESS_UP, KEY_EVENT_LONG_PRESS_END], by simp, ?_, ?_, ?_, ?_,
        fun _ => ⟨holds, rfl, hholds⟩⟩, hfin.1, hfin.2⟩
    · simpa using hnot _ (by decide)
    · simpa using hnot _ (by decide)
    · simpa using hnot _ (by decide)
    · intro hall
      obtain ⟨x, hx, hx2⟩ := hge
      have := hall x hx
      omega

/-- C27, on the key of `key_init`: a click (active 10 ms to 40 ms), a second
press starting at 90 ms and held until 490 ms, inactive from 500 ms on: the
calls are PressDown, PressUp, PressUp. -/
theorem long_second_press_click_lost_witness :
    events_of (key_scan_run key_init_config 0 (key_info_init 0)
        (lost_click_ticks [tick 0 false] (tick 10 true) [tick 20 true] (tick 30 true)
          [tick 40 true] (tick 50 false) [tick 60 false] (tick 70 false) [tick 80 false]
          (tick 90 true) [tick 100 true] (tick 110 true) (ticks_every_10ms 120 38 true)
          (tick 500 false) [tick 510 false] (tick 520 false)
          (ticks_every_10ms 530 60 false))).2 =
      [KEY_EVENT_PRESS_DOWN, KEY_EVENT_PRESS_UP, KEY_EVENT_PRESS_UP] ∧
    (key_scan_run key_init_config 0 (key_info_init 0)
        (lost_click_ticks [tick 0 false] (tick 10 true) [tick 20 true] (tick 30 true)
          [tick 40 true] (tick 50 false) [tick 60 false] (tick 70 false) [tick 80 false]
          (tick 90 true) [tick 100 true] (tick 110 true) (ticks_every_10ms 120 38 true)
          (tick 500 false) [tick 510 false] (tick 520 false)
          (ticks_every_10ms 530 60 false))).1.state = KEY_STATE_RELEASED := by
  obtain ⟨⟨rest, h1, -, -, -, hshort, -⟩, h2, -⟩ :=
    long_second_press_click_lost key_init_config 0 (key_info_init 0) rfl rfl
      [tick 0 false] [tick 20 true] [tick 40 true] [tick 60 false] [tick 80 false]
      [tick 100 true] (ticks_every_10ms 120 38 true) [tick 510 false]
      (ticks_every_10ms 530 60 false)
      (tick 10 true) (tick 30 true) (tick 50 false) (tick 70 false)
      (tick 90 true) (tick 110 true) (tick 500 false) (tick 520 false) (by
        simp only [lost_click_scenario, lost_click_ticks, click_ticks, click_ok, times_ok,
          ev_active, ev_inactive]
        decide)
  rw [h1, hshort (by decide)]
  exact ⟨rfl, h2⟩

/-- C28: for every datetime with second and minute at most 59, hour at most
23, day at most 31, dotw at most 6, month at most 12 and year from 1970 to
2069 (day 0 and month 0 included), `PCF85063_Read_Time` applied to the seven
bytes `PCF85063_Set_All` writes gives the same datetime back; and
`bcdToDec (decToBcd v) = v` for every `v` from 0 to 99. -/
theorem rtc_register_round_trip (t : datetime_t) (hs : t.second ≤ 59) (hmi : t.minute ≤ 59)
    (hh : t.hour ≤ 23) (hd : t.day ≤ 31) (hw : t.dotw ≤ 6) (hmo : t.month ≤ 12)
    (hy1 : 1970 ≤ t.year) (hy : t.year ≤ 2069) :
    PCF85063_Read_Time (PCF85063_Set_All t) = t ∧
    ∀ v : Nat, v ≤ 99 → bcdToDec (decToBcd (v : Int)) = (v : Int) := by
  refine ⟨?_, fun v hv => (bcd_round_trip_masked v (by omega)).1⟩
  obtain ⟨year, month, day, dotw, hour, minute, second⟩ := t
  simp only at hs hmi hh hd hw hmo hy1 hy
  obtain ⟨y, rfl⟩ : ∃ y, year = 1970 + y := ⟨year - 1970, by omega⟩
  have e1 := (bcd_round_trip_masked second (by omega)).2.1 (by omega)
  have e2 := (bcd_round_trip_masked minute (by omega)).2.1 (by omega)
  have e3 := (bcd_round_trip_masked hour (by omega)).2.2.1 (by omega)
  have e4 := (bcd_round_trip_masked day (by omega)).2.2.1 (by omega)
  have e5 := (bcd_round_trip_masked dotw (by omega)).2.2.2.1 (by omega)
  have e6 := (bcd_round_trip_masked month (by omega)).2.2.2.2.1 (by omega)
  have e7 := (bcd_round_trip_masked y (by omega)).2.2.2.2.2
  simp only [PCF85063_Set_All, PCF85063_Read_Time, List.getD_cons_zero, List.getD_cons_succ,
    e1, e2, e3, e4, e5, e6, e7]

/-- C28, on 20 September 2024 (a Friday), 09:50:00: the bytes written are
0x00, 0x50, 0x09, 0x20, 0x05, 0x09, 0x54 and reading them gives the datetime
back. -/
theorem rtc_register_round_trip_witness :
    PCF85063_Set_All { year := 2024, month := 9, day := 20, dotw := 5, hour := 9,
                       minute := 50, second := 0 } = [0x00, 0x50, 0x09, 0x20, 0x05, 0x09, 0x54] ∧
    PCF85063_Read_Time [0x00, 0x50, 0x09, 0x20, 0x05, 0x09, 0x54] =
      { year := 2024, month := 9, day := 20, dotw := 5, hour := 9, minute := 50,
        second := 0 } :=
  have hb : PCF85063_Set_All { year := 2024, month := 9, day := 20, dotw := 5, hour := 9,
                               minute := 50, second := 0 } =
      [0x00, 0x50, 0x09, 0x20, 0x05, 0x09, 0x54] := by decide
  ⟨hb, hb ▸ (rtc_register_round_trip { year := 2024, month := 9, day := 20, dotw := 5,
                                       hour := 9, minute := 50, second := 0 }
      (by decide) (by decide) (by decide) (by decide) (by decide) (by decide) (by decide)
      (by decide)).1⟩

end KeyDetector
